import Mathlib

/-!
# HFSQtLi: the bind/fetch dispatch of `Query`, `Blob` and the open flags of `Db`

A shallow embedding of `HFSQtLi/HFSQtLi.h` and `HFSQtLi/HFSQtLi.cpp`.

* A `Query` is a record of the members the code reads and writes (`m_db` validity, `m_stmt`,
  `m_error`); every member function is a function from the state before the call to the state
  after it, paired with the returned value.  Output references (fetch destinations) are returned
  next to the state.
* The SQLite engine is not part of the repository.  Its side of a prepared statement is the
  record `Stmt`, and each `sqlite3_*` function used by the code is a small function on it.
  The outcomes of `sqlite3_step` are not computed: they are read from a script held in the
  `Stmt`, so every theorem quantified over statements covers every sequence of engine answers.
* `Query.log` is a ghost member: the list of engine calls issued so far, oldest first.
* The diagnostic text `m_errorMsg`, the flag `m_keepErrorMsg` that decides whether it is
  captured, and the `Db::Lock` mutex bracket around the engine calls are not modelled: they
  do not influence `m_error`, `m_stmt`, the returned values or the destinations.
* A value of a type with a `customBind` or `customFetch` overload is given by the calls its
  overload makes on the accessor it receives, in order; `CustomBind` and `CustomFetch` embed
  the accessors, and the generic `bindSingle<T>` and `readColumn<T>` run the calls.
* A `Call<T...>` callback is a function from the fetched values and the state of the query to
  the state it leaves and its `bool` result.
* A `Blob` is the `BlobData` it shares.  The engine side of the incremental blob calls is a
  script of answers held in the `BlobData`, next to a ghost list of the calls issued.
* Of `Db` only the computation of the open flags is embedded; the Qt and engine flag values
  it reads are constants.
-/

namespace HFSQtLi

/-! ## Status codes and column types -/

namespace SQLiteCode

/-- Modelled from the spec: the engine's "no error" code `SQLITE_OK`
(`Q_STATIC_ASSERT(SQLITE_OK==0)` in `HFSQtLi.cpp`). -/
def OK : Int := 0
/-- Modelled from the spec: the engine's `SQLITE_CONSTRAINT` code (value of `sqlite3.h`). -/
def CONSTRAINT : Int := 19
/-- Modelled from the spec: the engine's `SQLITE_MISMATCH` code (value of `sqlite3.h`). -/
def MISMATCH : Int := 20
/-- Modelled from the spec: the engine's `SQLITE_MISUSE` code (value of `sqlite3.h`). -/
def MISUSE : Int := 21
/-- Modelled from the spec: the engine's `SQLITE_RANGE` code (value of `sqlite3.h`), reported
for a bind index outside `1..P`. -/
def RANGE : Int := 25
/-- Modelled from the spec: the engine's `SQLITE_ROW` code (value of `sqlite3.h`). -/
def ROW : Int := 100
/-- Modelled from the spec: the engine's `SQLITE_DONE` code (value of `sqlite3.h`). -/
def DONE : Int := 101

/-- Embeds `SQLiteCode::isSuccess`: the codes `SQLITE_OK`, `SQLITE_DONE` and `SQLITE_ROW`. -/
def isSuccess (code : Int) : Bool :=
  code == OK || code == DONE || code == ROW

end SQLiteCode

/-- Embeds `enum class Type` (`Type` is a reserved word of Lean). -/
inductive ColType where
  | Invalid
  | Null
  | Integer
  | Float
  | Text
  | Blob
  deriving DecidableEq, Repr

/-- Modelled from the spec: the engine's fundamental datatype tags `SQLITE_INTEGER` (1),
`SQLITE_FLOAT` (2), `SQLITE_TEXT` (3), `SQLITE_BLOB` (4) and `SQLITE_NULL` (5) of
`sqlite3.h`. -/
def SQLITE_INTEGER : Int := 1
/-- Modelled from the spec: see `SQLITE_INTEGER`. -/
def SQLITE_FLOAT : Int := 2
/-- Modelled from the spec: see `SQLITE_INTEGER`. -/
def SQLITE_TEXT : Int := 3
/-- Modelled from the spec: see `SQLITE_INTEGER`. -/
def SQLITE_BLOB : Int := 4
/-- Modelled from the spec: see `SQLITE_INTEGER`. -/
def SQLITE_NULL : Int := 5

/-- Embeds `SQLiteCode::typeFromSqlite`. -/
def SQLiteCode.typeFromSqlite (type : Int) : ColType :=
  if type = SQLITE_NULL then ColType.Null
  else if type = SQLITE_INTEGER then ColType.Integer
  else if type = SQLITE_FLOAT then ColType.Float
  else if type = SQLITE_TEXT then ColType.Text
  else if type = SQLITE_BLOB then ColType.Blob
  else ColType.Invalid

/-! ## Values -/

/-- A C++ `double`: not-a-number, an infinity, or a finite value. -/
inductive Dbl where
  | nan
  | inf (negative : Bool)
  | fin (q : ℚ)
  deriving DecidableEq, Repr

/-- The magnitude `2^128 - 2^103` from which a finite `double` converts to an infinite
`float` (IEEE 754 round to nearest): the midpoint between
`std::numeric_limits<float>::max()` and `2^128`. -/
def FLT_OVERFLOW : ℚ := 340282356779733661637539395458142568448

/-- A C++ `float`, represented by a `double` that converts to it (every `float` is the
conversion of some `double`, and equal doubles convert to equal floats).  The rounding of the
mantissa is not represented. -/
structure Flt where
  ofDouble ::
  src : Dbl
  deriving DecidableEq, Repr

/-- Embeds `qIsNaN` on a `float`. -/
def Flt.isNaN (f : Flt) : Bool :=
  match f.src with
  | .nan => true
  | _ => false

/-- Embeds `qIsInf` on a `float`: the conversion of an infinity, or of a finite double beyond
the `float` range. -/
def Flt.isInf (f : Flt) : Bool :=
  match f.src with
  | .nan => false
  | .inf _ => true
  | .fin q => decide (FLT_OVERFLOW ≤ |q|)

/-- The comparison `value > std::numeric_limits<float>::max()` on a `float`: among the
`float` values only positive infinity exceeds the largest finite one. -/
def Flt.gtMax (f : Flt) : Bool :=
  match f.src with
  | .nan => false
  | .inf negative => !negative
  | .fin q => decide (FLT_OVERFLOW ≤ q)

/-- The comparison `value < -std::numeric_limits<float>::max()` on a `float`: among the
`float` values only negative infinity is below the smallest finite one. -/
def Flt.ltNegMax (f : Flt) : Bool :=
  match f.src with
  | .nan => false
  | .inf negative => negative
  | .fin q => decide (q ≤ -FLT_OVERFLOW)

/-- The integer types `readColumnInt<T>` is instantiated with. -/
inductive IntType where
  | qint8
  | quint8
  | qint16
  | quint16
  | qint32
  | quint32
  | qint64
  | quint64
  deriving DecidableEq, Repr

namespace IntType

/-- Width in bits. -/
def bits : IntType → Nat
  | qint8 => 8
  | quint8 => 8
  | qint16 => 16
  | quint16 => 16
  | qint32 => 32
  | quint32 => 32
  | qint64 => 64
  | quint64 => 64

/-- Signedness. -/
def isSigned : IntType → Bool
  | qint8 => true
  | qint16 => true
  | qint32 => true
  | qint64 => true
  | _ => false

/-- Embeds `std::numeric_limits<T>::min()`. -/
def min (T : IntType) : Int :=
  if T.isSigned then -(2 : Int) ^ (T.bits - 1) else 0

/-- Embeds `std::numeric_limits<T>::max()`. -/
def max (T : IntType) : Int :=
  if T.isSigned then (2 : Int) ^ (T.bits - 1) - 1 else (2 : Int) ^ T.bits - 1

/-- The values a variable of type `T` can hold. -/
def inRange (T : IntType) (v : Int) : Prop :=
  T.min ≤ v ∧ v ≤ T.max

instance (T : IntType) (v : Int) : Decidable (T.inRange v) := by
  unfold inRange
  exact inferInstance

/-- The conversion of a `qint64` to `T` in an assignment `value=value64`: reduction modulo
`2^bits` into the range of `T`. -/
def wrap (T : IntType) (v : Int) : Int :=
  if T.isSigned then
    (v + (2 : Int) ^ (T.bits - 1)) % (2 : Int) ^ T.bits - (2 : Int) ^ (T.bits - 1)
  else
    v % (2 : Int) ^ T.bits

end IntType

/-- One dynamically typed engine value: the five storage classes. -/
inductive SqlValue where
  | null
  | integer (v : Int)
  | float (d : Dbl)
  | text (s : String)
  | blob (b : List Nat)
  deriving DecidableEq, Repr

/-- Modelled from the spec: the datatype tag the engine reports for a value
(`sqlite3_column_type`). -/
def SqlValue.typeCode : SqlValue → Int
  | .null => SQLITE_NULL
  | .integer _ => SQLITE_INTEGER
  | .float _ => SQLITE_FLOAT
  | .text _ => SQLITE_TEXT
  | .blob _ => SQLITE_BLOB

/-! ## The engine side of a prepared statement -/

/-- One value handed to the engine by a successful `sqlite3_bind_*` call, with the lifetime
hint (`SQLITE_STATIC` when `isStatic`, else `SQLITE_TRANSIENT`). -/
structure Binding where
  index : Int
  value : SqlValue
  isStatic : Bool
  deriving DecidableEq, Repr

/-- Modelled from the spec: the engine's prepared statement (`sqlite3_stmt`), as far as the
`sqlite3_*` calls of `Query` observe it.
* `paramCount`: `sqlite3_bind_parameter_count`; `columnCount`: `sqlite3_column_count`.
* `row`: the values of the current row (empty when the statement is not on a row).
* `steps`: the answers the engine will give to the next `sqlite3_step` calls, each a status
  code and, for `SQLITE_ROW`, the row produced; past the end of the script the engine
  answers `SQLITE_DONE`.
* `lastStep`: the code of the most recent `sqlite3_step` since the last reset.
* `bound`: the values bound so far, most recent last.
* `asInt`, `asDouble`, `asText`, `asBlob`: the engine's coercion of a value of another
  storage class, as applied by `sqlite3_column_int64`, `_double`, `_text` and `_blob`.
* `origin`: for a result column, what `sqlite3_column_database_name`,
  `sqlite3_column_table_name` and `sqlite3_column_origin_name` return (a null pointer is
  `none`); the library is taken as compiled with `SQLITE_ENABLE_COLUMN_METADATA`. -/
structure Stmt where
  paramCount : Nat
  columnCount : Nat
  row : List SqlValue
  steps : List (Int × List SqlValue)
  lastStep : Int
  bound : List Binding
  asInt : SqlValue → Int
  asDouble : SqlValue → Dbl
  asText : SqlValue → String
  asBlob : SqlValue → List Nat
  origin : Int → Option String × Option String × Option String := fun _ => (none, none, none)

/-- The engine calls a `Query` issues, with the arguments that identify them. -/
inductive EngineCall where
  | prepare
  | finalize
  | reset
  | clearBindings
  | step
  | bindParameterCount
  | columnCount
  | bindNull (i : Int)
  | bindZeroBlob (i : Int) (size : Nat)
  | bindInt64 (i : Int) (value : Int)
  | bindDouble (i : Int) (value : Dbl)
  | bindText (i : Int) (value : String) (isStatic : Bool)
  | bindText16 (i : Int) (value : String) (isStatic : Bool)
  | bindBlob64 (i : Int) (value : List Nat) (isStatic : Bool)
  | columnType (i : Int)
  | columnInt64 (i : Int)
  | columnDouble (i : Int)
  | columnText (i : Int)
  | columnBytes (i : Int)
  | columnBlob (i : Int)
  | columnDatabaseName (i : Int)
  | columnTableName (i : Int)
  | columnOriginName (i : Int)
  deriving DecidableEq, Repr

/-- Modelled from the spec: `sqlite3_step`.  The next scripted answer is consumed; a
`SQLITE_ROW` answer makes its row current, any other answer leaves no current row. -/
def sqlite3_step (s : Stmt) : Stmt × Int :=
  match s.steps with
  | [] => ({ s with row := [], lastStep := SQLiteCode.DONE }, SQLiteCode.DONE)
  | (rc, r) :: rest =>
    ({ s with steps := rest, row := if rc = SQLiteCode.ROW then r else [], lastStep := rc }, rc)

/-- Modelled from the spec: the code `sqlite3_reset` and `sqlite3_finalize` return:
`SQLITE_OK` unless the most recent `sqlite3_step` reported an error, whose code is then
returned. -/
def Stmt.pendingError (s : Stmt) : Int :=
  if SQLiteCode.isSuccess s.lastStep then SQLiteCode.OK else s.lastStep

/-- Modelled from the spec: `sqlite3_reset`: leaves the current row and clears the pending
step error. -/
def sqlite3_reset (s : Stmt) : Stmt × Int :=
  ({ s with row := [], lastStep := SQLiteCode.OK }, s.pendingError)

/-- Modelled from the spec: `sqlite3_finalize` (the statement itself is dropped by the
caller). -/
def sqlite3_finalize (s : Stmt) : Int :=
  s.pendingError

/-- Modelled from the spec: `sqlite3_clear_bindings`. -/
def sqlite3_clear_bindings (s : Stmt) : Stmt × Int :=
  ({ s with bound := [] }, SQLiteCode.OK)

/-- Modelled from the spec: the `sqlite3_bind_*` family ("bind-by-1-based-index"): the engine
accepts a bind at index `i` iff `1 ≤ i ≤ paramCount`, and reports `SQLITE_RANGE` otherwise;
on a null statement it reports `SQLITE_MISUSE`. -/
def sqlite3_bind (stmt : Option Stmt) (i : Int) (value : SqlValue) (isStatic : Bool) :
    Option Stmt × Int :=
  match stmt with
  | none => (none, SQLiteCode.MISUSE)
  | some s =>
    if 1 ≤ i ∧ i ≤ (s.paramCount : Int) then
      (some { s with bound := s.bound ++ [⟨i, value, isStatic⟩] }, SQLiteCode.OK)
    else (some s, SQLiteCode.RANGE)

/-- Modelled from the spec: `sqlite3_bind_parameter_count`. -/
def sqlite3_bind_parameter_count (s : Stmt) : Int :=
  (s.paramCount : Int)

/-- Modelled from the spec: `sqlite3_column_count` (0 on a null statement). -/
def sqlite3_column_count (stmt : Option Stmt) : Int :=
  match stmt with
  | none => 0
  | some s => (s.columnCount : Int)

/-- Modelled from the spec: the value the `sqlite3_column_*` accessors read at 0-based index
`i`: the `i`-th value of the current row, and SQL NULL when there is no such value (index out
of range, no current row, null statement). -/
def columnValue (stmt : Option Stmt) (i : Int) : SqlValue :=
  match stmt with
  | none => SqlValue.null
  | some s => if 0 ≤ i then s.row.getD i.toNat SqlValue.null else SqlValue.null

/-- Modelled from the spec: `sqlite3_column_type`. -/
def sqlite3_column_type (stmt : Option Stmt) (i : Int) : Int :=
  (columnValue stmt i).typeCode

/-- Modelled from the spec: the integer the engine reads from a value: the stored integer,
0 for NULL, and the engine's coercion for the other storage classes. -/
def Stmt.int64Of (s : Stmt) : SqlValue → Int
  | .integer v => v
  | .null => 0
  | .float d => s.asInt (.float d)
  | .text t => s.asInt (.text t)
  | .blob b => s.asInt (.blob b)

/-- Modelled from the spec: the double the engine reads from a value: the stored float, 0.0
for NULL, and the engine's coercion for the other storage classes. -/
def Stmt.doubleOf (s : Stmt) : SqlValue → Dbl
  | .float d => d
  | .null => Dbl.fin 0
  | .integer v => s.asDouble (.integer v)
  | .text t => s.asDouble (.text t)
  | .blob b => s.asDouble (.blob b)

/-- Modelled from the spec: the text the engine reads from a value: the stored text, the
empty string for NULL, and the engine's coercion for the other storage classes. -/
def Stmt.textOf (s : Stmt) : SqlValue → String
  | .text t => t
  | .null => ""
  | .integer v => s.asText (.integer v)
  | .float d => s.asText (.float d)
  | .blob b => s.asText (.blob b)

/-- Modelled from the spec: the bytes the engine reads from a value: the stored bytes, no
bytes for NULL, and the engine's coercion for the other storage classes. -/
def Stmt.blobOf (s : Stmt) : SqlValue → List Nat
  | .blob b => b
  | .null => []
  | .integer v => s.asBlob (.integer v)
  | .float d => s.asBlob (.float d)
  | .text t => s.asBlob (.text t)

/-- Modelled from the spec: `sqlite3_column_int64` (0 on a null statement). -/
def sqlite3_column_int64 (stmt : Option Stmt) (i : Int) : Int :=
  match stmt with
  | none => 0
  | some s => s.int64Of (columnValue stmt i)

/-- Modelled from the spec: `sqlite3_column_double` (0.0 on a null statement). -/
def sqlite3_column_double (stmt : Option Stmt) (i : Int) : Dbl :=
  match stmt with
  | none => Dbl.fin 0
  | some s => s.doubleOf (columnValue stmt i)

/-- Modelled from the spec: `sqlite3_column_text` followed by `QString::fromUtf8` (the empty
string on a null statement). -/
def sqlite3_column_text (stmt : Option Stmt) (i : Int) : String :=
  match stmt with
  | none => ""
  | some s => s.textOf (columnValue stmt i)

/-- Modelled from the spec: `sqlite3_column_blob` (no bytes on a null statement). -/
def sqlite3_column_blob (stmt : Option Stmt) (i : Int) : List Nat :=
  match stmt with
  | none => []
  | some s => s.blobOf (columnValue stmt i)

/-- Modelled from the spec: `sqlite3_column_bytes`: the length of what `sqlite3_column_blob`
returns. -/
def sqlite3_column_bytes (stmt : Option Stmt) (i : Int) : Int :=
  ((sqlite3_column_blob stmt i).length : Int)

/-- Modelled from the spec: `sqlite3_prepare_v3`.  The outcome of compiling the SQL text is an
input: an error code, or success with the compiled statement (none when the text holds no
SQL).  On an error no statement is produced. -/
def sqlite3_prepare_v3 (compiled : Except Int (Option Stmt)) : Int × Option Stmt :=
  match compiled with
  | .error rc => (rc, none)
  | .ok stmt => (SQLiteCode.OK, stmt)

/-! ## `BlobData`: the incremental blob handle -/

/-- Modelled from the spec: what an open engine handle (`sqlite3_blob`) is open on: the
connection, the database, table and column names, the row, and whether it was opened for
writing. -/
structure BlobHandle where
  db : Nat
  database : String
  table : String
  column : String
  rowId : Int
  readWrite : Bool
  deriving DecidableEq, Repr

/-- The engine calls a `BlobData` issues, with the arguments that identify them. -/
inductive BlobCall where
  | blobOpen (db : Nat) (database table column : String) (rowId : Int) (flags : Int)
  | blobReopen (rowId : Int)
  | blobClose
  | blobBytes
  deriving DecidableEq, Repr

/-- The members of `class BlobData`, and two ghost members: `answers`, the status codes the
engine will give to the next `sqlite3_blob_*` calls made through this object (past the end
of the script the engine answers `SQLITE_OK`), and `calls`, the engine calls issued so far,
oldest first.  A null `const char *` or `Db *` is `none`; an open `m_blob` records what the
engine handle is open on. -/
structure BlobData where
  m_db : Option Nat
  m_blob : Option BlobHandle
  m_database : Option String
  m_table : Option String
  m_column : Option String
  m_rowId : Int
  m_hasRowId : Bool
  m_readWrite : Bool
  m_autoOpen : Bool
  m_sizeCache : Int
  answers : List Int
  calls : List BlobCall
  deriving DecidableEq, Repr

namespace BlobData

/-- Modelled from the spec: one `sqlite3_blob_*` call: it is recorded and the next scripted
answer is consumed. -/
def engine (b : BlobData) (c : BlobCall) : BlobData × Int :=
  match b.answers with
  | [] => ({ b with calls := b.calls ++ [c] }, SQLiteCode.OK)
  | rc :: rest => ({ b with answers := rest, calls := b.calls ++ [c] }, rc)

/-- Embeds `BlobData::BlobData(connection, nullptr, nullptr, nullptr, readWrite, autoOpen)`,
the state a default-constructed `Blob` wraps when `connection` is null, `readWrite` false and
`autoOpen` true; `m_rowId` starts at the least `qint64`. -/
def new (connection : Option Nat) (readWrite autoOpen : Bool) (answers : List Int) : BlobData :=
  { m_db := connection, m_blob := none, m_database := none, m_table := none, m_column := none,
    m_rowId := -(2 ^ 63), m_hasRowId := false, m_readWrite := readWrite, m_autoOpen := autoOpen,
    m_sizeCache := -1, answers := answers, calls := [] }

/-- Embeds `BlobData::isOpen`. -/
def isOpen (b : BlobData) : Bool :=
  b.m_blob.isSome

/-- Embeds `BlobData::isValid`. -/
def isValid (b : BlobData) : Bool :=
  b.m_db.isSome && b.m_table.isSome && b.m_column.isSome && b.m_hasRowId

/-- Embeds `BlobData::setAutoOpen`. -/
def setAutoOpen (newAutoOpen : Bool) (b : BlobData) : BlobData × Bool :=
  ({ b with m_autoOpen := newAutoOpen }, true)

/-- Embeds `BlobData::close`: the handle is dropped only when the engine accepts the close. -/
def close (b : BlobData) : BlobData × Bool :=
  match b.m_blob with
  | none => (b, true)
  | some _ =>
    let r := b.engine .blobClose
    if r.2 = SQLiteCode.OK then ({ r.1 with m_blob := none, m_sizeCache := -1 }, true)
    else (r.1, false)

/-- Embeds `BlobData::open(QString *errorMsg)`: `sqlite3_blob_open` on the database
`m_database?m_database:"main"`; the engine stores a handle on success and a null handle
otherwise.  (`open` is a keyword here.) -/
def open_ (b : BlobData) : BlobData × Bool :=
  if b.m_db.isSome && b.m_table.isSome && b.m_column.isSome && b.m_hasRowId
      && !b.m_blob.isSome then
    let r := b.engine (.blobOpen (b.m_db.getD 0) (b.m_database.getD "main")
      (b.m_table.getD "") (b.m_column.getD "") b.m_rowId (if b.m_readWrite then 1 else 0))
    if r.2 = SQLiteCode.OK then
      ({ r.1 with m_blob := some ⟨b.m_db.getD 0, b.m_database.getD "main", b.m_table.getD "",
          b.m_column.getD "", b.m_rowId, b.m_readWrite⟩ }, true)
    else (r.1, false)
  else (b, false)

/-- Embeds `BlobData::reopenFast`: on a failed `sqlite3_blob_reopen` the handle is closed
(the answer to that close is ignored) and dropped. -/
def reopenFast (newId : Int) (b : BlobData) : BlobData × Bool :=
  match b.m_blob with
  | none => ({ b with m_sizeCache := -1 }, false)
  | some h =>
    let r := ({ b with m_rowId := newId } : BlobData).engine (.blobReopen newId)
    if r.2 ≠ SQLiteCode.OK then
      let c := r.1.engine .blobClose
      ({ c.1 with m_blob := none, m_sizeCache := -1 }, false)
    else ({ r.1 with m_blob := some { h with rowId := newId }, m_sizeCache := -1 }, true)

/-- Embeds `BlobData::checkAutoOpen`. -/
def checkAutoOpen (b : BlobData) : BlobData × Bool :=
  if b.m_autoOpen && b.m_db.isSome && b.m_table.isSome && b.m_column.isSome && b.m_hasRowId then
    b.open_
  else (b, true)

/-- Embeds `BlobData::setDbPointer` (the `m_queryCount` bookkeeping of `Db` is left out). -/
def setDbPointer (db : Option Nat) (b : BlobData) : BlobData × Bool :=
  if db == b.m_db && (b.m_blob.isSome || !b.m_autoOpen) then (b, true)
  else
    let c := b.close
    if c.2 then ({ c.1 with m_db := db } : BlobData).checkAutoOpen else (c.1, false)

/-- Embeds `BlobData::setDatabase`; its shortcut test is
`((m_database && database && !strcmp(database, m_database)) || (!m_database && database))
&& (m_blob || !m_autoOpen)`. -/
def setDatabase (database : Option String) (b : BlobData) : BlobData × Bool :=
  if ((b.m_database.isSome && database.isSome && database == b.m_database)
      || (!b.m_database.isSome && database.isSome)) && (b.m_blob.isSome || !b.m_autoOpen) then
    (b, true)
  else
    let c := b.close
    if c.2 then ({ c.1 with m_database := database } : BlobData).checkAutoOpen else (c.1, false)

/-- Embeds `BlobData::setTable`. -/
def setTable (table : Option String) (b : BlobData) : BlobData × Bool :=
  if b.m_table.isSome && table.isSome && table == b.m_table
      && (b.m_blob.isSome || !b.m_autoOpen) then
    (b, true)
  else
    let c := b.close
    if c.2 then ({ c.1 with m_table := table } : BlobData).checkAutoOpen else (c.1, false)

/-- Embeds `BlobData::setColumn`. -/
def setColumn (column : Option String) (b : BlobData) : BlobData × Bool :=
  if b.m_column.isSome && column.isSome && column == b.m_column
      && (b.m_blob.isSome || !b.m_autoOpen) then
    (b, true)
  else
    let c := b.close
    if c.2 then ({ c.1 with m_column := column } : BlobData).checkAutoOpen else (c.1, false)

/-- Embeds `BlobData::setRowId`. -/
def setRowId (value : Int) (b : BlobData) : BlobData × Bool :=
  if b.m_hasRowId && b.m_rowId == value && (b.m_blob.isSome || !b.m_autoOpen) then (b, true)
  else if b.m_blob.isSome && b.m_autoOpen then b.reopenFast value
  else
    let c := b.close
    if c.2 then
      let b1 : BlobData := { c.1 with m_rowId := value, m_hasRowId := true }
      if !b1.m_autoOpen || !b1.isValid then (b1, true) else b1.open_
    else (c.1, false)

end BlobData

/-- Embeds `Blob::set(Db *db, const char *database, const char *table, const char *column)`
on the `BlobData` the `Blob` shares: the setters are chained with `&&`, so the first one
that fails skips the following ones. -/
def Blob.set (db : Option Nat) (database table column : Option String) (b : BlobData) :
    BlobData × Bool :=
  let curAutoOpen := b.m_autoOpen
  let a := b.setAutoOpen false
  let r : BlobData × Bool :=
    if a.2 then
      let d := a.1.setDbPointer db
      if d.2 then
        let e := d.1.setDatabase database
        if e.2 then
          let t := e.1.setTable table
          if t.2 then t.1.setColumn column else (t.1, false)
        else (e.1, false)
      else (d.1, false)
    else (a.1, false)
  let s := r.1.setAutoOpen curAutoOpen
  let c := s.1.checkAutoOpen
  (c.1, r.2 && c.2)

/-- Embeds `Blob::set(Db *db, const char *database, const char *table, const char *column,
qint64 rowid)`. -/
def Blob.setWithRowId (db : Option Nat) (database table column : Option String) (rowid : Int)
    (b : BlobData) : BlobData × Bool :=
  let curAutoOpen := b.m_autoOpen
  let a := b.setAutoOpen false
  let r : BlobData × Bool :=
    if a.2 then
      let d := a.1.setDbPointer db
      if d.2 then
        let e := d.1.setDatabase database
        if e.2 then
          let t := e.1.setTable table
          if t.2 then
            let c := t.1.setColumn column
            if c.2 then c.1.setRowId rowid else (c.1, false)
          else (t.1, false)
        else (e.1, false)
      else (d.1, false)
    else (a.1, false)
  let s := r.1.setAutoOpen curAutoOpen
  let c := s.1.checkAutoOpen
  (c.1, r.2 && c.2)

/-- Embeds `Blob::set(Db *db, const char *database, const char *table, qint64 rowid)`. -/
def Blob.setTableRow (db : Option Nat) (database table : Option String) (rowid : Int)
    (b : BlobData) : BlobData × Bool :=
  let curAutoOpen := b.m_autoOpen
  let a := b.setAutoOpen false
  let r : BlobData × Bool :=
    if a.2 then
      let d := a.1.setDbPointer db
      if d.2 then
        let e := d.1.setDatabase database
        if e.2 then
          let t := e.1.setTable table
          if t.2 then t.1.setRowId rowid else (t.1, false)
        else (e.1, false)
      else (d.1, false)
    else (a.1, false)
  let s := r.1.setAutoOpen curAutoOpen
  let c := s.1.checkAutoOpen
  (c.1, r.2 && c.2)

/-- Embeds `Blob::database`: `m_data->database()?m_data->database():"main"`. -/
def Blob.database (b : BlobData) : String :=
  b.m_database.getD "main"

/-- Embeds `Blob::rowId`. -/
def Blob.rowId (b : BlobData) : Int :=
  b.m_rowId

namespace BlobData

/-- Embeds `BlobData::size`: -1 on a closed blob; on an open one the cached size, read from
the engine when the cache is not positive.  The answer of `sqlite3_blob_bytes` is the next
entry of the script. -/
def size (b : BlobData) : BlobData × Int :=
  match b.m_blob with
  | none => (b, -1)
  | some _ =>
    if b.m_sizeCache ≤ 0 then
      let r := b.engine .blobBytes
      ({ r.1 with m_sizeCache := r.2 }, r.2)
    else (b, b.m_sizeCache)

/-- Embeds `BlobData::open(qint64 id, QString *errorMsg)`. -/
def openId (id : Int) (b : BlobData) : BlobData × Bool :=
  if b.isOpen then b.reopenFast id
  else ({ b with m_rowId := id, m_hasRowId := true } : BlobData).open_

/-- Embeds `BlobData::setReadWrite`. -/
def setReadWrite (readWrite : Bool) (b : BlobData) : BlobData × Bool :=
  if !b.m_blob.isSome then ({ b with m_readWrite := readWrite }, true) else (b, false)

/-- The answer the engine will give to the next blob call made through `b`. -/
def nextAnswer (b : BlobData) : Int :=
  match b.answers with
  | [] => SQLiteCode.OK
  | rc :: _ => rc

/-- The blob is open and its engine handle is on the row `v`. -/
def isOpenOn (v : Int) (b : BlobData) : Bool :=
  match b.m_blob with
  | none => false
  | some h => h.rowId == v

end BlobData

/-- Modelled from the spec: the engine's `sqlite3_errstr`, the English text of a status code;
only the text of `SQLITE_MISUSE` is spelled out, as `sqlite3.c` has it. -/
def sqlite3_errstr (code : Int) : String :=
  if code = SQLiteCode.MISUSE then "bad parameter or other API misuse"
  else if code = SQLiteCode.OK then "not an error"
  else "unknown error"

/-- Embeds `SQLiteCode::errorString`:
`isSuccess(code)?QString():QString::fromUtf8(sqlite3_errstr(code))`. -/
def SQLiteCode.errorString (code : Int) : String :=
  if SQLiteCode.isSuccess code then "" else sqlite3_errstr code

/-- Embeds what `BlobData::open(QString *errorMsg)` leaves in `*errorMsg` (`none` is a null
pointer): the text of `SQLITE_MISUSE` when the guard fails; after the engine call,
`lock.release(errorMsg)`, which clears the text on a success code and otherwise stores the
text of the code (the engine's `sqlite3_errmsg` is taken to be the text of its last code). -/
def BlobData.openErrorMsg (b : BlobData) (errorMsg : Option String) : Option String :=
  if b.m_db.isSome && b.m_table.isSome && b.m_column.isSome && b.m_hasRowId
      && !b.m_blob.isSome then
    match errorMsg with
    | none => none
    | some _ =>
      if SQLiteCode.isSuccess b.nextAnswer then some ""
      else if b.nextAnswer = SQLiteCode.MISUSE then
        some (SQLiteCode.errorString SQLiteCode.MISUSE)
      else some (sqlite3_errstr b.nextAnswer)
  else
    match errorMsg with
    | none => none
    | some _ => some (SQLiteCode.errorString SQLiteCode.MISUSE)

/-- A call on a `Blob`, with its arguments. -/
inductive BlobOp where
  | open_
  | openId (id : Int)
  | close
  | reopenFast (newId : Int)
  | setDbPointer (db : Option Nat)
  | setDatabase (database : Option String)
  | setTable (table : Option String)
  | setColumn (column : Option String)
  | setRowId (value : Int)
  | setAutoOpen (newAutoOpen : Bool)
  | setReadWrite (readWrite : Bool)
  | set (db : Option Nat) (database table column : Option String)
  | setWithRowId (db : Option Nat) (database table column : Option String) (rowid : Int)
  | setTableRow (db : Option Nat) (database table : Option String) (rowid : Int)
  deriving DecidableEq, Repr

/-- The effect of one call on a `Blob`: the state after it and the returned `bool`. -/
def BlobData.apply (b : BlobData) : BlobOp → BlobData × Bool
  | .open_ => b.open_
  | .openId id => b.openId id
  | .close => b.close
  | .reopenFast newId => b.reopenFast newId
  | .setDbPointer db => b.setDbPointer db
  | .setDatabase database => b.setDatabase database
  | .setTable table => b.setTable table
  | .setColumn column => b.setColumn column
  | .setRowId value => b.setRowId value
  | .setAutoOpen newAutoOpen => b.setAutoOpen newAutoOpen
  | .setReadWrite readWrite => b.setReadWrite readWrite
  | .set db database table column => Blob.set db database table column b
  | .setWithRowId db database table column rowid =>
    Blob.setWithRowId db database table column rowid b
  | .setTableRow db database table rowid => Blob.setTableRow db database table rowid b

/-- The state after a sequence of calls on a `Blob`, first call first. -/
def BlobData.applyAll : BlobData → List BlobOp → BlobData
  | b, [] => b
  | b, op :: rest => BlobData.applyAll (b.apply op).1 rest

/-! ## The open flags of `Db` -/

/-- Modelled from the spec: the values of Qt's `QIODevice::OpenModeFlag` (`ReadOnly` 0x1,
`WriteOnly` 0x2, `ReadWrite = ReadOnly | WriteOnly`, `Append` 0x4). -/
def QIODevice.ReadOnly : Nat := 1
/-- Modelled from the spec: see `QIODevice.ReadOnly`. -/
def QIODevice.WriteOnly : Nat := 2
/-- Modelled from the spec: see `QIODevice.ReadOnly`. -/
def QIODevice.ReadWrite : Nat := 3
/-- Modelled from the spec: see `QIODevice.ReadOnly`. -/
def QIODevice.Append : Nat := 4

/-- Modelled from the spec: the engine's open flags of `sqlite3.h`: `SQLITE_OPEN_READONLY`
0x1, `SQLITE_OPEN_READWRITE` 0x2, `SQLITE_OPEN_CREATE` 0x4, `SQLITE_OPEN_EXRESCODE`
0x02000000. -/
def SQLITE_OPEN_READONLY : Nat := 1
/-- Modelled from the spec: see `SQLITE_OPEN_READONLY`. -/
def SQLITE_OPEN_READWRITE : Nat := 2
/-- Modelled from the spec: see `SQLITE_OPEN_READONLY`. -/
def SQLITE_OPEN_CREATE : Nat := 4
/-- Modelled from the spec: see `SQLITE_OPEN_READONLY`. -/
def SQLITE_OPEN_EXRESCODE : Nat := 0x02000000

/-- Embeds the computation of `sqliteFlags` in `Db::Db(filename, flags, zVfs)`, which
`Db::open` hands to `sqlite3_open_v2`. -/
def Db.sqliteFlags (flags : Nat) : Nat :=
  let f0 := SQLITE_OPEN_EXRESCODE
  let f1 :=
    if flags &&& QIODevice.ReadWrite ≠ 0 then f0 ||| SQLITE_OPEN_READWRITE
    else f0 ||| SQLITE_OPEN_READONLY
  if flags &&& QIODevice.Append = 0 then f1 ||| SQLITE_OPEN_CREATE else f1

/-- The flag `bit` is set in `word`. -/
def flagSet (bit word : Nat) : Bool :=
  word &&& bit != 0

/-! ## Fetched values -/

/-- A value held by a fetch destination, as handed to a `Call` callback. -/
inductive Val where
  | int (T : IntType) (value : Int)
  | dbl (value : Dbl)
  | flt (value : Flt)
  | qstring (value : String)
  | bytes (value : List Nat)
  | unused (I : Nat)
  | opt (value : Option Val)
  | blob (value : BlobData)
  | tuple (elems : List Val)
  /-- The values of the destinations a custom type's overload fetched into, in call order. -/
  | custom (fields : List Val)

/-! ## `Query`: state and elementary operations -/

/-- The members of `class Query` (see the header of this file), and the ghost `log`. -/
structure Query where
  /-- Embeds `m_db && m_db->m_db`, the value of `isDbValid()`. -/
  dbValid : Bool
  m_stmt : Option Stmt
  m_error : Int
  log : List EngineCall
  /-- Embeds the pointer `m_db`: the identity of the connection the query was created on. -/
  m_db : Option Nat := some 0

namespace Query

/-- Embeds `Query::Query(Db *db, bool storeErrorMsg)`: a non prepared query.  `m_error` is not
initialised by the constructor; it is an input here. -/
def new (dbValid : Bool) (m_error : Int) : Query :=
  { dbValid := dbValid, m_stmt := none, m_error := m_error, log := [] }

/-- Record an engine call in the ghost log. -/
def call (q : Query) (c : EngineCall) : Query :=
  { q with log := q.log ++ [c] }

/-- Embeds `Query::isPrepared`. -/
def isPrepared (q : Query) : Bool :=
  q.m_stmt.isSome

/-- Embeds `Query::isDbValid`. -/
def isDbValid (q : Query) : Bool :=
  q.dbValid

/-- Embeds `Query::setInternalError`. -/
def setInternalError (q : Query) (code : Int) : Query :=
  { q with m_error := code }

/-- Embeds `Query::resetInternalError`. -/
def resetInternalError (q : Query) : Query :=
  { q with m_error := SQLiteCode.OK }

/-- Embeds `Query::error`. -/
def error (q : Query) : Int :=
  q.m_error

/-- Embeds `Query::isOk`. -/
def isOk (q : Query) : Bool :=
  q.m_error == SQLiteCode.OK

/-- Embeds `Query::isDone`. -/
def isDone (q : Query) : Bool :=
  q.m_error == SQLiteCode.DONE

/-- Embeds `Query::fetchErrorString`: its result, `SQLiteCode::isSuccess(m_error)`. -/
def fetchErrorString (q : Query) : Bool :=
  SQLiteCode.isSuccess q.m_error

/-- Embeds `Query::prepare`; `compiled` is the engine's outcome for the SQL text. -/
def prepare (q : Query) (compiled : Except Int (Option Stmt)) : Query × Bool :=
  if q.isDbValid then
    let q1 := { q with m_error := SQLiteCode.OK }
    let q2 :=
      match q1.m_stmt with
      | some s => { (q1.call .finalize) with m_error := sqlite3_finalize s, m_stmt := none }
      | none => q1
    let q3 :=
      if q2.m_error == SQLiteCode.OK then
        let r := sqlite3_prepare_v3 compiled
        { (q2.call .prepare) with m_error := r.1, m_stmt := r.2 }
      else q2
    (q3, q3.m_error == SQLiteCode.OK)
  else
    let q1 := q.setInternalError SQLiteCode.MISUSE
    (q1, q1.m_error == SQLiteCode.OK)

/-- Embeds `Query::stepNoFetch`. -/
def stepNoFetch (q : Query) : Query × Bool :=
  match q.m_stmt with
  | none => (q.setInternalError SQLiteCode.MISUSE, false)
  | some s =>
    let r := sqlite3_step s
    let q1 := { (q.call .step) with m_stmt := some r.1, m_error := r.2 }
    (q1, q1.m_error == SQLiteCode.ROW)

/-- Embeds `Query::finalize`. -/
def finalize (q : Query) : Query × Bool :=
  match q.m_stmt with
  | none => (q.setInternalError SQLiteCode.MISUSE, false)
  | some s =>
    let q1 := { (q.call .finalize) with m_error := sqlite3_finalize s, m_stmt := none }
    (q1, q1.m_error == SQLiteCode.OK)

/-- Embeds `Query::reset`. -/
def reset (q : Query) : Query × Bool :=
  match q.m_stmt with
  | none => (q.setInternalError SQLiteCode.MISUSE, false)
  | some s =>
    let r := sqlite3_reset s
    let q1 := { (q.call .reset) with m_stmt := some r.1, m_error := r.2 }
    (q1, q1.m_error == SQLiteCode.OK)

/-- Embeds `Query::clearBindings`. -/
def clearBindings (q : Query) : Query × Bool :=
  match q.m_stmt with
  | none => (q.setInternalError SQLiteCode.MISUSE, false)
  | some s =>
    let r := sqlite3_clear_bindings s
    let q1 := { (q.call .clearBindings) with m_stmt := some r.1, m_error := r.2 }
    (q1, q1.m_error == SQLiteCode.OK)

/-- Embeds `Query::clearBindingInternal`: clears the bindings without changing `m_error`. -/
def clearBindingInternal (q : Query) : Query × Int :=
  match q.m_stmt with
  | none => (q, SQLiteCode.MISUSE)
  | some s =>
    let r := sqlite3_clear_bindings s
    ({ (q.call .clearBindings) with m_stmt := some r.1 }, r.2)

end Query

/-! ## Bind and fetch arguments -/

mutual
/-- A value accepted by the bind functions (the `bindSingle` overload set). -/
inductive BindArg where
  /-- Embeds `std::nullptr_t` and `Null`. -/
  | null
  /-- Embeds `ZeroBlob` of the given size. -/
  | zeroBlob (size : Nat)
  /-- Embeds `qint64`, and `int` and `unsigned`, which are cast to `qint64`. -/
  | int64 (value : Int)
  /-- Embeds `double`. -/
  | dbl (value : Dbl)
  /-- Embeds `const char *`. -/
  | cstr (value : String)
  /-- Embeds `QString`. -/
  | qstring (value : String)
  /-- Embeds `QByteArray`. -/
  | bytes (value : List Nat)
  /-- Embeds `std::tuple<T...>`. -/
  | tuple (elems : List BindArg)
  /-- A value of a type with a `customBind` overload, given by the calls the overload makes on
  its `CustomBind` accessor for this value, in order. -/
  | custom (ops : List BindOp)
/-- One call of a `customBind` overload on its accessor: `bind(values...)` or
`bindIndex(i, values...)`. -/
inductive BindOp where
  | bind (values : List BindArg)
  | bindIndex (i : Int) (values : List BindArg)
end

mutual
/-- A destination accepted by the fetch functions (the `readColumn` overload set), with the
value it currently holds. -/
inductive FetchArg where
  /-- An integer variable of type `T`. -/
  | int (T : IntType) (value : Int)
  /-- Embeds `double`. -/
  | dbl (value : Dbl)
  /-- Embeds `float`. -/
  | flt (value : Flt)
  /-- Embeds `QString`. -/
  | qstring (value : String)
  /-- Embeds `QByteArray`. -/
  | bytes (value : List Nat)
  /-- Embeds `Helper::UnusedColumns<I>` (`Unused`, `UnusedN<I>`). -/
  | unused (I : Nat)
  /-- Embeds `std::tuple<Args...>`. -/
  | tuple (elems : List FetchArg)
  /-- Embeds `std::optional<T>`: the value held, if any, and `fresh`, the value-initialised
  `T` that `emplace()` constructs. -/
  | opt (value : Option FetchArg) (fresh : FetchArg)
  /-- Embeds `Call<T...>`: `data`, the default-constructed `std::tuple<T...>` the fetch reads
  into, and the callback (`none` when the `std::function` is empty).  The callback receives the
  fetched values and may act on the query. -/
  | call (data : List FetchArg) (function : Option (List Val → Query → Query × Bool))
  /-- A destination of a type with a `customFetch` overload, given by the calls the overload
  makes on its `CustomFetch` accessor for this destination, in order. -/
  | custom (ops : List FetchOp)
  /-- Embeds `Blob`. -/
  | blob (value : BlobData)
/-- One call of a `customFetch` overload on its accessor: `fetch(values...)` or
`fetchIndex(strict, i, values...)`. -/
inductive FetchOp where
  | fetch (values : List FetchArg)
  | fetchIndex (strict : Bool) (i : Int) (values : List FetchArg)
end

/-- The scalar bind values: everything but a tuple and a value of a custom type. -/
def BindArg.isScalar : BindArg → Bool
  | .tuple _ => false
  | .custom _ => false
  | _ => true

/-- The scalar fetch destinations: integers, `double`, `float`, `QString`, `QByteArray`. -/
def FetchArg.isScalar : FetchArg → Bool
  | .int _ _ => true
  | .dbl _ => true
  | .flt _ => true
  | .qstring _ => true
  | .bytes _ => true
  | _ => false

namespace Query

/-! ## Bind -/

/-- The common body of the scalar `bindSingle` overloads:
`m_error=sqlite3_bind_X(m_stmt, i, ...); return fetchErrorString()?2:0;`. -/
def bindEngine (q : Query) (c : EngineCall) (i : Int) (value : SqlValue) (isStatic : Bool) :
    Query × Int :=
  let r := sqlite3_bind q.m_stmt i value isStatic
  let q1 := { (q.call c) with m_stmt := r.1, m_error := r.2 }
  (q1, if q1.fetchErrorString then 2 else 0)

mutual
/-- Embeds `Query::bindSingle(bool temporary, int i, ...)`, the overload chosen by the type of
the argument. -/
def bindSingle (temporary : Bool) (i : Int) : BindArg → Query → Query × Int
  | .null, q => q.bindEngine (.bindNull i) i .null false
  | .zeroBlob size, q =>
    q.bindEngine (.bindZeroBlob i size) i (.blob (List.replicate size 0)) false
  | .int64 value, q => q.bindEngine (.bindInt64 i value) i (.integer value) false
  | .dbl value, q => q.bindEngine (.bindDouble i value) i (.float value) false
  | .cstr value, q => q.bindEngine (.bindText i value false) i (.text value) false
  | .qstring value, q => q.bindEngine (.bindText16 i value temporary) i (.text value) temporary
  | .bytes value, q => q.bindEngine (.bindBlob64 i value temporary) i (.blob value) temporary
  | .tuple elems, q =>
    let r := bindSingleFold temporary i elems 1 0 q
    (r.1, if r.2.1 > 0 then r.2.2 + 1 else 0)
  | .custom ops, q =>
    let r := bindOps i ops 0 q
    (r.1, r.2 + 1)
/-- The fold expression of `Query::bindSingleHelper`,
`((curNumBound=bindSingle(temporary, i+numBound, get<I>(value)), numBound+=curNumBound-1,
curNumBound>0) &&...)`, over the remaining elements; returns the state and the final
`curNumBound` and `numBound`. -/
def bindSingleFold (temporary : Bool) (i : Int) :
    List BindArg → Int → Int → Query → Query × Int × Int
  | [], curNumBound, numBound, q => (q, curNumBound, numBound)
  | a :: rest, _, numBound, q =>
    let r := bindSingle temporary (i + numBound) a q
    if r.2 > 0 then bindSingleFold temporary i rest r.2 (numBound + (r.2 - 1)) r.1
    else (r.1, r.2, numBound + (r.2 - 1))
/-- The calls of a `customBind` overload on the accessor `CustomBind custom(this, i)` of the
generic `Query::bindSingle<T>`: `m_base` is the accessor's base, the `Int` argument its
`m_bound` before the calls; returns the state and `m_bound` after them.  Each call is the body
of `CustomBind::bindIndex`, for `bind(values...)` at the index `1+numBound()`; the bind of
`std::tuple(values...)` it makes is the tuple overload in non temporary mode. -/
def bindOps (m_base : Int) : List BindOp → Int → Query → Query × Int
  | [], m_bound, q => (q, m_bound)
  | .bind values :: rest, m_bound, q =>
    if m_bound ≥ 0 then
      if 1 + m_bound ≤ 0 then bindOps m_base rest (-1) (q.setInternalError SQLiteCode.MISUSE)
      else
        let r := bindSingleFold false (m_base + (1 + m_bound) - 1) values 1 0 q
        let ret : Int := if r.2.1 > 0 then r.2.2 + 1 else 0
        if ret ≠ 0 then bindOps m_base rest (max m_bound ((1 + m_bound) + ret - 2)) r.1
        else bindOps m_base rest (-1) r.1
    else bindOps m_base rest m_bound q
  | .bindIndex i values :: rest, m_bound, q =>
    if m_bound ≥ 0 then
      if i ≤ 0 then bindOps m_base rest (-1) (q.setInternalError SQLiteCode.MISUSE)
      else
        let r := bindSingleFold false (m_base + i - 1) values 1 0 q
        let ret : Int := if r.2.1 > 0 then r.2.2 + 1 else 0
        if ret ≠ 0 then bindOps m_base rest (max m_bound (i + ret - 2)) r.1
        else bindOps m_base rest (-1) r.1
    else bindOps m_base rest m_bound q
end

/-- Embeds `Query::bindSingleHelper`: `curNumBound=1, numBound=0`, the fold, and
`return (curNumBound>0?numBound+1:0)`. -/
def bindSingleHelper (temporary : Bool) (i : Int) (value : List BindArg) (q : Query) :
    Query × Int :=
  let r := bindSingleFold temporary i value 1 0 q
  (r.1, if r.2.1 > 0 then r.2.2 + 1 else 0)

/-- Embeds `Query::bindSingleWithChecks`. -/
def bindSingleWithChecks (temporary : Bool) (i : Int) (args : List BindArg) (q : Query) :
    Query × Int :=
  let r : Query × Int :=
    if !q.isPrepared then (q.setInternalError SQLiteCode.MISUSE, -1)
    else bindSingle temporary i (.tuple args) q
  (r.1, if r.2 ≤ 0 then 0 else r.2)

/-- Embeds `Query::assertBindColumnCount`. -/
def assertBindColumnCount (q : Query) (i : Int) : Query × Int :=
  match q.m_stmt with
  | none => (q.setInternalError SQLiteCode.MISUSE, -1)
  | some s =>
    let numCol := sqlite3_bind_parameter_count s
    let q1 := q.call .bindParameterCount
    if i = numCol then (q1, i)
    else (q1.setInternalError SQLiteCode.CONSTRAINT, -1)

/-- Embeds `Query::bind`. -/
def bind (i : Int) (args : List BindArg) (q : Query) : Query × Int :=
  bindSingleWithChecks false i args q

/-- Embeds `Query::bindTemporary`. -/
def bindTemporary (i : Int) (args : List BindArg) (q : Query) : Query × Int :=
  bindSingleWithChecks true i args q

/-- Embeds `Query::bindAll`:
`ret=bindSingleWithChecks(false, 1, ...); return (ret<=0)?0:(assertBindColumnCount(ret-1)+1)`. -/
def bindAll (args : List BindArg) (q : Query) : Query × Int :=
  let r := bindSingleWithChecks false 1 args q
  if r.2 ≤ 0 then (r.1, 0)
  else
    let a := r.1.assertBindColumnCount (r.2 - 1)
    (a.1, a.2 + 1)

/-- Embeds `Query::bindTemporaryAll`:
`ret=bindSingleWithChecks(true, 1, ...); return (ret<0)?0:(assertBindColumnCount(ret-1)+1)`. -/
def bindTemporaryAll (args : List BindArg) (q : Query) : Query × Int :=
  let r := bindSingleWithChecks true 1 args q
  if r.2 < 0 then (r.1, 0)
  else
    let a := r.1.assertBindColumnCount (r.2 - 1)
    (a.1, a.2 + 1)

/-! ## Fetch -/

/-- Embeds `Query::columnType`. -/
def columnType (q : Query) (i : Int) : Query × ColType :=
  match q.m_stmt with
  | none => (q.setInternalError SQLiteCode.MISUSE, ColType.Invalid)
  | some _ =>
    let ret := SQLiteCode.typeFromSqlite (sqlite3_column_type q.m_stmt i)
    let q1 := q.call (.columnType i)
    if ret = ColType.Invalid then (q1.setInternalError SQLiteCode.MISUSE, ret) else (q1, ret)

/-- Embeds `Query::readColumnIntSQLite`: `ok=true; return sqlite3_column_int64(m_stmt, i);`. -/
def readColumnIntSQLite (q : Query) (i : Int) : Query × Int × Bool :=
  (q.call (.columnInt64 i), sqlite3_column_int64 q.m_stmt i, true)

/-- Embeds `Query::readColumnDoubleSQLite`:
`ok=true; return sqlite3_column_double(m_stmt, i);`. -/
def readColumnDoubleSQLite (q : Query) (i : Int) : Query × Dbl × Bool :=
  (q.call (.columnDouble i), sqlite3_column_double q.m_stmt i, true)

/-- Embeds `Query::readColumnInt<T>`; `value` is the destination before the call, the result
holds the destination after it.  The range test reads `value`, as the source does. -/
def readColumnInt (strict : Bool) (i : Int) (T : IntType) (value : Int) (q : Query) :
    Query × Int × Int :=
  if strict then
    let t := q.columnType i
    if t.2 ≠ ColType.Integer then
      (t.1.setInternalError SQLiteCode.CONSTRAINT, value, 0)
    else
      let r := t.1.readColumnIntSQLite i
      let value64 := r.2.1
      let ok := r.2.2
      if ok then
        if value > T.max ∨ (value < 0 ∧ T.min ≥ 0) ∨ value < T.min then
          (r.1.setInternalError SQLiteCode.CONSTRAINT, value, if ok then 2 else 0)
        else (r.1, T.wrap value64, if ok then 2 else 0)
      else (r.1, value, if ok then 2 else 0)
  else
    let r := q.readColumnIntSQLite i
    (r.1, T.wrap r.2.1, if r.2.2 then 2 else 0)

/-- Embeds `Query::readColumn(bool strict, int i, double &value)`. -/
def readColumnDouble (strict : Bool) (i : Int) (value : Dbl) (q : Query) :
    Query × Dbl × Int :=
  if strict then
    let t := q.columnType i
    if t.2 ≠ ColType.Float then
      (t.1.setInternalError SQLiteCode.CONSTRAINT, value, 0)
    else
      let r := t.1.readColumnDoubleSQLite i
      (r.1, r.2.1, if r.2.2 then 2 else 0)
  else
    let r := q.readColumnDoubleSQLite i
    (r.1, r.2.1, if r.2.2 then 2 else 0)

/-- Embeds `Query::readColumn(bool strict, int i, float &value)`. -/
def readColumnFloat (strict : Bool) (i : Int) (value : Flt) (q : Query) :
    Query × Flt × Int :=
  if strict then
    let t := q.columnType i
    if t.2 ≠ ColType.Float then
      (t.1.setInternalError SQLiteCode.CONSTRAINT, value, 0)
    else
      let r := t.1.readColumnDoubleSQLite i
      let value1 := Flt.ofDouble r.2.1
      let ok := r.2.2
      if ok && !value1.isNaN && !value1.isInf && (value1.ltNegMax || value1.gtMax) then
        (r.1.setInternalError SQLiteCode.CONSTRAINT, value1, 0)
      else (r.1, value1, if ok then 2 else 0)
  else
    let r := q.readColumnDoubleSQLite i
    (r.1, Flt.ofDouble r.2.1, if r.2.2 then 2 else 0)

/-- Embeds `Query::readColumn(bool strict, int i, QString &value)`. -/
def readColumnQString (strict : Bool) (i : Int) (value : String) (q : Query) :
    Query × String × Int :=
  if strict then
    let t := q.columnType i
    if t.2 ≠ ColType.Text then
      (t.1.setInternalError SQLiteCode.CONSTRAINT, value, 0)
    else
      ((t.1.call (.columnText i)), sqlite3_column_text t.1.m_stmt i, 2)
  else
    ((q.call (.columnText i)), sqlite3_column_text q.m_stmt i, 2)

/-- The `else` branch of `Query::readColumn(bool strict, int i, QByteArray &value)`:
`sqlite3_column_bytes`, then a copy of `sqlite3_column_blob` when there are bytes. -/
def readColumnBytes (i : Int) (value : List Nat) (q : Query) : Query × List Nat × Int :=
  let bytes := sqlite3_column_bytes q.m_stmt i
  let q1 := q.call (.columnBytes i)
  if bytes > 0 then
    (q1.call (.columnBlob i), (sqlite3_column_blob q1.m_stmt i).take bytes.toNat, 2)
  else if bytes = 0 then (q1, [], 2)
  else (q1, value, 0)

/-- Embeds `Query::readColumn(bool strict, int i, QByteArray &value)`. -/
def readColumnQByteArray (strict : Bool) (i : Int) (value : List Nat) (q : Query) :
    Query × List Nat × Int :=
  if strict then
    let t := q.columnType i
    if t.2 ≠ ColType.Blob then
      (t.1.setInternalError SQLiteCode.CONSTRAINT, value, 0)
    else t.1.readColumnBytes i value
  else q.readColumnBytes i value

/-- Embeds `Query::readColumnInternal(int i, Blob &value, bool strict)`; the results of
`Blob::set` and `Blob::setRowId` are discarded, as in the source, and the returned count is
`(m_error==SQLITE_OK)?2:0`. -/
def readColumnInternal (q : Query) (i : Int) (value : BlobData) (strict : Bool) :
    Query × BlobData × Int :=
  let r : Query × BlobData :=
    match q.m_stmt with
    | none => (q.setInternalError SQLiteCode.MISUSE, value)
    | some s =>
      let type := sqlite3_column_type q.m_stmt i
      let q1 := q.call (.columnType i)
      if type ≠ SQLITE_BLOB ∧ type ≠ SQLITE_INTEGER then
        if strict then (q1.setInternalError SQLiteCode.MISMATCH, value)
        else (q1.setInternalError SQLiteCode.OK, value)
      else if type = SQLITE_BLOB then
        (((q1.call (.columnDatabaseName i)).call (.columnTableName i)).call (.columnOriginName i),
          (Blob.set q.m_db (s.origin i).1 (s.origin i).2.1 (s.origin i).2.2 value).1)
      else if type = SQLITE_INTEGER then
        (q1.call (.columnInt64 i), (value.setRowId (sqlite3_column_int64 q.m_stmt i)).1)
      else (q1, value)
  (r.1, r.2, if r.1.m_error = SQLiteCode.OK then 2 else 0)

end Query

mutual
/-- The value a destination holds. -/
def FetchArg.toVal : FetchArg → Val
  | .int T value => .int T value
  | .dbl value => .dbl value
  | .flt value => .flt value
  | .qstring value => .qstring value
  | .bytes value => .bytes value
  | .unused I => .unused I
  | .tuple elems => .tuple (FetchArg.toVals elems)
  | .opt none _ => .opt none
  | .opt (some v) _ => .opt (some v.toVal)
  | .call data _ => .tuple (FetchArg.toVals data)
  | .custom ops => .custom (FetchOp.toVals ops)
  | .blob value => .blob value
/-- The values a list of destinations holds. -/
def FetchArg.toVals : List FetchArg → List Val
  | [] => []
  | a :: rest => a.toVal :: FetchArg.toVals rest
/-- The values of the destinations named in a list of accessor calls. -/
def FetchOp.toVals : List FetchOp → List Val
  | [] => []
  | .fetch values :: rest => FetchArg.toVals values ++ FetchOp.toVals rest
  | .fetchIndex _ _ values :: rest => FetchArg.toVals values ++ FetchOp.toVals rest
end

/-- The destinations of a type `Helper::UnusedColumns<J>`. -/
def FetchArg.isUnused : FetchArg → Bool
  | .unused _ => true
  | _ => false

mutual
/-- Embeds `Helper::StructRemoveUnusedItem<T>::remove`: a tuple is purged of its skip markers,
any other value is passed on as it is. -/
def removeUnusedItem : FetchArg → Val
  | .tuple elems => .tuple (removeUnused elems)
  | .int T value => .int T value
  | .dbl value => .dbl value
  | .flt value => .flt value
  | .qstring value => .qstring value
  | .bytes value => .bytes value
  | .unused I => .unused I
  | .opt value fresh => (FetchArg.opt value fresh).toVal
  | .call data function => (FetchArg.call data function).toVal
  | .custom ops => (FetchArg.custom ops).toVal
  | .blob value => .blob value
/-- Embeds `Helper::removeUnused` on the elements of a tuple: the elements of a type
`UnusedColumns<J>` are dropped (`RemoveUnusedIndexes`), the other ones are passed through
`StructRemoveUnusedItem`. -/
def removeUnused : List FetchArg → List Val
  | [] => []
  | a :: rest =>
    if a.isUnused then removeUnused rest else removeUnusedItem a :: removeUnused rest
end

namespace Query

mutual
/-- Embeds `Query::readColumn(bool strict, int i, ...)`, the overload chosen by the type of the
destination; returns the state, the destination after the call and the returned count. -/
def readColumn (strict : Bool) (i : Int) : FetchArg → Query → Query × FetchArg × Int
  | .int T value, q =>
    let r := q.readColumnInt strict i T value
    (r.1, .int T r.2.1, r.2.2)
  | .dbl value, q =>
    let r := q.readColumnDouble strict i value
    (r.1, .dbl r.2.1, r.2.2)
  | .flt value, q =>
    let r := q.readColumnFloat strict i value
    (r.1, .flt r.2.1, r.2.2)
  | .qstring value, q =>
    let r := q.readColumnQString strict i value
    (r.1, .qstring r.2.1, r.2.2)
  | .bytes value, q =>
    let r := q.readColumnQByteArray strict i value
    (r.1, .bytes r.2.1, r.2.2)
  | .unused I, q => (q, .unused I, (I : Int) + 1)
  | .tuple elems, q =>
    let r := readColumnFold strict i elems 0 0 q
    (r.1, .tuple r.2.1, if r.2.2.1 > 0 then r.2.2.2 + 1 else 0)
  | .opt _ fresh, q =>
    let t := q.columnType i
    if t.2 = ColType.Null then (t.1, .opt none fresh, 2)
    else
      let r := readColumn strict i fresh t.1
      (r.1, .opt (some r.2.1) fresh, r.2.2)
  | .call data function, q =>
    let r := readColumnFold strict i data 0 0 q
    let ret : Int := if r.2.2.1 > 0 then r.2.2.2 + 1 else 0
    match function with
    | some f =>
      if ret > 0 then
        let c := f (removeUnused r.2.1) r.1.resetInternalError
        if c.2 then (c.1, .call data function, ret)
        else if c.1.m_error = SQLiteCode.OK then
          (c.1.setInternalError SQLiteCode.DONE, .call data function, 0)
        else (c.1, .call data function, 0)
      else (r.1, .call data function, ret)
    | none => (r.1, .call data function, ret)
  | .custom ops, q =>
    let r := fetchOps strict i ops 0 q
    (r.1, .custom r.2.1, r.2.2 + 1)
  | .blob value, q =>
    let r := q.readColumnInternal i value strict
    (r.1, .blob r.2.1, r.2.2)
/-- The fold expression of `Query::readColumnHelper`,
`((curNumRead=readColumn(strict, i+numRead, get<Index>(args)), numRead+=curNumRead-1,
curNumRead>0) &&...)`, over the remaining elements; returns the state, the destinations and
the final `curNumRead` and `numRead`. -/
def readColumnFold (strict : Bool) (i : Int) :
    List FetchArg → Int → Int → Query → Query × List FetchArg × Int × Int
  | [], curNumRead, numRead, q => (q, [], curNumRead, numRead)
  | a :: rest, _, numRead, q =>
    let r := readColumn strict (i + numRead) a q
    if r.2.2 > 0 then
      let r2 := readColumnFold strict i rest r.2.2 (numRead + (r.2.2 - 1)) r.1
      (r2.1, r.2.1 :: r2.2.1, r2.2.2)
    else (r.1, r.2.1 :: rest, r.2.2, numRead + (r.2.2 - 1))
/-- The calls of a `customFetch` overload on the accessor `CustomFetch custom(this, strict, i)`
of the generic `Query::readColumn<T>`: `m_strict` and `m_base` are the accessor's members, the
`Int` argument its `m_fetched` before the calls; returns the state, the calls with their
destinations after them, and `m_fetched`.  Each call is the body of
`CustomFetch::fetchIndex`, for `fetch(values...)` with the arguments `m_strict` and `0`; the
fetch of `std::tuple(values...)` it makes is the tuple overload. -/
def fetchOps (m_strict : Bool) (m_base : Int) :
    List FetchOp → Int → Query → Query × List FetchOp × Int
  | [], m_fetched, q => (q, [], m_fetched)
  | .fetch values :: rest, m_fetched, q =>
    if m_fetched ≥ 0 then
      if (0 : Int) < 0 then
        let n := fetchOps m_strict m_base rest (-1) (q.setInternalError SQLiteCode.MISUSE)
        (n.1, .fetch values :: n.2.1, n.2.2)
      else
        let r := readColumnFold m_strict (m_base + 0) values 0 0 q
        let ret : Int := if r.2.2.1 > 0 then r.2.2.2 + 1 else 0
        let n := fetchOps m_strict m_base rest
          (if ret ≠ 0 then max m_fetched (0 + ret - 1) else -1) r.1
        (n.1, .fetch r.2.1 :: n.2.1, n.2.2)
    else
      let n := fetchOps m_strict m_base rest m_fetched q
      (n.1, .fetch values :: n.2.1, n.2.2)
  | .fetchIndex strict i values :: rest, m_fetched, q =>
    if m_fetched ≥ 0 then
      if i < 0 then
        let n := fetchOps m_strict m_base rest (-1) (q.setInternalError SQLiteCode.MISUSE)
        (n.1, .fetchIndex strict i values :: n.2.1, n.2.2)
      else
        let r := readColumnFold strict (m_base + i) values 0 0 q
        let ret : Int := if r.2.2.1 > 0 then r.2.2.2 + 1 else 0
        let n := fetchOps m_strict m_base rest
          (if ret ≠ 0 then max m_fetched (i + ret - 1) else -1) r.1
        (n.1, .fetchIndex strict i r.2.1 :: n.2.1, n.2.2)
    else
      let n := fetchOps m_strict m_base rest m_fetched q
      (n.1, .fetchIndex strict i values :: n.2.1, n.2.2)
end

/-- Embeds `Query::readColumnHelper`: `curNumRead=0, numRead=0`, the fold, and
`return (curNumRead>0?numRead+1:0)`. -/
def readColumnHelper (strict : Bool) (i : Int) (args : List FetchArg) (q : Query) :
    Query × List FetchArg × Int :=
  let r := readColumnFold strict i args 0 0 q
  (r.1, r.2.1, if r.2.2.1 > 0 then r.2.2.2 + 1 else 0)

/-- Embeds `Query::columnHelper`; `readColumn` on the tuple of the arguments is
`readColumnHelper` on their list. -/
def columnHelper (strict : Bool) (i : Int) (args : List FetchArg) (q : Query) :
    Query × List FetchArg × Int :=
  if !q.m_stmt.isSome then (q.setInternalError SQLiteCode.MISUSE, args, 0)
  else readColumnHelper strict i args q

/-- Embeds `Query::assertFetchColumnCount`. -/
def assertFetchColumnCount (q : Query) (i : Int) : Query × Int :=
  let numCol := sqlite3_column_count q.m_stmt
  let q1 := q.call .columnCount
  if i = numCol then (q1, i)
  else (q1.setInternalError SQLiteCode.CONSTRAINT, -1)

/-- The C++ conversion of an `int` argument to a `bool` parameter. -/
def intToBool (n : Int) : Bool :=
  n != 0

/-- The C++ conversion of a `bool` argument to an `int` parameter. -/
def boolToInt (b : Bool) : Int :=
  if b then 1 else 0

/-- Embeds `Query::columnAllHelper`:
`int ret=columnHelper(0, strict, args...); return (ret<=0?0:(assertFetchColumnCount(ret-1)+1));`
where `columnHelper` is declared `columnHelper(bool strict, int i, Args &&...args)`, so the
literal `0` is converted to its `bool strict` and `strict` to its `int i`. -/
def columnAllHelper (strict : Bool) (args : List FetchArg) (q : Query) :
    Query × List FetchArg × Int :=
  let r := columnHelper (intToBool 0) (boolToInt strict) args q
  if r.2.2 ≤ 0 then (r.1, r.2.1, 0)
  else
    let a := r.1.assertFetchColumnCount (r.2.2 - 1)
    (a.1, r.2.1, a.2 + 1)

/-- Embeds `Query::column`. -/
def column (i : Int) (args : List FetchArg) (q : Query) : Query × List FetchArg × Int :=
  columnHelper false i args q

/-- Embeds `Query::columnStrict`. -/
def columnStrict (i : Int) (args : List FetchArg) (q : Query) : Query × List FetchArg × Int :=
  columnHelper true i args q

/-- Embeds `Query::columnAll`. -/
def columnAll (args : List FetchArg) (q : Query) : Query × List FetchArg × Int :=
  columnAllHelper false args q

/-- Embeds `Query::columnStrictAll`. -/
def columnStrictAll (args : List FetchArg) (q : Query) : Query × List FetchArg × Int :=
  columnAllHelper true args q

/-! ## Step-and-fetch and the compound helpers -/

/-- Embeds `Query::stepGeneric`:
`int ret=stepNoFetch(); if(ret)ret=columnHelper(strict, index, args...); return ret;`. -/
def stepGeneric (strict : Bool) (index : Int) (args : List FetchArg) (q : Query) :
    Query × List FetchArg × Int :=
  let s := q.stepNoFetch
  let ret := boolToInt s.2
  if ret ≠ 0 then s.1.columnHelper strict index args else (s.1, args, ret)

/-- Embeds `Query::stepAllGeneric`:
`int ret=stepNoFetch(); if(ret)ret=columnAllHelper(strict, args...); return ret;`. -/
def stepAllGeneric (strict : Bool) (args : List FetchArg) (q : Query) :
    Query × List FetchArg × Int :=
  let s := q.stepNoFetch
  let ret := boolToInt s.2
  if ret ≠ 0 then s.1.columnAllHelper strict args else (s.1, args, ret)

/-- Embeds `Query::step`. -/
def step (args : List FetchArg) (q : Query) : Query × List FetchArg × Int :=
  stepAllGeneric false args q

/-- The destinations of a call that received them packed in one tuple (`toFetch`). -/
def unpack (fallback : List FetchArg) : List FetchArg → List FetchArg
  | [.tuple elems] => elems
  | _ => fallback

/-- Embeds `Query::executeSingleAllGeneric<I>`: `toBind` are the first `I` arguments, `toFetch`
the remaining ones; each of the two tuples is passed on as one argument. -/
def executeSingleAllGeneric (strict : Bool) (toBind : List BindArg) (toFetch : List FetchArg)
    (q : Query) : Query × List FetchArg × Int :=
  let r := q.reset
  if r.2 then
    let b := r.1.bindTemporaryAll [.tuple toBind]
    if b.2 ≠ 0 then
      let f := b.1.stepAllGeneric strict [.tuple toFetch]
      let dests := unpack toFetch f.2.1
      if f.2.2 ≠ 0 then
        let s := f.1.stepNoFetch
        if s.2 then (s.1.setInternalError SQLiteCode.CONSTRAINT, dests, 0)
        else if !s.1.isDone then (s.1, dests, 0)
        else (s.1, dests, f.2.2)
      else if f.1.isDone then (f.1.setInternalError SQLiteCode.CONSTRAINT, dests, f.2.2)
      else (f.1, dests, f.2.2)
    else (b.1, toFetch, 0)
  else (r.1, toFetch, 0)

/-- Embeds `Query::executeSingle<I>`. -/
def executeSingle (toBind : List BindArg) (toFetch : List FetchArg) (q : Query) :
    Query × List FetchArg × Int :=
  executeSingleAllGeneric false toBind toFetch q

/-- Embeds `Query::executeCommand`. -/
def executeCommand (args : List BindArg) (q : Query) : Query × Int :=
  let r := q.reset
  let body : Query × Int :=
    if r.2 then
      let b := r.1.bindTemporaryAll args
      if b.2 ≠ 0 then
        let s := b.1.stepNoFetch
        if s.2 then (s.1.setInternalError SQLiteCode.CONSTRAINT, 0)
        else if s.1.error = SQLiteCode.DONE then (s.1.resetInternalError, b.2)
        else (s.1, 0)
      else (b.1, b.2)
    else (r.1, 0)
  (body.1.clearBindingInternal.1, body.2)

end Query

/-! ## The custom accessors -/

/-- The members of `class CustomBind` other than the pointer to the query, whose state is
passed to and returned by the calls. -/
structure CustomBind where
  m_base : Int
  m_bound : Int
  deriving DecidableEq, Repr

namespace CustomBind

/-- Embeds `CustomBind::CustomBind(Query *query, int base)`. -/
def new (base : Int) : CustomBind :=
  { m_base := base, m_bound := 0 }

/-- Embeds `CustomBind::numBound`. -/
def numBound (c : CustomBind) : Int :=
  c.m_bound

/-- Embeds `CustomBind::bindIndex`; `Query::bindSingle` on `std::tuple(values...)` is
`bindSingleHelper` on the list of the values. -/
def bindIndex (c : CustomBind) (i : Int) (values : List BindArg) (q : Query) :
    CustomBind × Query × Int :=
  if c.m_bound ≥ 0 then
    if i ≤ 0 then ({ c with m_bound := -1 }, q.setInternalError SQLiteCode.MISUSE, 0)
    else
      let r := Query.bindSingleHelper false (c.m_base + i - 1) values q
      if r.2 ≠ 0 then ({ c with m_bound := max c.m_bound (i + r.2 - 2) }, r.1, r.2)
      else ({ c with m_bound := -1 }, r.1, r.2)
  else (c, q, 0)

/-- Embeds `CustomBind::bind`: `return bindIndex(1+numBound(), values...)`. -/
def bind (c : CustomBind) (values : List BindArg) (q : Query) : CustomBind × Query × Int :=
  c.bindIndex (1 + c.numBound) values q

/-- One call of a `customBind` overload on the accessor. -/
def call (c : CustomBind) : BindOp → Query → CustomBind × Query × Int
  | .bind values, q => c.bind values q
  | .bindIndex i values, q => c.bindIndex i values q

/-- The index argument of the `bindIndex` call an accessor call amounts to. -/
def indexOf (c : CustomBind) : BindOp → Int
  | .bind _ => 1 + c.numBound
  | .bindIndex i _ => i

/-- The calls of a `customBind` overload, in order: the accessor and the state after them,
and for each call its index and its return value. -/
def run : CustomBind → List BindOp → Query → CustomBind × Query × List (Int × Int)
  | c, [], q => (c, q, [])
  | c, op :: rest, q =>
    let r := c.call op q
    let n := run r.1 rest r.2.1
    (n.1, n.2.1, (c.indexOf op, r.2.2) :: n.2.2)

end CustomBind

/-- The members of `class CustomFetch` other than the pointer to the query. -/
structure CustomFetch where
  m_strict : Bool
  m_base : Int
  m_fetched : Int
  deriving DecidableEq, Repr

namespace CustomFetch

/-- Embeds `CustomFetch::CustomFetch(Query *query, bool strict, int base)`. -/
def new (strict : Bool) (base : Int) : CustomFetch :=
  { m_strict := strict, m_base := base, m_fetched := 0 }

/-- Embeds `CustomFetch::numFetched`. -/
def numFetched (c : CustomFetch) : Int :=
  c.m_fetched

/-- Embeds `CustomFetch::fetchIndex(bool strict, int i, T &&...value)`; `Query::readColumn` on
`std::tuple(values...)` is `readColumnHelper` on the list of the destinations, which are
returned as the call leaves them. -/
def fetchIndex (c : CustomFetch) (strict : Bool) (i : Int) (values : List FetchArg)
    (q : Query) : CustomFetch × Query × List FetchArg × Int :=
  if c.m_fetched ≥ 0 then
    if i < 0 then
      ({ c with m_fetched := -1 }, q.setInternalError SQLiteCode.MISUSE, values, 0)
    else
      let r := Query.readColumnHelper strict (c.m_base + i) values q
      if r.2.2 ≠ 0 then
        ({ c with m_fetched := max c.m_fetched (i + r.2.2 - 1) }, r.1, r.2.1, r.2.2)
      else ({ c with m_fetched := -1 }, r.1, r.2.1, r.2.2)
  else (c, q, values, 0)

/-- Embeds `CustomFetch::fetch`: `return fetchIndex(m_strict, 0, values...)`. -/
def fetch (c : CustomFetch) (values : List FetchArg) (q : Query) :
    CustomFetch × Query × List FetchArg × Int :=
  c.fetchIndex c.m_strict 0 values q

/-- One call of a `customFetch` overload on the accessor; the call is returned with its
destinations as it leaves them. -/
def call (c : CustomFetch) : FetchOp → Query → CustomFetch × Query × FetchOp × Int
  | .fetch values, q =>
    let r := c.fetch values q
    (r.1, r.2.1, .fetch r.2.2.1, r.2.2.2)
  | .fetchIndex strict i values, q =>
    let r := c.fetchIndex strict i values q
    (r.1, r.2.1, .fetchIndex strict i r.2.2.1, r.2.2.2)

/-- The index argument of the `fetchIndex` call an accessor call amounts to. -/
def indexOf : FetchOp → Int
  | .fetch _ => 0
  | .fetchIndex _ i _ => i

/-- The calls of a `customFetch` overload, in order: the accessor and the state after them,
the calls with their destinations, and for each call its index and its return value. -/
def run : CustomFetch → List FetchOp → Query →
    CustomFetch × Query × List FetchOp × List (Int × Int)
  | c, [], q => (c, q, [], [])
  | c, op :: rest, q =>
    let r := c.call op q
    let n := run r.1 rest r.2.1
    (n.1, n.2.1, r.2.2.1 :: n.2.2.1, (indexOf op, r.2.2.2) :: n.2.2.2)

end CustomFetch

/-! ## The bookkeeping of the specification -/

/-- The fetch walk in the words of the specification: the arguments are processed left to
right; `consumed` lists the consumption of the arguments processed so far, and the next
argument is handed the index `base + sum consumed`.  Returns the final state, the
destinations, and the consumption (`readColumn` result minus one) of each argument walked. -/
def specFetchWalk (strict : Bool) (base : Int) :
    List Int → List FetchArg → Query → Query × List FetchArg × List Int
  | _, [], q => (q, [], [])
  | consumed, a :: rest, q =>
    let r := Query.readColumn strict (base + consumed.sum) a q
    let w := specFetchWalk strict base (consumed ++ [r.2.2 - 1]) rest r.1
    (w.1, r.2.1 :: w.2.1, (r.2.2 - 1) :: w.2.2)

/-- The bind walk in the words of the specification; see `specFetchWalk`. -/
def specBindWalk (temporary : Bool) (base : Int) :
    List Int → List BindArg → Query → Query × List Int
  | _, [], q => (q, [])
  | consumed, a :: rest, q =>
    let r := Query.bindSingle temporary (base + consumed.sum) a q
    let w := specBindWalk temporary base (consumed ++ [r.2 - 1]) rest r.1
    (w.1, (r.2 - 1) :: w.2)

/-- The destination `a` holding column `j`: the value the engine's accessor for the native
representation of `a` reads at column `j`, converted to the type of `a`. -/
def FetchArg.holding (stmt : Option Stmt) (j : Int) : FetchArg → FetchArg
  | .int T _ => .int T (T.wrap (sqlite3_column_int64 stmt j))
  | .dbl _ => .dbl (sqlite3_column_double stmt j)
  | .flt _ => .flt (Flt.ofDouble (sqlite3_column_double stmt j))
  | .qstring _ => .qstring (sqlite3_column_text stmt j)
  | .bytes _ => .bytes (sqlite3_column_blob stmt j)
  | a => a

/-- The destinations `d_0, d_1, ...` holding the columns `j, j+1, ...`. -/
def holdingRow (stmt : Option Stmt) : Int → List FetchArg → List FetchArg
  | _, [] => []
  | j, a :: rest => a.holding stmt j :: holdingRow stmt (j + 1) rest

/-- The status code the engine will answer to the next `sqlite3_step` of a statement whose
script is `steps`. -/
def nextCode (steps : List (Int × List SqlValue)) : Int :=
  match steps with
  | [] => SQLiteCode.DONE
  | (rc, _) :: _ => rc

/-- The storage class a strict fetch into the destination expects: INTEGER for the integer
types, FLOAT for `double` and `float`, TEXT for `QString`, BLOB for `QByteArray`. -/
def FetchArg.expectedType : FetchArg → Option ColType
  | .int _ _ => some ColType.Integer
  | .dbl _ => some ColType.Float
  | .flt _ => some ColType.Float
  | .qstring _ => some ColType.Text
  | .bytes _ => some ColType.Blob
  | _ => none

/-- The destination holds a value of its C++ type: an integer variable of type `T` holds a
value in the range of `T`. -/
def FetchArg.wellTyped : FetchArg → Prop
  | .int T value => T.inRange value
  | _ => True

/-- The high-water mark of the specification for a custom bind: the largest `i_k + n_k - 1`
over the accessor calls, each given by its 1-based index `i_k` and its return value `n_k + 1`;
0 when there is no call. -/
def bindHighWater (calls : List (Int × Int)) : Int :=
  (calls.map (fun c => c.1 + (c.2 - 1) - 1)).foldr max 0

/-- The high-water mark of the specification for a custom fetch: the largest `i_k + n_k` over
the accessor calls, each given by its 0-based index `i_k` and its return value `n_k + 1`; 0
when there is no call. -/
def fetchHighWater (calls : List (Int × Int)) : Int :=
  (calls.map (fun c => c.1 + (c.2 - 1))).foldr max 0

/-! ## Example statements -/

/-- A statement compiled from a query with `P` parameters and `K` result columns whose next
steps will answer `steps`; the coercions are those of an engine that maps every foreign
storage class to zero or empty. -/
def Stmt.sample (P K : Nat) (steps : List (Int × List SqlValue)) : Stmt :=
  { paramCount := P, columnCount := K, row := [], steps := steps, lastStep := SQLiteCode.OK,
    bound := [], asInt := fun _ => 0, asDouble := fun _ => Dbl.fin 0, asText := fun _ => "",
    asBlob := fun _ => [] }

/-- A prepared `Query` on the statement `s`, with no engine call logged yet. -/
def Query.on (s : Stmt) : Query :=
  { dbValid := true, m_stmt := some s, m_error := SQLiteCode.OK, log := [] }

/-- A statement positioned by one step on a row of six integer columns. -/
def sixColumns : Query :=
  (Query.on (Stmt.sample 3 6
    [(SQLiteCode.ROW, [.integer 1, .integer 2, .integer 3, .integer 4, .integer 5,
      .integer 6])])).stepNoFetch.1

/-- A freshly prepared statement with three parameters. -/
def threeParameters : Query :=
  Query.on (Stmt.sample 3 3 [])

/-- A statement positioned by one step on the row `row`. -/
def Query.onRow (row : List SqlValue) : Query :=
  (Query.on (Stmt.sample 0 row.length [(SQLiteCode.ROW, row)])).stepNoFetch.1

/-- A callback that accepts the two integers 1 and 4 and rejects every other row. -/
def acceptOneFour : List Val → Query → Query × Bool
  | [.int _ a, .int _ b], q => (q, a == 1 && b == 4)
  | _, q => (q, false)

/-- A callback that rejects every row. -/
def rejectRow : List Val → Query → Query × Bool :=
  fun _ q => (q, false)

/-- A callback that rejects every row after setting the error code `SQLITE_MISUSE`. -/
def rejectWithMisuse : List Val → Query → Query × Bool :=
  fun _ q => (q.setInternalError SQLiteCode.MISUSE, false)

/-- A `Blob(false, false)`: closed, not opening automatically, with nothing set, on an engine
that accepts every blob call. -/
def Blob.manual : BlobData :=
  BlobData.new none false false []

/-- The `Blob` of the class documentation, `Blob b; b.set(m_db, nullptr, "TestTable",
"blobColumn");`, on the connection 0 and an engine that accepts every blob call. -/
def Blob.documented : BlobData :=
  (Blob.set (some 0) none (some "TestTable") (some "blobColumn")
    (BlobData.new none false true [])).1

/-- A prepared statement on a valid connection whose last step ended in the engine error
`SQLITE_CONSTRAINT`. -/
def Query.failedStep : Query :=
  (Query.on (Stmt.sample 0 1 [(SQLiteCode.CONSTRAINT, [])])).stepNoFetch.1

/-- A prepared statement with no parameter and one result column on a valid connection whose
last step ended in the engine error `SQLITE_BUSY` (5) and whose next steps will answer
`rest`. -/
def Query.busyStep (rest : List (Int × List SqlValue)) : Query :=
  (Query.on (Stmt.sample 0 1 ((5, []) :: rest))).stepNoFetch.1

/-- The previous statement of the query, if any, finalizes with `SQLITE_OK`: its last step did
not end in an engine error. -/
def Query.finalizesClean (q : Query) : Prop :=
  ∀ s, q.m_stmt = some s → s.pendingError = SQLiteCode.OK

/-- An open blob has its connection, table and column set and a row id present. -/
def BlobData.openIsValid (b : BlobData) : Prop :=
  b.isOpen = true → b.isValid = true

/-- The engine handle of an open blob is on the row `m_rowId`. -/
def BlobData.handleOnRow (b : BlobData) : Prop :=
  ∀ h, b.m_blob = some h → h.rowId = b.m_rowId

/-! ## The walk over an argument list -/

theorem readColumnFold_specFetchWalk (strict : Bool) (base : Int) :
    ∀ (args : List FetchArg) (consumed : List Int) (cur : Int) (q : Query),
      (∀ c ∈ (specFetchWalk strict base consumed args q).2.2, 0 ≤ c) →
      (Query.readColumnFold strict base args cur consumed.sum q).1
          = (specFetchWalk strict base consumed args q).1 ∧
      (Query.readColumnFold strict base args cur consumed.sum q).2.1
          = (specFetchWalk strict base consumed args q).2.1 ∧
      (Query.readColumnFold strict base args cur consumed.sum q).2.2.2
          = consumed.sum + (specFetchWalk strict base consumed args q).2.2.sum ∧
      (args ≠ [] → 0 < (Query.readColumnFold strict base args cur consumed.sum q).2.2.1) ∧
      (args = [] → (Query.readColumnFold strict base args cur consumed.sum q).2.2.1 = cur) := by
  intro args
  induction args with
  | nil =>
    intro consumed cur q _
    simp [Query.readColumnFold, specFetchWalk]
  | cons a rest ih =>
    intro consumed cur q h
    have hc : 0 ≤ (Query.readColumn strict (base + consumed.sum) a q).2.2 - 1 :=
      h _ (by simp [specFetchWalk])
    have hpos : (Query.readColumn strict (base + consumed.sum) a q).2.2 > 0 := by omega
    have hrest : ∀ c ∈ (specFetchWalk strict base
        (consumed ++ [(Query.readColumn strict (base + consumed.sum) a q).2.2 - 1]) rest
        (Query.readColumn strict (base + consumed.sum) a q).1).2.2, 0 ≤ c := by
      intro c hcmem
      exact h c (by simp [specFetchWalk, hcmem])
    have hsum : (consumed ++ [(Query.readColumn strict (base + consumed.sum) a q).2.2 - 1]).sum
        = consumed.sum + ((Query.readColumn strict (base + consumed.sum) a q).2.2 - 1) := by
      simp
    have ih' := ih (consumed ++ [(Query.readColumn strict (base + consumed.sum) a q).2.2 - 1])
      (Query.readColumn strict (base + consumed.sum) a q).2.2
      (Query.readColumn strict (base + consumed.sum) a q).1 hrest
    rw [hsum] at ih'
    obtain ⟨h1, h2, h3, h4, h5⟩ := ih'
    simp only [Query.readColumnFold, specFetchWalk, if_pos hpos]
    refine ⟨h1, by rw [h2], ?_, ?_, ?_⟩
    · rw [h3]; simp only [List.sum_cons]; omega
    · intro _
      by_cases hr : rest = []
      · rw [h5 hr]; exact hpos
      · exact h4 hr
    · intro hcontra; exact absurd hcontra (by simp)

theorem bindSingleFold_specBindWalk (temporary : Bool) (base : Int) :
    ∀ (args : List BindArg) (consumed : List Int) (cur : Int) (q : Query),
      (∀ c ∈ (specBindWalk temporary base consumed args q).2, 0 ≤ c) →
      (Query.bindSingleFold temporary base args cur consumed.sum q).1
          = (specBindWalk temporary base consumed args q).1 ∧
      (Query.bindSingleFold temporary base args cur consumed.sum q).2.2
          = consumed.sum + (specBindWalk temporary base consumed args q).2.sum ∧
      (args ≠ [] → 0 < (Query.bindSingleFold temporary base args cur consumed.sum q).2.1) ∧
      (args = [] → (Query.bindSingleFold temporary base args cur consumed.sum q).2.1 = cur) := by
  intro args
  induction args with
  | nil =>
    intro consumed cur q _
    simp [Query.bindSingleFold, specBindWalk]
  | cons a rest ih =>
    intro consumed cur q h
    have hc : 0 ≤ (Query.bindSingle temporary (base + consumed.sum) a q).2 - 1 :=
      h _ (by simp [specBindWalk])
    have hpos : (Query.bindSingle temporary (base + consumed.sum) a q).2 > 0 := by omega
    have hrest : ∀ c ∈ (specBindWalk temporary base
        (consumed ++ [(Query.bindSingle temporary (base + consumed.sum) a q).2 - 1]) rest
        (Query.bindSingle temporary (base + consumed.sum) a q).1).2, 0 ≤ c := by
      intro c hcmem
      exact h c (by simp [specBindWalk, hcmem])
    have hsum : (consumed ++ [(Query.bindSingle temporary (base + consumed.sum) a q).2 - 1]).sum
        = consumed.sum + ((Query.bindSingle temporary (base + consumed.sum) a q).2 - 1) := by
      simp
    have ih' := ih (consumed ++ [(Query.bindSingle temporary (base + consumed.sum) a q).2 - 1])
      (Query.bindSingle temporary (base + consumed.sum) a q).2
      (Query.bindSingle temporary (base + consumed.sum) a q).1 hrest
    rw [hsum] at ih'
    obtain ⟨h1, h3, h4, h5⟩ := ih'
    simp only [Query.bindSingleFold, specBindWalk, if_pos hpos]
    refine ⟨h1, ?_, ?_, ?_⟩
    · rw [h3]; simp only [List.sum_cons]; omega
    · intro _
      by_cases hr : rest = []
      · rw [h5 hr]; exact hpos
      · exact h4 hr
    · intro hcontra; exact absurd hcontra (by simp)

/-- On a non-empty argument list whose fetches all succeed, `readColumnHelper` is the walk of
the specification and returns one plus the total consumption. -/
theorem readColumnHelper_eq_specFetchWalk (strict : Bool) (i : Int) (args : List FetchArg)
    (q : Query) (hne : args ≠ [])
    (hok : ∀ c ∈ (specFetchWalk strict i [] args q).2.2, 0 ≤ c) :
    Query.readColumnHelper strict i args q
      = ((specFetchWalk strict i [] args q).1, (specFetchWalk strict i [] args q).2.1,
          1 + (specFetchWalk strict i [] args q).2.2.sum) := by
  obtain ⟨h1, h2, h3, h4, _⟩ := readColumnFold_specFetchWalk strict i args [] 0 q hok
  simp only [List.sum_nil] at h1 h2 h3 h4
  simp only [Query.readColumnHelper, h1, h2, h3, if_pos (h4 hne), zero_add]
  rw [add_comm]

/-- On an argument list whose binds all succeed, `bindSingleHelper` is the walk of the
specification and returns one plus the total consumption. -/
theorem bindSingleHelper_eq_specBindWalk (temporary : Bool) (i : Int) (args : List BindArg)
    (q : Query) (hok : ∀ c ∈ (specBindWalk temporary i [] args q).2, 0 ≤ c) :
    Query.bindSingleHelper temporary i args q
      = ((specBindWalk temporary i [] args q).1,
          1 + (specBindWalk temporary i [] args q).2.sum) := by
  obtain ⟨h1, h3, h4, h5⟩ := bindSingleFold_specBindWalk temporary i args [] 1 q hok
  simp only [List.sum_nil] at h1 h3 h4 h5
  have hpos : 0 < (Query.bindSingleFold temporary i args 1 0 q).2.1 := by
    by_cases hr : args = []
    · rw [h5 hr]; decide
    · exact h4 hr
  simp only [Query.bindSingleHelper, h1, h3, if_pos hpos, zero_add]
  rw [add_comm]

/-- The tuple overload of `readColumn` is `readColumnHelper`. -/
theorem readColumn_tuple (strict : Bool) (i : Int) (elems : List FetchArg) (q : Query) :
    Query.readColumn strict i (.tuple elems) q
      = ((Query.readColumnHelper strict i elems q).1,
          .tuple (Query.readColumnHelper strict i elems q).2.1,
          (Query.readColumnHelper strict i elems q).2.2) := by
  simp [Query.readColumn, Query.readColumnHelper]

/-- The tuple overload of `bindSingle` is `bindSingleHelper`. -/
theorem bindSingle_tuple (temporary : Bool) (i : Int) (elems : List BindArg) (q : Query) :
    Query.bindSingle temporary i (.tuple elems) q = Query.bindSingleHelper temporary i elems q := by
  simp [Query.bindSingle, Query.bindSingleHelper]

/-- C1. On a prepared statement, for every start index `i` and every non-empty argument list
whose fetches (binds) all succeed, `Query::column(i, ...)` (`Query::bind(i, ...)`) is the
left-to-right walk that hands each argument the index `i` plus the consumption of the
arguments before it, and returns one plus the total consumption (for `bind` the empty list
included). -/
theorem column_bind_walk (i : Int) (q : Query) (hq : q.isPrepared = true) :
    (∀ args : List FetchArg, args ≠ [] →
      (∀ c ∈ (specFetchWalk false i [] args q).2.2, 0 ≤ c) →
      Query.column i args q
        = ((specFetchWalk false i [] args q).1, (specFetchWalk false i [] args q).2.1,
            1 + (specFetchWalk false i [] args q).2.2.sum)) ∧
    (∀ args : List BindArg,
      (∀ c ∈ (specBindWalk false i [] args q).2, 0 ≤ c) →
      Query.bind i args q
        = ((specBindWalk false i [] args q).1, 1 + (specBindWalk false i [] args q).2.sum)) := by
  have hs : q.m_stmt.isSome = true := hq
  constructor
  · intro args hne hok
    simp only [Query.column, Query.columnHelper, hs, Bool.not_true, Bool.false_eq_true,
      if_false]
    exact readColumnHelper_eq_specFetchWalk false i args q hne hok
  · intro args hok
    have h := bindSingleHelper_eq_specBindWalk false i args q hok
    have hnn : 0 ≤ (specBindWalk false i [] args q).2.sum :=
      List.sum_nonneg hok
    simp only [Query.bind, Query.bindSingleWithChecks, hq, Bool.not_true, Bool.false_eq_true,
      if_false, bindSingle_tuple, h]
    have hle : ¬ (1 + (specBindWalk false i [] args q).2.sum ≤ 0) := by omega
    simp only [if_neg hle]

theorem column_bind_walk_witness :
    (Query.column 0 [.int .qint32 0, .unused 2, .tuple [.int .qint32 0, .int .qint64 0],
        .int .quint8 0] sixColumns).2
      = ([.int .qint32 1, .unused 2, .tuple [.int .qint32 4, .int .qint64 5], .int .quint8 6],
          7) ∧
    (Query.bind 1 [.int64 7, .tuple [.null, .cstr "x"]] threeParameters).2 = 4 := by
  have h := column_bind_walk 0 sixColumns (by decide)
  have hb := column_bind_walk 1 threeParameters (by decide)
  constructor
  · rw [h.1 _ (by simp) (by decide)]
    rfl
  · rw [hb.2 _ (by decide)]
    decide

/-! ## Permissive fetch of scalars -/

/-- A permissive fetch into a scalar destination succeeds with count 2, leaves the destination
holding the column, and changes neither the statement nor the error code. -/
theorem readColumn_permissive_scalar (j : Int) (a : FetchArg) (q : Query)
    (ha : a.isScalar = true) :
    (Query.readColumn false j a q).2.2 = 2 ∧
    (Query.readColumn false j a q).2.1 = a.holding q.m_stmt j ∧
    (Query.readColumn false j a q).1.m_stmt = q.m_stmt ∧
    (Query.readColumn false j a q).1.m_error = q.m_error ∧
    (Query.readColumn false j a q).1.dbValid = q.dbValid := by
  cases a with
  | int T value =>
    simp [Query.readColumn, Query.readColumnInt, Query.readColumnIntSQLite, Query.call,
      FetchArg.holding]
  | dbl value =>
    simp [Query.readColumn, Query.readColumnDouble, Query.readColumnDoubleSQLite, Query.call,
      FetchArg.holding]
  | flt value =>
    simp [Query.readColumn, Query.readColumnFloat, Query.readColumnDoubleSQLite, Query.call,
      FetchArg.holding]
  | qstring value =>
    simp [Query.readColumn, Query.readColumnQString, Query.call, FetchArg.holding]
  | bytes value =>
    simp only [Query.readColumn, Query.readColumnQByteArray, Query.readColumnBytes,
      FetchArg.holding, sqlite3_column_bytes, Bool.false_eq_true, if_false]
    by_cases hpos : ((sqlite3_column_blob q.m_stmt j).length : Int) > 0
    · simp [hpos, Query.call]
    · have hz : (sqlite3_column_blob q.m_stmt j).length = 0 := by omega
      have hnil : sqlite3_column_blob q.m_stmt j = [] := List.length_eq_zero.mp hz
      simp [hnil, Query.call]
  | unused I => simp [FetchArg.isScalar] at ha
  | tuple elems => simp [FetchArg.isScalar] at ha
  | opt value fresh => simp [FetchArg.isScalar] at ha
  | call data function => simp [FetchArg.isScalar] at ha
  | custom ops => simp [FetchArg.isScalar] at ha
  | blob value => simp [FetchArg.isScalar] at ha

/-- The walk of the specification over permissive scalar destinations: every argument
consumes one column and ends holding its column; statement and error code are unchanged. -/
theorem specFetchWalk_permissive_scalars (base : Int) :
    ∀ (args : List FetchArg) (consumed : List Int) (q : Query),
      (∀ a ∈ args, a.isScalar = true) →
      (specFetchWalk false base consumed args q).2.2 = List.replicate args.length 1 ∧
      (specFetchWalk false base consumed args q).2.1
          = holdingRow q.m_stmt (base + consumed.sum) args ∧
      (specFetchWalk false base consumed args q).1.m_stmt = q.m_stmt ∧
      (specFetchWalk false base consumed args q).1.m_error = q.m_error ∧
      (specFetchWalk false base consumed args q).1.dbValid = q.dbValid := by
  intro args
  induction args with
  | nil =>
    intro consumed q _
    simp [specFetchWalk, holdingRow]
  | cons a rest ih =>
    intro consumed q h
    obtain ⟨h1, h2, h3, h4, h5⟩ :=
      readColumn_permissive_scalar (base + consumed.sum) a q (h a (by simp))
    have ih' := ih (consumed ++ [(Query.readColumn false (base + consumed.sum) a q).2.2 - 1])
      (Query.readColumn false (base + consumed.sum) a q).1
      (fun b hb => h b (by simp [hb]))
    rw [h1, h3, h4, h5] at ih'
    obtain ⟨i1, i2, i3, i4, i5⟩ := ih'
    have hidx : base + (consumed ++ [(2 : Int) - 1]).sum = base + consumed.sum + 1 := by
      simp; omega
    simp only [specFetchWalk, h1]
    refine ⟨?_, ?_, i3, i4, i5⟩
    · rw [i1]; simp [List.replicate_succ]
    · rw [i2, h2, hidx]; simp [holdingRow]

/-- The sum of `n` ones. -/
theorem sum_replicate_one (n : Nat) : (List.replicate n (1 : Int)).sum = (n : Int) := by
  induction n with
  | zero => simp
  | succ k ih => simp [List.replicate_succ, ih]; omega

/-- A permissive fetch of `n ≥ 1` scalars through `readColumnHelper` returns `n + 1`, leaves
them holding the columns `i, i+1, ...` and changes neither the statement nor the error code. -/
theorem readColumnHelper_permissive_scalars (i : Int) (args : List FetchArg) (q : Query)
    (hne : args ≠ []) (hsc : ∀ a ∈ args, a.isScalar = true) :
    (Query.readColumnHelper false i args q).2.2 = (args.length : Int) + 1 ∧
    (Query.readColumnHelper false i args q).2.1 = holdingRow q.m_stmt i args ∧
    (Query.readColumnHelper false i args q).1.m_stmt = q.m_stmt ∧
    (Query.readColumnHelper false i args q).1.m_error = q.m_error ∧
    (Query.readColumnHelper false i args q).1.dbValid = q.dbValid := by
  obtain ⟨w1, w2, w3, w4, w5⟩ := specFetchWalk_permissive_scalars i args [] q hsc
  have hok : ∀ c ∈ (specFetchWalk false i [] args q).2.2, 0 ≤ c := by
    rw [w1]; intro c hc
    rw [List.eq_of_mem_replicate hc]; decide
  rw [readColumnHelper_eq_specFetchWalk false i args q hne hok]
  simp only [List.sum_nil, add_zero] at w2
  refine ⟨?_, w2, w3, w4, w5⟩
  simp only [w1, sum_replicate_one]; omega

/-- C2. On a statement with `K` result columns, `Query::columnAll` with `n ≥ 1` permissive
scalar destinations returns `K + 1` with destination `d_j` holding column `j` when `n = K`,
and returns 0 (with error code CONSTRAINT) when `n ≠ K`. -/
theorem columnAll_column_count (K : Nat) (s : Stmt) (q : Query) (args : List FetchArg)
    (hs : q.m_stmt = some s) (hK : s.columnCount = K) (hne : args ≠ [])
    (hsc : ∀ a ∈ args, a.isScalar = true) :
    (args.length = K →
      (Query.columnAll args q).2 = (holdingRow (some s) 0 args, (K : Int) + 1)) ∧
    (args.length ≠ K →
      (Query.columnAll args q).2.2 = 0 ∧
      (Query.columnAll args q).1.m_error = SQLiteCode.CONSTRAINT) := by
  obtain ⟨h1, h2, h3, h4, _⟩ := readColumnHelper_permissive_scalars 0 args q hne hsc
  have hprep : q.m_stmt.isSome = true := by rw [hs]; rfl
  have hcol : Query.columnHelper (Query.intToBool 0) (Query.boolToInt false) args q
      = Query.readColumnHelper false 0 args q := by
    simp [Query.columnHelper, Query.intToBool, Query.boolToInt, hprep]
  have hnot : ¬ ((args.length : Int) + 1 ≤ 0) := by omega
  have hcount : sqlite3_column_count (Query.readColumnHelper false 0 args q).1.m_stmt
      = (K : Int) := by
    rw [h3, hs]; simp [sqlite3_column_count, hK]
  constructor
  · intro hn
    simp only [Query.columnAll, Query.columnAllHelper, hcol, h1, if_neg hnot,
      Query.assertFetchColumnCount, hcount, h2, hs]
    simp [hn]
  · intro hn
    have hne' : ¬ ((args.length : Int) + 1 - 1 = (K : Int)) := by omega
    simp only [Query.columnAll, Query.columnAllHelper, hcol, h1, if_neg hnot,
      Query.assertFetchColumnCount, hcount, if_neg hne']
    simp [Query.setInternalError]

theorem columnAll_column_count_witness :
    (Query.columnAll [.int .qint32 0, .int .qint32 0]
        (Query.on (Stmt.sample 0 2 [(SQLiteCode.ROW, [.integer 4, .integer 5])])).stepNoFetch.1).2
      = ([.int .qint32 4, .int .qint32 5], 3) ∧
    (Query.columnAll [.int .qint32 0]
        (Query.on (Stmt.sample 0 2 [(SQLiteCode.ROW, [.integer 4, .integer 5])])).stepNoFetch.1).2.2
      = 0 ∧
    (Query.columnAll [.int .qint32 0, .int .qint32 0, .int .qint32 0]
        (Query.on (Stmt.sample 0 2 [(SQLiteCode.ROW, [.integer 4, .integer 5])])).stepNoFetch.1).2.2
      = 0 := by
  refine ⟨?_, ?_, ?_⟩
  · rw [(columnAll_column_count 2 _ _ [.int .qint32 0, .int .qint32 0] rfl rfl (by simp)
      (by decide)).1 rfl]
    rfl
  · exact ((columnAll_column_count 2 _ _ [.int .qint32 0] rfl rfl (by simp)
      (by decide)).2 (by decide)).1
  · exact ((columnAll_column_count 2 _ _ [.int .qint32 0, .int .qint32 0, .int .qint32 0]
      rfl rfl (by simp) (by decide)).2 (by decide)).1

/-! ## Binding scalars -/

/-- The engine accepts a bind at an index within `1..paramCount`. -/
theorem bindEngine_accepted (q : Query) (s : Stmt) (c : EngineCall) (j : Int) (v : SqlValue)
    (st : Bool) (hs : q.m_stmt = some s) (hj : 1 ≤ j ∧ j ≤ (s.paramCount : Int)) :
    (q.bindEngine c j v st).2 = 2 ∧
    (q.bindEngine c j v st).1.m_stmt = some { s with bound := s.bound ++ [⟨j, v, st⟩] } ∧
    (q.bindEngine c j v st).1.m_error = SQLiteCode.OK ∧
    (q.bindEngine c j v st).1.dbValid = q.dbValid := by
  simp [Query.bindEngine, sqlite3_bind, hs, hj, Query.fetchErrorString, SQLiteCode.isSuccess,
    Query.call]

/-- The engine rejects a bind at an index outside `1..paramCount` with `SQLITE_RANGE`. -/
theorem bindEngine_rejected (q : Query) (s : Stmt) (c : EngineCall) (j : Int) (v : SqlValue)
    (st : Bool) (hs : q.m_stmt = some s) (hj : ¬ (1 ≤ j ∧ j ≤ (s.paramCount : Int))) :
    (q.bindEngine c j v st).2 = 0 ∧
    (q.bindEngine c j v st).1.m_stmt = some s ∧
    (q.bindEngine c j v st).1.m_error = SQLiteCode.RANGE ∧
    (q.bindEngine c j v st).1.dbValid = q.dbValid := by
  simp [Query.bindEngine, sqlite3_bind, hs, hj, Query.fetchErrorString, SQLiteCode.isSuccess,
    Query.call, SQLiteCode.RANGE, SQLiteCode.OK, SQLiteCode.DONE, SQLiteCode.ROW]

/-- A scalar bound at an index within `1..paramCount` returns 2; only the bound values of the
statement change, and the error code is OK. -/
theorem bindSingle_scalar_accepted (t : Bool) (j : Int) (a : BindArg) (q : Query) (s : Stmt)
    (hs : q.m_stmt = some s) (ha : a.isScalar = true)
    (hj : 1 ≤ j ∧ j ≤ (s.paramCount : Int)) :
    (Query.bindSingle t j a q).2 = 2 ∧
    (∃ b, (Query.bindSingle t j a q).1.m_stmt = some { s with bound := b }) ∧
    (Query.bindSingle t j a q).1.m_error = SQLiteCode.OK ∧
    (Query.bindSingle t j a q).1.dbValid = q.dbValid := by
  cases a with
  | tuple elems => simp [BindArg.isScalar] at ha
  | custom ops => simp [BindArg.isScalar] at ha
  | null =>
    obtain ⟨h1, h2, h3, h4⟩ := bindEngine_accepted q s (.bindNull j) j .null false hs hj
    simp only [Query.bindSingle]; exact ⟨h1, ⟨_, h2⟩, h3, h4⟩
  | zeroBlob size =>
    obtain ⟨h1, h2, h3, h4⟩ := bindEngine_accepted q s (.bindZeroBlob j size) j
      (.blob (List.replicate size 0)) false hs hj
    simp only [Query.bindSingle]; exact ⟨h1, ⟨_, h2⟩, h3, h4⟩
  | int64 value =>
    obtain ⟨h1, h2, h3, h4⟩ := bindEngine_accepted q s (.bindInt64 j value) j
      (.integer value) false hs hj
    simp only [Query.bindSingle]; exact ⟨h1, ⟨_, h2⟩, h3, h4⟩
  | dbl value =>
    obtain ⟨h1, h2, h3, h4⟩ := bindEngine_accepted q s (.bindDouble j value) j
      (.float value) false hs hj
    simp only [Query.bindSingle]; exact ⟨h1, ⟨_, h2⟩, h3, h4⟩
  | cstr value =>
    obtain ⟨h1, h2, h3, h4⟩ := bindEngine_accepted q s (.bindText j value false) j
      (.text value) false hs hj
    simp only [Query.bindSingle]; exact ⟨h1, ⟨_, h2⟩, h3, h4⟩
  | qstring value =>
    obtain ⟨h1, h2, h3, h4⟩ := bindEngine_accepted q s (.bindText16 j value t) j
      (.text value) t hs hj
    simp only [Query.bindSingle]; exact ⟨h1, ⟨_, h2⟩, h3, h4⟩
  | bytes value =>
    obtain ⟨h1, h2, h3, h4⟩ := bindEngine_accepted q s (.bindBlob64 j value t) j
      (.blob value) t hs hj
    simp only [Query.bindSingle]; exact ⟨h1, ⟨_, h2⟩, h3, h4⟩

/-- A scalar bound at an index outside `1..paramCount` returns 0 with the engine's
`SQLITE_RANGE`; the statement is unchanged. -/
theorem bindSingle_scalar_rejected (t : Bool) (j : Int) (a : BindArg) (q : Query) (s : Stmt)
    (hs : q.m_stmt = some s) (ha : a.isScalar = true)
    (hj : ¬ (1 ≤ j ∧ j ≤ (s.paramCount : Int))) :
    (Query.bindSingle t j a q).2 = 0 ∧
    (Query.bindSingle t j a q).1.m_stmt = some s ∧
    (Query.bindSingle t j a q).1.m_error = SQLiteCode.RANGE ∧
    (Query.bindSingle t j a q).1.dbValid = q.dbValid := by
  cases a with
  | tuple elems => simp [BindArg.isScalar] at ha
  | custom ops => simp [BindArg.isScalar] at ha
  | null =>
    simp only [Query.bindSingle]; exact bindEngine_rejected q s _ j _ _ hs hj
  | zeroBlob size =>
    simp only [Query.bindSingle]; exact bindEngine_rejected q s _ j _ _ hs hj
  | int64 value =>
    simp only [Query.bindSingle]; exact bindEngine_rejected q s _ j _ _ hs hj
  | dbl value =>
    simp only [Query.bindSingle]; exact bindEngine_rejected q s _ j _ _ hs hj
  | cstr value =>
    simp only [Query.bindSingle]; exact bindEngine_rejected q s _ j _ _ hs hj
  | qstring value =>
    simp only [Query.bindSingle]; exact bindEngine_rejected q s _ j _ _ hs hj
  | bytes value =>
    simp only [Query.bindSingle]; exact bindEngine_rejected q s _ j _ _ hs hj

/-- The fold of `bindSingleHelper` over scalars bound from index 1: with the engine accepting
the indices `1..paramCount`, it succeeds with `numBound` advanced by the number of scalars
when they all fit, and stops with `curNumBound = 0` and `SQLITE_RANGE` when they do not. -/
theorem bindSingleFold_scalars (t : Bool) (s : Stmt) :
    ∀ (args : List BindArg) (cur numBound : Int) (q : Query),
      (∃ b, q.m_stmt = some { s with bound := b }) →
      (∀ a ∈ args, a.isScalar = true) → 0 ≤ numBound → numBound ≤ (s.paramCount : Int) →
      0 < cur →
      (numBound + (args.length : Int) ≤ (s.paramCount : Int) →
        0 < (Query.bindSingleFold t 1 args cur numBound q).2.1 ∧
        (Query.bindSingleFold t 1 args cur numBound q).2.2 = numBound + (args.length : Int) ∧
        (∃ b, (Query.bindSingleFold t 1 args cur numBound q).1.m_stmt
            = some { s with bound := b }) ∧
        (args ≠ [] → (Query.bindSingleFold t 1 args cur numBound q).1.m_error
            = SQLiteCode.OK) ∧
        (args = [] → (Query.bindSingleFold t 1 args cur numBound q).1.m_error = q.m_error) ∧
        (Query.bindSingleFold t 1 args cur numBound q).1.dbValid = q.dbValid) ∧
      ((s.paramCount : Int) < numBound + (args.length : Int) →
        (Query.bindSingleFold t 1 args cur numBound q).2.1 = 0 ∧
        (∃ b, (Query.bindSingleFold t 1 args cur numBound q).1.m_stmt
            = some { s with bound := b }) ∧
        (Query.bindSingleFold t 1 args cur numBound q).1.m_error = SQLiteCode.RANGE ∧
        (Query.bindSingleFold t 1 args cur numBound q).1.dbValid = q.dbValid) := by
  intro args
  induction args with
  | nil =>
    intro cur numBound q hq _ hnb hle hcur
    constructor
    · intro _
      simp [Query.bindSingleFold, hcur, hq]
    · intro hlt
      simp at hlt
      omega
  | cons a rest ih =>
    intro cur numBound q hq hsc hnb hle hcur
    obtain ⟨b0, hq0⟩ := hq
    have hasc : a.isScalar = true := hsc a (by simp)
    have hrest : ∀ x ∈ rest, x.isScalar = true := fun x hx => hsc x (by simp [hx])
    have hlen : ((a :: rest).length : Int) = (rest.length : Int) + 1 := by simp
    by_cases hj : 1 ≤ 1 + numBound ∧ 1 + numBound ≤ (s.paramCount : Int)
    · obtain ⟨h1, ⟨b1, h2⟩, h3, h4⟩ :=
        bindSingle_scalar_accepted t (1 + numBound) a q { s with bound := b0 } hq0 hasc hj
      have hpos : (Query.bindSingle t (1 + numBound) a q).2 > 0 := by rw [h1]; decide
      have ih' := ih 2 (numBound + (2 - 1)) (Query.bindSingle t (1 + numBound) a q).1
        ⟨b1, h2⟩ hrest (by omega) (by omega) (by decide)
      simp only [Query.bindSingleFold, if_pos hpos]
      rw [h1, hlen]
      constructor
      · intro hfit
        obtain ⟨i1, i2, i3, i4, i5, i6⟩ := ih'.1 (by omega)
        refine ⟨i1, by rw [i2]; omega, i3, ?_, ?_, by rw [i6, h4]⟩
        · intro _
          by_cases hr : rest = []
          · rw [i5 hr, h3]
          · exact i4 hr
        · intro hcontra; exact absurd hcontra (by simp)
      · intro hover
        obtain ⟨i1, i2, i3, i4⟩ := ih'.2 (by omega)
        exact ⟨i1, i2, i3, by rw [i4, h4]⟩
    · obtain ⟨h1, h2, h3, h4⟩ :=
        bindSingle_scalar_rejected t (1 + numBound) a q { s with bound := b0 } hq0 hasc hj
      have hnpos : ¬ ((Query.bindSingle t (1 + numBound) a q).2 > 0) := by rw [h1]; decide
      simp only [Query.bindSingleFold, if_neg hnpos]
      rw [hlen]
      constructor
      · intro hfit
        exfalso; apply hj; constructor <;> omega
      · intro _
        exact ⟨h1, ⟨b0, h2⟩, h3, h4⟩

/-- Bound from index 1 on a prepared statement, `n` scalars that fit its parameters make
`bindSingleWithChecks` return `n + 1`; scalars that do not fit make it return 0 with
`SQLITE_RANGE`. -/
theorem bindSingleWithChecks_scalars (t : Bool) (s : Stmt) (args : List BindArg) (q : Query)
    (hq : ∃ b, q.m_stmt = some { s with bound := b })
    (hsc : ∀ a ∈ args, a.isScalar = true) :
    ((args.length : Int) ≤ (s.paramCount : Int) →
      (Query.bindSingleWithChecks t 1 args q).2 = (args.length : Int) + 1 ∧
      (∃ b, (Query.bindSingleWithChecks t 1 args q).1.m_stmt = some { s with bound := b }) ∧
      (args ≠ [] → (Query.bindSingleWithChecks t 1 args q).1.m_error = SQLiteCode.OK) ∧
      (args = [] → (Query.bindSingleWithChecks t 1 args q).1.m_error = q.m_error) ∧
      (Query.bindSingleWithChecks t 1 args q).1.dbValid = q.dbValid) ∧
    ((s.paramCount : Int) < (args.length : Int) →
      (Query.bindSingleWithChecks t 1 args q).2 = 0 ∧
      (∃ b, (Query.bindSingleWithChecks t 1 args q).1.m_stmt = some { s with bound := b }) ∧
      (Query.bindSingleWithChecks t 1 args q).1.m_error = SQLiteCode.RANGE ∧
      (Query.bindSingleWithChecks t 1 args q).1.dbValid = q.dbValid) := by
  have hprep : q.isPrepared = true := by
    obtain ⟨b, hb⟩ := hq
    simp [Query.isPrepared, hb]
  have hfold := bindSingleFold_scalars t s args 1 0 q hq hsc (le_refl 0)
    (Int.ofNat_nonneg _) (by decide)
  simp only [zero_add] at hfold
  simp only [Query.bindSingleWithChecks, hprep, Bool.not_true, Bool.false_eq_true, if_false,
    Query.bindSingle]
  constructor
  · intro hfit
    obtain ⟨i1, i2, i3, i4, i5, i6⟩ := hfold.1 hfit
    simp only [if_pos i1, i2]
    have hle : ¬ ((args.length : Int) + 1 ≤ 0) := by omega
    simp only [if_neg hle]
    exact ⟨trivial, i3, i4, i5, i6⟩
  · intro hover
    obtain ⟨i1, i2, i3, i4⟩ := hfold.2 hover
    simp only [i1]
    exact ⟨by simp, i2, i3, i4⟩

/-- C3. On a prepared statement declaring `P` parameters, the engine accepting a bind at
index `j` iff `1 ≤ j ≤ P`, `Query::bindAll` of `n` scalar values returns `P + 1` when
`n = P` and 0 when `n ≠ P`. -/
theorem bindAll_parameter_count (P : Nat) (s : Stmt) (q : Query) (args : List BindArg)
    (hs : q.m_stmt = some s) (hP : s.paramCount = P)
    (hsc : ∀ a ∈ args, a.isScalar = true) :
    (args.length = P → (Query.bindAll args q).2 = (P : Int) + 1) ∧
    (args.length ≠ P → (Query.bindAll args q).2 = 0) := by
  have hq : ∃ b, q.m_stmt = some { s with bound := b } := ⟨s.bound, hs⟩
  have hw := bindSingleWithChecks_scalars false s args q hq hsc
  rw [hP] at hw
  constructor
  · intro hn
    obtain ⟨h1, ⟨b, h2⟩, _, _, _⟩ := hw.1 (by omega)
    have hpos : ¬ ((args.length : Int) + 1 ≤ 0) := by omega
    simp only [Query.bindAll, h1, if_neg hpos, Query.assertBindColumnCount, h2,
      sqlite3_bind_parameter_count, hP]
    simp [hn]
  · intro hn
    by_cases hfit : (args.length : Int) ≤ (P : Int)
    · obtain ⟨h1, ⟨b, h2⟩, _, _, _⟩ := hw.1 hfit
      have hpos : ¬ ((args.length : Int) + 1 ≤ 0) := by omega
      have hne : ¬ ((args.length : Int) + 1 - 1 = (P : Int)) := by omega
      simp only [Query.bindAll, h1, if_neg hpos, Query.assertBindColumnCount, h2,
        sqlite3_bind_parameter_count, hP, if_neg hne]
      decide
    · obtain ⟨h1, _, _, _⟩ := hw.2 (by omega)
      simp [Query.bindAll, h1]

theorem bindAll_parameter_count_witness :
    (Query.bindAll [.int64 15, .int64 16] (Query.on (Stmt.sample 2 2 []))).2 = 3 ∧
    (Query.bindAll [.int64 7] (Query.on (Stmt.sample 2 2 []))).2 = 0 ∧
    (Query.bindAll [.int64 7, .int64 8, .int64 9] (Query.on (Stmt.sample 2 2 []))).2 = 0 := by
  refine ⟨?_, ?_, ?_⟩
  · exact (bindAll_parameter_count 2 _ _ [.int64 15, .int64 16] rfl rfl (by decide)).1 rfl
  · exact (bindAll_parameter_count 2 _ _ [.int64 7] rfl rfl (by decide)).2 (by decide)
  · exact (bindAll_parameter_count 2 _ _ [.int64 7, .int64 8, .int64 9] rfl rfl
      (by decide)).2 (by decide)

/-! ## A tuple against its elements as separate arguments -/

/-- A fold of `readColumnHelper` that ends in success has not decreased `numRead`. -/
theorem readColumnFold_numRead_le (strict : Bool) (i : Int) :
    ∀ (args : List FetchArg) (cur numRead : Int) (q : Query),
      0 < (Query.readColumnFold strict i args cur numRead q).2.2.1 →
      numRead ≤ (Query.readColumnFold strict i args cur numRead q).2.2.2 := by
  intro args
  induction args with
  | nil =>
    intro cur numRead q _
    simp [Query.readColumnFold]
  | cons a rest ih =>
    intro cur numRead q h
    by_cases hpos : (Query.readColumn strict (i + numRead) a q).2.2 > 0
    · simp only [Query.readColumnFold, if_pos hpos] at h ⊢
      have := ih _ _ _ h
      omega
    · simp only [Query.readColumnFold, if_neg hpos] at h
      exact absurd h hpos

/-- The count returned by `readColumnHelper` is never negative. -/
theorem readColumnHelper_nonneg (strict : Bool) (i : Int) (args : List FetchArg) (q : Query) :
    0 ≤ (Query.readColumnHelper strict i args q).2.2 := by
  simp only [Query.readColumnHelper]
  by_cases h : (Query.readColumnFold strict i args 0 0 q).2.2.1 > 0
  · have := readColumnFold_numRead_le strict i args 0 0 q h
    simp only [if_pos h]; omega
  · simp only [if_neg h]; decide

/-- Fetching one tuple is fetching its elements as separate arguments: same state (and so
the same engine calls in the same order), same destinations, same count. -/
theorem readColumnHelper_tuple (strict : Bool) (i : Int) (args : List FetchArg) (q : Query) :
    Query.readColumnHelper strict i [.tuple args] q
      = ((Query.readColumnHelper strict i args q).1,
          [.tuple (Query.readColumnHelper strict i args q).2.1],
          (Query.readColumnHelper strict i args q).2.2) := by
  have hnn := readColumnHelper_nonneg strict i args q
  by_cases hpos : (Query.readColumnHelper strict i args q).2.2 > 0
  · have hpos' : (Query.readColumn strict (i + 0) (.tuple args) q).2.2 > 0 := by
      rw [add_zero, readColumn_tuple]; exact hpos
    rw [Query.readColumnHelper]
    simp only [Query.readColumnFold, if_pos hpos']
    simp only [add_zero, readColumn_tuple, if_pos hpos, zero_add, sub_add_cancel]
  · have hpos' : ¬ (Query.readColumn strict (i + 0) (.tuple args) q).2.2 > 0 := by
      rw [add_zero, readColumn_tuple]; exact hpos
    have hz : (Query.readColumnHelper strict i args q).2.2 = 0 := by omega
    rw [Query.readColumnHelper]
    simp only [Query.readColumnFold, if_neg hpos']
    simp only [add_zero, readColumn_tuple, if_neg hpos, hz]

/-- A fold of `bindSingleHelper` that ends in success has not decreased `numBound`. -/
theorem bindSingleFold_numBound_le (t : Bool) (i : Int) :
    ∀ (args : List BindArg) (cur numBound : Int) (q : Query),
      0 < (Query.bindSingleFold t i args cur numBound q).2.1 →
      numBound ≤ (Query.bindSingleFold t i args cur numBound q).2.2 := by
  intro args
  induction args with
  | nil =>
    intro cur numBound q _
    simp [Query.bindSingleFold]
  | cons a rest ih =>
    intro cur numBound q h
    by_cases hpos : (Query.bindSingle t (i + numBound) a q).2 > 0
    · simp only [Query.bindSingleFold, if_pos hpos] at h ⊢
      have := ih _ _ _ h
      omega
    · simp only [Query.bindSingleFold, if_neg hpos] at h
      exact absurd h hpos

/-- The count returned by `bindSingleHelper` is never negative. -/
theorem bindSingleHelper_nonneg (t : Bool) (i : Int) (args : List BindArg) (q : Query) :
    0 ≤ (Query.bindSingleHelper t i args q).2 := by
  simp only [Query.bindSingleHelper]
  by_cases h : (Query.bindSingleFold t i args 1 0 q).2.1 > 0
  · have := bindSingleFold_numBound_le t i args 1 0 q h
    simp only [if_pos h]; omega
  · simp only [if_neg h]; decide

/-- Binding one tuple is binding its elements as separate arguments: same state (and so the
same engine calls in the same order), same count. -/
theorem bindSingleHelper_tuple (t : Bool) (i : Int) (args : List BindArg) (q : Query) :
    Query.bindSingleHelper t i [.tuple args] q = Query.bindSingleHelper t i args q := by
  have hnn := bindSingleHelper_nonneg t i args q
  by_cases hpos : (Query.bindSingleHelper t i args q).2 > 0
  · have hpos' : (Query.bindSingle t (i + 0) (.tuple args) q).2 > 0 := by
      rw [add_zero, bindSingle_tuple]; exact hpos
    rw [Query.bindSingleHelper]
    simp only [Query.bindSingleFold, if_pos hpos']
    simp only [add_zero, bindSingle_tuple, if_pos hpos, zero_add, sub_add_cancel]
  · have hpos' : ¬ (Query.bindSingle t (i + 0) (.tuple args) q).2 > 0 := by
      rw [add_zero, bindSingle_tuple]; exact hpos
    have hz : (Query.bindSingleHelper t i args q).2 = 0 := by omega
    rw [Query.bindSingleHelper]
    simp only [Query.bindSingleFold, if_neg hpos']
    simp only [add_zero, bindSingle_tuple, if_neg hpos]
    exact Prod.ext rfl hz.symm

/-- The guard of `columnHelper` commutes with packing the arguments in one tuple. -/
theorem columnHelper_tuple (strict : Bool) (i : Int) (args : List FetchArg) (q : Query) :
    Query.columnHelper strict i [.tuple args] q
      = ((Query.columnHelper strict i args q).1,
          [.tuple (Query.columnHelper strict i args q).2.1],
          (Query.columnHelper strict i args q).2.2) := by
  by_cases hp : q.m_stmt.isSome = true
  · simp only [Query.columnHelper, hp, Bool.not_true, Bool.false_eq_true, if_false]
    exact readColumnHelper_tuple strict i args q
  · simp only [Query.columnHelper, hp, Bool.not_false, if_true]

/-- The guard of `bindSingleWithChecks` commutes with packing the arguments in one tuple. -/
theorem bindSingleWithChecks_tuple (t : Bool) (i : Int) (args : List BindArg) (q : Query) :
    Query.bindSingleWithChecks t i [.tuple args] q = Query.bindSingleWithChecks t i args q := by
  simp only [Query.bindSingleWithChecks, bindSingle_tuple, bindSingleHelper_tuple]

/-- The code answered by `sqlite3_step` is the next one of the script. -/
theorem sqlite3_step_code (s : Stmt) : (sqlite3_step s).2 = nextCode s.steps := by
  unfold sqlite3_step nextCode
  cases s.steps with
  | nil => rfl
  | cons hd tl => rfl

/-- The statement after a `sqlite3_step` that answers with a row. -/
theorem sqlite3_step_row (s : Stmt) (row : List SqlValue) (rest : List (Int × List SqlValue))
    (h : s.steps = (SQLiteCode.ROW, row) :: rest) :
    (sqlite3_step s).1
      = { s with steps := rest, row := row, lastStep := SQLiteCode.ROW } := by
  simp [sqlite3_step, h]

/-- The effect of `stepNoFetch` on a prepared statement. -/
theorem stepNoFetch_prepared (q : Query) (s : Stmt) (hs : q.m_stmt = some s) :
    q.stepNoFetch.1.m_stmt = some (sqlite3_step s).1 ∧
    q.stepNoFetch.1.m_error = (sqlite3_step s).2 ∧
    q.stepNoFetch.2 = ((sqlite3_step s).2 == SQLiteCode.ROW) ∧
    q.stepNoFetch.1.dbValid = q.dbValid := by
  simp [Query.stepNoFetch, hs, Query.call]

/-- The effect of `reset` on a prepared statement whose last step did not fail. -/
theorem reset_prepared (q : Query) (s : Stmt) (hs : q.m_stmt = some s)
    (hok : s.pendingError = SQLiteCode.OK) :
    q.reset.2 = true ∧
    q.reset.1.m_stmt = some { s with row := [], lastStep := SQLiteCode.OK } ∧
    q.reset.1.m_error = SQLiteCode.OK ∧
    q.reset.1.dbValid = q.dbValid := by
  simp [Query.reset, hs, Query.call, sqlite3_reset, hok]

/-- A call to `bindTemporaryAll` with as many scalars as the statement has parameters returns
their number plus one and changes only the bound values of the statement. -/
theorem bindTemporaryAll_scalars (s : Stmt) (args : List BindArg) (q : Query)
    (hq : ∃ b, q.m_stmt = some { s with bound := b })
    (hsc : ∀ a ∈ args, a.isScalar = true) (hn : args.length = s.paramCount) :
    (Query.bindTemporaryAll args q).2 = (s.paramCount : Int) + 1 ∧
    (∃ b, (Query.bindTemporaryAll args q).1.m_stmt = some { s with bound := b }) ∧
    (args ≠ [] → (Query.bindTemporaryAll args q).1.m_error = SQLiteCode.OK) ∧
    (args = [] → (Query.bindTemporaryAll args q).1.m_error = q.m_error) := by
  obtain ⟨h1, ⟨b, h2⟩, h3, h4, _⟩ := (bindSingleWithChecks_scalars true s args q hq hsc).1
    (by omega)
  have hpos : ¬ ((args.length : Int) + 1 < 0) := by omega
  simp only [Query.bindTemporaryAll, h1, if_neg hpos, Query.assertBindColumnCount, h2,
    sqlite3_bind_parameter_count]
  have heq : (args.length : Int) + 1 - 1 = (s.paramCount : Int) := by omega
  simp only [heq, if_true]
  refine ⟨trivial, ⟨b, ?_⟩, ?_, ?_⟩
  · simp [Query.call, h2]
  · intro hne; simp [Query.call, h3 hne]
  · intro he; simp [Query.call, h4 he]

/-- Packing the arguments of `bindTemporaryAll` in one tuple changes nothing. -/
theorem bindTemporaryAll_tuple (args : List BindArg) (q : Query) :
    Query.bindTemporaryAll [.tuple args] q = Query.bindTemporaryAll args q := by
  simp only [Query.bindTemporaryAll, bindSingleWithChecks_tuple]

/-- Packing the destinations of `columnAllHelper` in one tuple changes only their shape. -/
theorem columnAllHelper_tuple (strict : Bool) (args : List FetchArg) (q : Query) :
    Query.columnAllHelper strict [.tuple args] q
      = ((Query.columnAllHelper strict args q).1,
          [.tuple (Query.columnAllHelper strict args q).2.1],
          (Query.columnAllHelper strict args q).2.2) := by
  simp only [Query.columnAllHelper, columnHelper_tuple]
  split_ifs <;> rfl

/-- The permissive `columnAllHelper` with as many scalar destinations as the statement has
result columns returns their number plus one, leaves them holding the columns, and changes
neither the statement nor the error code. -/
theorem columnAllHelper_permissive_scalars (s : Stmt) (q : Query) (args : List FetchArg)
    (hs : q.m_stmt = some s) (hne : args ≠ []) (hsc : ∀ a ∈ args, a.isScalar = true)
    (hn : args.length = s.columnCount) :
    (Query.columnAllHelper false args q).2.2 = (s.columnCount : Int) + 1 ∧
    (Query.columnAllHelper false args q).2.1 = holdingRow (some s) 0 args ∧
    (Query.columnAllHelper false args q).1.m_stmt = some s ∧
    (Query.columnAllHelper false args q).1.m_error = q.m_error := by
  obtain ⟨h1, h2, h3, h4, _⟩ := readColumnHelper_permissive_scalars 0 args q hne hsc
  have hprep : q.m_stmt.isSome = true := by rw [hs]; rfl
  have hcol : Query.columnHelper (Query.intToBool 0) (Query.boolToInt false) args q
      = Query.readColumnHelper false 0 args q := by
    simp [Query.columnHelper, Query.intToBool, Query.boolToInt, hprep]
  have hnot : ¬ ((args.length : Int) + 1 ≤ 0) := by omega
  have hcount : sqlite3_column_count (Query.readColumnHelper false 0 args q).1.m_stmt
      = (s.columnCount : Int) := by
    rw [h3, hs]; simp [sqlite3_column_count]
  have heq : (args.length : Int) + 1 - 1 = (s.columnCount : Int) := by omega
  simp only [Query.columnAllHelper, hcol, h1, if_neg hnot, Query.assertFetchColumnCount,
    hcount, heq, if_true, h2, hs]
  refine ⟨trivial, trivial, ?_, ?_⟩
  · simp [Query.call, h3, hs]
  · simp [Query.call, h4]

/-- What a destination holds after a fetch depends on the current row and the coercions of
the statement only. -/
theorem holding_congr (s1 s2 : Stmt) (hrow : s1.row = s2.row) (hi : s1.asInt = s2.asInt)
    (hd : s1.asDouble = s2.asDouble) (ht : s1.asText = s2.asText) (hb : s1.asBlob = s2.asBlob)
    (j : Int) (a : FetchArg) :
    a.holding (some s1) j = a.holding (some s2) j := by
  have hv : columnValue (some s1) j = columnValue (some s2) j := by
    simp [columnValue, hrow]
  have e1 : ∀ v, s1.int64Of v = s2.int64Of v := by
    intro v; cases v <;> simp [Stmt.int64Of, hi]
  have e2 : ∀ v, s1.doubleOf v = s2.doubleOf v := by
    intro v; cases v <;> simp [Stmt.doubleOf, hd]
  have e3 : ∀ v, s1.textOf v = s2.textOf v := by
    intro v; cases v <;> simp [Stmt.textOf, ht]
  have e4 : ∀ v, s1.blobOf v = s2.blobOf v := by
    intro v; cases v <;> simp [Stmt.blobOf, hb]
  cases a <;>
    simp [FetchArg.holding, sqlite3_column_int64, sqlite3_column_double, sqlite3_column_text,
      sqlite3_column_blob, hv, e1, e2, e3, e4]

/-- The row form of `holding_congr`. -/
theorem holdingRow_congr (s1 s2 : Stmt) (hrow : s1.row = s2.row) (hi : s1.asInt = s2.asInt)
    (hd : s1.asDouble = s2.asDouble) (ht : s1.asText = s2.asText) (hb : s1.asBlob = s2.asBlob) :
    ∀ (args : List FetchArg) (j : Int),
      holdingRow (some s1) j args = holdingRow (some s2) j args := by
  intro args
  induction args with
  | nil => intro j; rfl
  | cons a rest ih =>
    intro j
    simp only [holdingRow, ih, holding_congr s1 s2 hrow hi hd ht hb j a]

/-- A `stepAllGeneric` whose step answers with a row, into as many permissive scalars as
there are result columns. -/
theorem stepAllGeneric_row (s : Stmt) (q : Query) (args : List FetchArg)
    (row : List SqlValue) (rest : List (Int × List SqlValue))
    (hs : q.m_stmt = some s) (hsteps : s.steps = (SQLiteCode.ROW, row) :: rest)
    (hne : args ≠ []) (hsc : ∀ a ∈ args, a.isScalar = true)
    (hn : args.length = s.columnCount) :
    (Query.stepAllGeneric false [.tuple args] q).2.2 = (s.columnCount : Int) + 1 ∧
    (Query.stepAllGeneric false [.tuple args] q).2.1
      = [.tuple (holdingRow (some { s with row := row }) 0 args)] ∧
    (Query.stepAllGeneric false [.tuple args] q).1.m_stmt
      = some { s with steps := rest, row := row, lastStep := SQLiteCode.ROW } ∧
    (Query.stepAllGeneric false [.tuple args] q).1.m_error = SQLiteCode.ROW := by
  obtain ⟨t1, t2, t3, _⟩ := stepNoFetch_prepared q s hs
  have hcode : (sqlite3_step s).2 = SQLiteCode.ROW := by
    rw [sqlite3_step_code, hsteps]; rfl
  rw [sqlite3_step_row s row rest hsteps] at t1
  rw [hcode] at t2 t3
  have hret : Query.boolToInt q.stepNoFetch.2 ≠ 0 := by
    rw [t3]; decide
  obtain ⟨c1, c2, c3, c4⟩ := columnAllHelper_permissive_scalars
    { s with steps := rest, row := row, lastStep := SQLiteCode.ROW } q.stepNoFetch.1 args t1
    hne hsc hn
  simp only [Query.stepAllGeneric, if_pos hret, columnAllHelper_tuple, c1, c2, c3, c4, t2]
  refine ⟨trivial, ?_, trivial, trivial⟩
  exact congrArg (fun x => [FetchArg.tuple x])
    (holdingRow_congr { s with steps := rest, row := row, lastStep := SQLiteCode.ROW }
      { s with row := row } rfl rfl rfl rfl rfl args 0)

/-- A `stepAllGeneric` whose step does not answer with a row returns 0 and leaves the code of
the step. -/
theorem stepAllGeneric_no_row (strict : Bool) (s : Stmt) (q : Query) (args : List FetchArg)
    (hs : q.m_stmt = some s) (hcode : nextCode s.steps ≠ SQLiteCode.ROW) :
    (Query.stepAllGeneric strict args q).2.2 = 0 ∧
    (Query.stepAllGeneric strict args q).2.1 = args ∧
    (Query.stepAllGeneric strict args q).1.m_stmt = some (sqlite3_step s).1 ∧
    (Query.stepAllGeneric strict args q).1.m_error = nextCode s.steps := by
  obtain ⟨t1, t2, t3, _⟩ := stepNoFetch_prepared q s hs
  rw [sqlite3_step_code] at t2 t3
  have hfalse : q.stepNoFetch.2 = false := by
    rw [t3]; simpa using hcode
  have hret : ¬ (Query.boolToInt q.stepNoFetch.2 ≠ 0) := by
    rw [hfalse]; decide
  have hdef : Query.stepAllGeneric strict args q
      = (q.stepNoFetch.1, args, Query.boolToInt q.stepNoFetch.2) := by
    simp only [Query.stepAllGeneric, if_neg hret]
  rw [hdef]
  exact ⟨by show Query.boolToInt q.stepNoFetch.2 = 0; rw [hfalse]; rfl, rfl, t1, t2⟩

/-- C4, counterexample. A prepared statement with no parameter and one result column whose
last step ended in the engine error 5, and whose query would now yield exactly one row (the
row 7): `executeSingle` with one permissive scalar destination returns 0, not `K + 1 = 2`,
leaves the destination unchanged and the error code 5, and asks the engine for the reset
only.  Called once more it returns 2 with the destination holding 7.  With no row to yield
it returns 0 with the error code 5, which is not CONSTRAINT. -/
theorem executeSingle_after_failed_step :
    (Query.busyStep [(SQLiteCode.ROW, [.integer 7])]).isPrepared = true ∧
    (Query.busyStep [(SQLiteCode.ROW, [.integer 7])]).m_stmt.map Stmt.paramCount = some 0 ∧
    (Query.busyStep [(SQLiteCode.ROW, [.integer 7])]).m_stmt.map Stmt.columnCount = some 1 ∧
    (Query.busyStep [(SQLiteCode.ROW, [.integer 7])]).m_stmt.map Stmt.steps
      = some [(SQLiteCode.ROW, [.integer 7])] ∧
    (Query.executeSingle [] [.int .qint32 0]
        (Query.busyStep [(SQLiteCode.ROW, [.integer 7])])).2 = ([.int .qint32 0], 0) ∧
    (Query.executeSingle [] [.int .qint32 0]
        (Query.busyStep [(SQLiteCode.ROW, [.integer 7])])).1.m_error = 5 ∧
    (Query.executeSingle [] [.int .qint32 0]
        (Query.busyStep [(SQLiteCode.ROW, [.integer 7])])).1.log = [.step, .reset] ∧
    (Query.executeSingle [] [.int .qint32 0]
        (Query.executeSingle [] [.int .qint32 0]
          (Query.busyStep [(SQLiteCode.ROW, [.integer 7])])).1).2 = ([.int .qint32 7], 2) ∧
    (Query.busyStep []).m_stmt.map Stmt.steps = some [] ∧
    (Query.executeSingle [] [.int .qint32 0] (Query.busyStep [])).2.2 = 0 ∧
    (Query.executeSingle [] [.int .qint32 0] (Query.busyStep [])).1.m_error = 5 ∧
    (5 : Int) ≠ SQLiteCode.CONSTRAINT := by
  refine ⟨by decide, by decide, by decide, by decide, rfl, by decide, by decide, rfl,
    by decide, by decide, by decide, by decide⟩

/-- C4, amended. `Query::executeSingle<I>` is given as many scalar bind values as the prepared
statement has parameters and `n ≥ 1` permissive scalar destinations matching the `K` result
columns.  When the last step of the statement did not end in an engine error it returns 0
with error code CONSTRAINT when the query yields no row or more than one row, and returns
`K + 1` with the destinations holding the row and status DONE when it yields exactly one row.
When the last step ended in an engine error, the reset it starts with reports that error:
it returns 0 with that error code, the destinations unchanged, the statement reset, and the
reset is the only call made to the engine (nothing is bound, the query is not run). -/
theorem executeSingle_one_row (s : Stmt) (q : Query) (toBind : List BindArg)
    (toFetch : List FetchArg) (hs : q.m_stmt = some s)
    (hb : ∀ a ∈ toBind, a.isScalar = true) (hI : toBind.length = s.paramCount)
    (hne : toFetch ≠ []) (hf : ∀ a ∈ toFetch, a.isScalar = true)
    (hK : toFetch.length = s.columnCount) :
    (s.pendingError = SQLiteCode.OK →
      (nextCode s.steps = SQLiteCode.DONE →
        (Query.executeSingle toBind toFetch q).2.2 = 0 ∧
        (Query.executeSingle toBind toFetch q).1.m_error = SQLiteCode.CONSTRAINT) ∧
      (∀ row rest, s.steps = (SQLiteCode.ROW, row) :: rest → nextCode rest = SQLiteCode.ROW →
        (Query.executeSingle toBind toFetch q).2.2 = 0 ∧
        (Query.executeSingle toBind toFetch q).1.m_error = SQLiteCode.CONSTRAINT) ∧
      (∀ row rest, s.steps = (SQLiteCode.ROW, row) :: rest → nextCode rest = SQLiteCode.DONE →
        (Query.executeSingle toBind toFetch q).2
          = (holdingRow (some { s with row := row }) 0 toFetch, (s.columnCount : Int) + 1) ∧
        (Query.executeSingle toBind toFetch q).1.m_error = SQLiteCode.DONE ∧
        (Query.executeSingle toBind toFetch q).1.isDone = true)) ∧
    (s.pendingError ≠ SQLiteCode.OK →
      (Query.executeSingle toBind toFetch q).2 = (toFetch, 0) ∧
      (Query.executeSingle toBind toFetch q).1.m_error = s.pendingError ∧
      (Query.executeSingle toBind toFetch q).1.m_stmt
        = some { s with row := [], lastStep := SQLiteCode.OK } ∧
      (Query.executeSingle toBind toFetch q).1.log = q.log ++ [.reset]) := by
  refine ⟨fun hreset => ?_, fun hfail => ?_⟩
  · obtain ⟨r1, r2, _, _⟩ := reset_prepared q s hs hreset
    obtain ⟨b1, ⟨b, b2⟩, _, _⟩ := bindTemporaryAll_scalars
      { s with row := [], lastStep := SQLiteCode.OK } toBind q.reset.1 ⟨s.bound, r2⟩ hb hI
    have hbne : (Query.bindTemporaryAll toBind q.reset.1).2 ≠ 0 := by
      rw [b1]; simp only [ne_eq]; omega
    have hdef : Query.executeSingle toBind toFetch q
        = (if (Query.stepAllGeneric false [.tuple toFetch]
                (Query.bindTemporaryAll toBind q.reset.1).1).2.2 ≠ 0 then
            if (Query.stepAllGeneric false [.tuple toFetch]
                (Query.bindTemporaryAll toBind q.reset.1).1).1.stepNoFetch.2 = true then
              ((Query.stepAllGeneric false [.tuple toFetch]
                  (Query.bindTemporaryAll toBind q.reset.1).1).1.stepNoFetch.1.setInternalError
                  SQLiteCode.CONSTRAINT,
                Query.unpack toFetch (Query.stepAllGeneric false [.tuple toFetch]
                  (Query.bindTemporaryAll toBind q.reset.1).1).2.1, 0)
            else if (!(Query.stepAllGeneric false [.tuple toFetch]
                (Query.bindTemporaryAll toBind q.reset.1).1).1.stepNoFetch.1.isDone) = true then
              ((Query.stepAllGeneric false [.tuple toFetch]
                  (Query.bindTemporaryAll toBind q.reset.1).1).1.stepNoFetch.1,
                Query.unpack toFetch (Query.stepAllGeneric false [.tuple toFetch]
                  (Query.bindTemporaryAll toBind q.reset.1).1).2.1, 0)
            else
              ((Query.stepAllGeneric false [.tuple toFetch]
                  (Query.bindTemporaryAll toBind q.reset.1).1).1.stepNoFetch.1,
                Query.unpack toFetch (Query.stepAllGeneric false [.tuple toFetch]
                  (Query.bindTemporaryAll toBind q.reset.1).1).2.1,
                (Query.stepAllGeneric false [.tuple toFetch]
                  (Query.bindTemporaryAll toBind q.reset.1).1).2.2)
          else if (Query.stepAllGeneric false [.tuple toFetch]
                (Query.bindTemporaryAll toBind q.reset.1).1).1.isDone = true then
            ((Query.stepAllGeneric false [.tuple toFetch]
                (Query.bindTemporaryAll toBind q.reset.1).1).1.setInternalError
                SQLiteCode.CONSTRAINT,
              Query.unpack toFetch (Query.stepAllGeneric false [.tuple toFetch]
                (Query.bindTemporaryAll toBind q.reset.1).1).2.1,
              (Query.stepAllGeneric false [.tuple toFetch]
                (Query.bindTemporaryAll toBind q.reset.1).1).2.2)
          else
            ((Query.stepAllGeneric false [.tuple toFetch]
                (Query.bindTemporaryAll toBind q.reset.1).1).1,
              Query.unpack toFetch (Query.stepAllGeneric false [.tuple toFetch]
                (Query.bindTemporaryAll toBind q.reset.1).1).2.1,
              (Query.stepAllGeneric false [.tuple toFetch]
                (Query.bindTemporaryAll toBind q.reset.1).1).2.2)) := by
      simp only [Query.executeSingle, Query.executeSingleAllGeneric, if_pos r1,
        bindTemporaryAll_tuple, if_pos hbne]
    rw [hdef]
    generalize hF : Query.stepAllGeneric false [.tuple toFetch]
      (Query.bindTemporaryAll toBind q.reset.1).1 = F
    refine ⟨?_, ?_, ?_⟩
    · intro hdone
      have hcode : nextCode ({ s with row := [], lastStep := SQLiteCode.OK, bound := b } : Stmt).steps
          ≠ SQLiteCode.ROW := by
        show nextCode s.steps ≠ SQLiteCode.ROW
        rw [hdone]; decide
      obtain ⟨f1, f2, f3, f4⟩ := stepAllGeneric_no_row false _ _ [.tuple toFetch] b2 hcode
      rw [hF] at f1 f2 f3 f4
      have f4' : F.1.isDone = true := by
        simp only [Query.isDone, f4]
        show (nextCode s.steps == SQLiteCode.DONE) = true
        rw [hdone]; decide
      have hz : ¬ (F.2.2 ≠ 0) := by rw [f1]; simp
      rw [if_neg hz, if_pos f4']
      exact ⟨f1, rfl⟩
    · intro row rest hsteps hnext
      have hsteps' : ({ s with row := [], lastStep := SQLiteCode.OK, bound := b } : Stmt).steps
          = (SQLiteCode.ROW, row) :: rest := hsteps
      obtain ⟨f1, f2, f3, f4⟩ := stepAllGeneric_row _ _ toFetch row rest b2 hsteps' hne hf hK
      rw [hF] at f1 f2 f3 f4
      obtain ⟨t1, t2, t3, _⟩ := stepNoFetch_prepared _ _ f3
      rw [sqlite3_step_code] at t2 t3
      have t3' : F.1.stepNoFetch.2 = true := by
        rw [t3]; show (nextCode rest == SQLiteCode.ROW) = true
        rw [hnext]; decide
      have hfne : F.2.2 ≠ 0 := by
        rw [f1]; show (s.columnCount : Int) + 1 ≠ 0
        omega
      rw [if_pos hfne, if_pos t3']
      exact ⟨rfl, rfl⟩
    · intro row rest hsteps hnext
      have hsteps' : ({ s with row := [], lastStep := SQLiteCode.OK, bound := b } : Stmt).steps
          = (SQLiteCode.ROW, row) :: rest := hsteps
      obtain ⟨f1, f2, f3, f4⟩ := stepAllGeneric_row _ _ toFetch row rest b2 hsteps' hne hf hK
      rw [hF] at f1 f2 f3 f4
      obtain ⟨t1, t2, t3, _⟩ := stepNoFetch_prepared _ _ f3
      rw [sqlite3_step_code] at t2 t3
      have t2' : F.1.stepNoFetch.1.m_error = SQLiteCode.DONE := by
        rw [t2]; exact hnext
      have t3' : ¬ (F.1.stepNoFetch.2 = true) := by
        rw [t3]; show ¬ ((nextCode rest == SQLiteCode.ROW) = true)
        rw [hnext]; decide
      have t4 : ¬ ((!F.1.stepNoFetch.1.isDone) = true) := by
        simp [Query.isDone, t2']
      have hfne : F.2.2 ≠ 0 := by
        rw [f1]; show (s.columnCount : Int) + 1 ≠ 0
        omega
      have hrow := holdingRow_congr
        { ({ s with row := [], lastStep := SQLiteCode.OK, bound := b } : Stmt) with row := row }
        { s with row := row } rfl rfl rfl rfl rfl toFetch 0
      rw [if_pos hfne, if_neg t3', if_neg t4]
      refine ⟨?_, t2', ?_⟩
      · simp only [f2, Query.unpack, f1]
        exact Prod.ext hrow rfl
      · simp [Query.isDone, t2']
  · have hr : ¬ (q.reset.2 = true) := by
      simp [Query.reset, hs, sqlite3_reset, hfail]
    have hdef : Query.executeSingle toBind toFetch q = (q.reset.1, toFetch, 0) := by
      simp only [Query.executeSingle, Query.executeSingleAllGeneric, if_neg hr]
    rw [hdef]
    simp [Query.reset, hs, sqlite3_reset, Query.call]

theorem executeSingle_one_row_witness :
    (Query.executeSingle [.int64 15, .int64 16] [.int .qint32 0, .int .qint32 0]
        (Query.on (Stmt.sample 2 2 [(SQLiteCode.ROW, [.integer 15, .integer 16])]))).2
      = ([.int .qint32 15, .int .qint32 16], 3) ∧
    (Query.executeSingle [.int64 15, .int64 16] [.int .qint32 0, .int .qint32 0]
        (Query.on (Stmt.sample 2 2 []))).2.2 = 0 ∧
    (Query.executeSingle [] [.int .qint32 0, .int .qint32 0]
        (Query.on (Stmt.sample 0 2 [(SQLiteCode.ROW, [.integer 3, .integer 4]),
          (SQLiteCode.ROW, [.integer 4, .integer 5])]))).1.m_error = SQLiteCode.CONSTRAINT ∧
    (Query.executeSingle [] [.int .qint32 0]
        (Query.busyStep [(SQLiteCode.ROW, [.integer 7])])).1.m_error = 5 ∧
    (Query.executeSingle [] [.int .qint32 0]
        (Query.busyStep [(SQLiteCode.ROW, [.integer 7])])).1.log = [.step, .reset] := by
  refine ⟨?_, ?_, ?_, ?_, ?_⟩
  · have h := ((executeSingle_one_row
      (Stmt.sample 2 2 [(SQLiteCode.ROW, [.integer 15, .integer 16])]) (Query.on _)
      [.int64 15, .int64 16] [.int .qint32 0, .int .qint32 0] rfl (by decide) rfl
      (by simp) (by decide) rfl).1 (by decide)).2.2 [.integer 15, .integer 16] [] rfl
      (by decide)
    rw [h.1]
    rfl
  · exact (((executeSingle_one_row (Stmt.sample 2 2 []) (Query.on _)
      [.int64 15, .int64 16] [.int .qint32 0, .int .qint32 0] rfl (by decide) rfl
      (by simp) (by decide) rfl).1 (by decide)).1 (by decide)).1
  · exact (((executeSingle_one_row _ (Query.on _)
      [] [.int .qint32 0, .int .qint32 0] rfl (by decide) rfl
      (by simp) (by decide) rfl).1 (by decide)).2.1 [.integer 3, .integer 4]
      [(SQLiteCode.ROW, [.integer 4, .integer 5])] rfl (by decide)).2
  · exact ((executeSingle_one_row
      { Stmt.sample 0 1 [(SQLiteCode.ROW, [.integer 7])] with lastStep := 5 }
      (Query.busyStep [(SQLiteCode.ROW, [.integer 7])])
      [] [.int .qint32 0] rfl (by decide) rfl (by simp) (by decide) rfl).2 (by decide)).2.1
  · exact ((executeSingle_one_row
      { Stmt.sample 0 1 [(SQLiteCode.ROW, [.integer 7])] with lastStep := 5 }
      (Query.busyStep [(SQLiteCode.ROW, [.integer 7])])
      [] [.int .qint32 0] rfl (by decide) rfl (by simp) (by decide) rfl).2 (by decide)).2.2.2

/-- The error code is not changed by `clearBindingInternal`. -/
theorem clearBindingInternal_m_error (q : Query) :
    q.clearBindingInternal.1.m_error = q.m_error := by
  unfold Query.clearBindingInternal
  cases q.m_stmt <;> rfl

/-- C5. `Query::executeCommand` on a prepared statement with `P` parameters, given `P`
scalar values and the reset being accepted: it returns 0 with CONSTRAINT when the step
produces a row, `P + 1` with the error reset to OK when the step ends with DONE, and 0
keeping the engine's code for any other step outcome.  When the reset reports a pending step
error it returns 0 with that code, and on an unprepared statement it returns 0 (MISUSE). -/
theorem executeCommand_outcomes (s : Stmt) (q : Query) (args : List BindArg) :
    (q.m_stmt = some s → (∀ a ∈ args, a.isScalar = true) → args.length = s.paramCount →
      (s.pendingError = SQLiteCode.OK →
        (nextCode s.steps = SQLiteCode.ROW →
          (Query.executeCommand args q).2 = 0 ∧
          (Query.executeCommand args q).1.m_error = SQLiteCode.CONSTRAINT) ∧
        (nextCode s.steps = SQLiteCode.DONE →
          (Query.executeCommand args q).2 = (s.paramCount : Int) + 1 ∧
          (Query.executeCommand args q).1.m_error = SQLiteCode.OK) ∧
        (nextCode s.steps ≠ SQLiteCode.ROW → nextCode s.steps ≠ SQLiteCode.DONE →
          (Query.executeCommand args q).2 = 0 ∧
          (Query.executeCommand args q).1.m_error = nextCode s.steps)) ∧
      (s.pendingError ≠ SQLiteCode.OK →
        (Query.executeCommand args q).2 = 0 ∧
        (Query.executeCommand args q).1.m_error = s.pendingError)) ∧
    (q.m_stmt = none →
      (Query.executeCommand args q).2 = 0 ∧
      (Query.executeCommand args q).1.m_error = SQLiteCode.MISUSE ∧
      (Query.executeCommand args q).1.log = q.log) := by
  constructor
  · intro hs hsc hP
    constructor
    · intro hreset
      obtain ⟨r1, r2, _, _⟩ := reset_prepared q s hs hreset
      obtain ⟨b1, ⟨b, b2⟩, _, _⟩ := bindTemporaryAll_scalars
        { s with row := [], lastStep := SQLiteCode.OK } args q.reset.1 ⟨s.bound, r2⟩ hsc hP
      have hbne : (Query.bindTemporaryAll args q.reset.1).2 ≠ 0 := by
        rw [b1]; simp only [ne_eq]; omega
      obtain ⟨t1, t2, t3, _⟩ := stepNoFetch_prepared _ _ b2
      rw [sqlite3_step_code] at t2 t3
      have hdef : Query.executeCommand args q
          = ((if (Query.bindTemporaryAll args q.reset.1).1.stepNoFetch.2 = true then
                ((Query.bindTemporaryAll args q.reset.1).1.stepNoFetch.1.setInternalError
                  SQLiteCode.CONSTRAINT, (0 : Int))
              else if (Query.bindTemporaryAll args q.reset.1).1.stepNoFetch.1.error
                  = SQLiteCode.DONE then
                ((Query.bindTemporaryAll args q.reset.1).1.stepNoFetch.1.resetInternalError,
                  (Query.bindTemporaryAll args q.reset.1).2)
              else ((Query.bindTemporaryAll args q.reset.1).1.stepNoFetch.1, 0)
              ).1.clearBindingInternal.1,
             (if (Query.bindTemporaryAll args q.reset.1).1.stepNoFetch.2 = true then
                ((Query.bindTemporaryAll args q.reset.1).1.stepNoFetch.1.setInternalError
                  SQLiteCode.CONSTRAINT, (0 : Int))
              else if (Query.bindTemporaryAll args q.reset.1).1.stepNoFetch.1.error
                  = SQLiteCode.DONE then
                ((Query.bindTemporaryAll args q.reset.1).1.stepNoFetch.1.resetInternalError,
                  (Query.bindTemporaryAll args q.reset.1).2)
              else ((Query.bindTemporaryAll args q.reset.1).1.stepNoFetch.1, 0)).2) := by
        simp only [Query.executeCommand, if_pos r1, if_pos hbne]
      rw [hdef]
      generalize hS : (Query.bindTemporaryAll args q.reset.1).1.stepNoFetch = S at t1 t2 t3
      have hsteps : ({ s with row := [], lastStep := SQLiteCode.OK, bound := b } : Stmt).steps
          = s.steps := rfl
      rw [hsteps] at t2 t3
      refine ⟨?_, ?_, ?_⟩
      · intro hrow
        have h1 : S.2 = true := by rw [t3, hrow]; decide
        rw [if_pos h1]
        exact ⟨rfl, by rw [clearBindingInternal_m_error]; rfl⟩
      · intro hdone
        have h1 : ¬ (S.2 = true) := by rw [t3, hdone]; decide
        have h2 : S.1.error = SQLiteCode.DONE := by
          show S.1.m_error = SQLiteCode.DONE
          rw [t2, hdone]
        rw [if_neg h1, if_pos h2]
        exact ⟨b1, by rw [clearBindingInternal_m_error]; rfl⟩
      · intro hnrow hndone
        have h1 : ¬ (S.2 = true) := by
          rw [t3]; simpa using hnrow
        have h2 : ¬ (S.1.error = SQLiteCode.DONE) := by
          show ¬ (S.1.m_error = SQLiteCode.DONE)
          rw [t2]; exact hndone
        rw [if_neg h1, if_neg h2]
        exact ⟨rfl, by rw [clearBindingInternal_m_error]; exact t2⟩
    · intro hfail
      have hr : ¬ (q.reset.2 = true) := by
        simp [Query.reset, hs, sqlite3_reset, hfail]
      have hre : q.reset.1.m_error = s.pendingError := by
        simp [Query.reset, hs, sqlite3_reset]
      simp only [Query.executeCommand, if_neg hr]
      exact ⟨trivial, by rw [clearBindingInternal_m_error]; exact hre⟩
  · intro hnone
    simp [Query.executeCommand, Query.reset, hnone, Query.setInternalError,
      Query.clearBindingInternal]

theorem executeCommand_outcomes_witness :
    (Query.executeCommand [.int64 1, .cstr "x"] (Query.on (Stmt.sample 2 0 []))).2 = 3 ∧
    (Query.executeCommand [] (Query.on (Stmt.sample 0 0 []))).2 = 1 ∧
    (Query.executeCommand [] (Query.on (Stmt.sample 0 1
      [(SQLiteCode.ROW, [.integer 1])]))).1.m_error = SQLiteCode.CONSTRAINT ∧
    (Query.executeCommand [] (Query.on (Stmt.sample 0 0 [(5, [])]))).1.m_error = 5 ∧
    (Query.executeCommand [] (Query.new true 0)).2 = 0 := by
  refine ⟨?_, ?_, ?_, ?_, ?_⟩
  · exact ((((executeCommand_outcomes (Stmt.sample 2 0 []) (Query.on _) [.int64 1, .cstr "x"]).1
      rfl (by decide) rfl).1 (by decide)).2.1 (by decide)).1
  · exact ((((executeCommand_outcomes (Stmt.sample 0 0 []) (Query.on _) []).1
      rfl (by decide) rfl).1 (by decide)).2.1 (by decide)).1
  · exact ((((executeCommand_outcomes (Stmt.sample 0 1 [(SQLiteCode.ROW, [.integer 1])])
      (Query.on _) []).1 rfl (by decide) rfl).1 (by decide)).1 (by decide)).2
  · exact ((((executeCommand_outcomes (Stmt.sample 0 0 [(5, [])])
      (Query.on _) []).1 rfl (by decide) rfl).1 (by decide)).2.2 (by decide) (by decide)).2
  · exact ((executeCommand_outcomes (Stmt.sample 0 0 []) (Query.new true 0) []).2 rfl).1

/-! ## Unprepared statements -/

/-- C6. On an unprepared statement `stepNoFetch`, `reset`, `clearBindings` and `finalize`
return false and `bind`, `bindTemporary`, `column` and `columnStrict` return 0; in every case
the only change of state is the error code set to MISUSE, so no engine call is made and the
statement stays unprepared.  A statement is unprepared when newly constructed, after
`finalize`, and after a `prepare` that returned false. -/
theorem unprepared_is_misuse :
    (∀ (q : Query), q.m_stmt = none →
      q.stepNoFetch = (q.setInternalError SQLiteCode.MISUSE, false) ∧
      q.reset = (q.setInternalError SQLiteCode.MISUSE, false) ∧
      q.clearBindings = (q.setInternalError SQLiteCode.MISUSE, false) ∧
      q.finalize = (q.setInternalError SQLiteCode.MISUSE, false) ∧
      (∀ (i : Int) (args : List BindArg),
        Query.bind i args q = (q.setInternalError SQLiteCode.MISUSE, 0) ∧
        Query.bindTemporary i args q = (q.setInternalError SQLiteCode.MISUSE, 0)) ∧
      (∀ (i : Int) (args : List FetchArg),
        Query.column i args q = (q.setInternalError SQLiteCode.MISUSE, args, 0) ∧
        Query.columnStrict i args q = (q.setInternalError SQLiteCode.MISUSE, args, 0)) ∧
      (q.setInternalError SQLiteCode.MISUSE).m_error = SQLiteCode.MISUSE ∧
      (q.setInternalError SQLiteCode.MISUSE).log = q.log ∧
      (q.setInternalError SQLiteCode.MISUSE).m_stmt = none ∧
      (q.setInternalError SQLiteCode.MISUSE).isPrepared = false) ∧
    (∀ (dbValid : Bool) (e : Int), (Query.new dbValid e).m_stmt = none) ∧
    (∀ (q : Query), q.finalize.1.m_stmt = none) ∧
    (∀ (q : Query) (compiled : Except Int (Option Stmt)),
      (q.dbValid = true ∨ q.m_stmt = none) → (q.prepare compiled).2 = false →
      (q.prepare compiled).1.m_stmt = none) := by
  refine ⟨?_, ?_, ?_, ?_⟩
  · intro q hq
    refine ⟨?_, ?_, ?_, ?_, ?_, ?_, rfl, rfl, hq, ?_⟩
    · simp [Query.stepNoFetch, hq]
    · simp [Query.reset, hq]
    · simp [Query.clearBindings, hq]
    · simp [Query.finalize, hq]
    · intro i args
      simp [Query.bind, Query.bindTemporary, Query.bindSingleWithChecks, Query.isPrepared, hq]
    · intro i args
      simp [Query.column, Query.columnStrict, Query.columnHelper, hq]
    · simp [Query.isPrepared, Query.setInternalError, hq]
  · intro dbValid e
    rfl
  · intro q
    unfold Query.finalize
    cases h : q.m_stmt with
    | none => simp [Query.setInternalError, h]
    | some s => simp
  · intro q compiled hvalid hfalse
    rcases hvalid with hv | hn
    · cases hst : q.m_stmt with
      | none =>
        cases hc : compiled with
        | error rc =>
          simp [Query.prepare, Query.isDbValid, hv, hst, hc, sqlite3_prepare_v3, Query.call]
        | ok stmt =>
          simp [Query.prepare, Query.isDbValid, hv, hst, hc, sqlite3_prepare_v3, Query.call]
            at hfalse
      | some s0 =>
        by_cases hfin : sqlite3_finalize s0 = SQLiteCode.OK
        · cases hc : compiled with
          | error rc =>
            simp [Query.prepare, Query.isDbValid, hv, hst, hc, sqlite3_prepare_v3, Query.call,
              hfin]
          | ok stmt =>
            simp [Query.prepare, Query.isDbValid, hv, hst, hc, sqlite3_prepare_v3, Query.call,
              hfin] at hfalse
        · simp [Query.prepare, Query.isDbValid, hv, hst, Query.call, hfin]
    · by_cases hv : q.dbValid = true
      · cases hc : compiled with
        | error rc =>
          simp [Query.prepare, Query.isDbValid, hv, hn, hc, sqlite3_prepare_v3, Query.call]
        | ok stmt =>
          simp [Query.prepare, Query.isDbValid, hv, hn, hc, sqlite3_prepare_v3, Query.call]
            at hfalse
      · simp [Query.prepare, Query.isDbValid, hv, hn, Query.setInternalError]

theorem unprepared_is_misuse_witness :
    (Query.new true 0).stepNoFetch.2 = false ∧
    (Query.bind 1 [.int64 4] (Query.new true 0)).2 = 0 ∧
    (Query.column 0 [.unused 2] (Query.new true 0)).2.2 = 0 ∧
    (Query.column 0 [.unused 2] (Query.new true 0)).1.m_error = SQLiteCode.MISUSE ∧
    ((Query.new true 0).prepare (.error 1)).1.m_stmt = none := by
  have h := unprepared_is_misuse.1 (Query.new true 0) rfl
  refine ⟨?_, ?_, ?_, ?_, ?_⟩
  · rw [h.1]
  · rw [(h.2.2.2.2.1 1 [.int64 4]).1]
  · rw [(h.2.2.2.2.2.1 0 [.unused 2]).1]
  · rw [(h.2.2.2.2.2.1 0 [.unused 2]).1]; rfl
  · exact unprepared_is_misuse.2.2.2 (Query.new true 0) (.error 1) (Or.inl rfl) (by decide)

/-! ## Strict fetch -/

/-- C7. `Query::columnStrictAll` is not `columnStrict(0, ...)` followed by the column-count
assertion: `columnAllHelper` passes `0` as `strict` and `strict` as the start index, so on
the row `(4, 5)` it reads columns 1 and 2 without type checking and returns 3 with the
destinations holding `5` and `0`, where `columnStrict(0, ...)` yields `4` and `5`; and on the
row `('a')` an integer destination is accepted (returns 2) where `columnStrict(0, ...)`
returns 0 with CONSTRAINT.  In general `columnStrictAll(args...)` is the permissive
`column(1, args...)` followed by the column-count assertion. -/
theorem columnStrictAll_not_strict_from_zero :
    (∀ (args : List FetchArg) (q : Query),
      Query.columnStrictAll args q
        = (if (Query.column 1 args q).2.2 ≤ 0 then
            ((Query.column 1 args q).1, (Query.column 1 args q).2.1, 0)
          else
            (((Query.column 1 args q).1.assertFetchColumnCount
                ((Query.column 1 args q).2.2 - 1)).1,
              (Query.column 1 args q).2.1,
              ((Query.column 1 args q).1.assertFetchColumnCount
                ((Query.column 1 args q).2.2 - 1)).2 + 1))) ∧
    (Query.columnStrictAll [.int .qint32 0, .int .qint32 0]
        (Query.onRow [.integer 4, .integer 5])).2
      = ([.int .qint32 5, .int .qint32 0], 3) ∧
    (Query.columnStrict 0 [.int .qint32 0, .int .qint32 0]
        (Query.onRow [.integer 4, .integer 5])).2
      = ([.int .qint32 4, .int .qint32 5], 3) ∧
    (Query.columnStrictAll [.int .qint32 0, .int .qint32 0]
        (Query.onRow [.integer 4, .integer 5])).1.log
      = [.step, .columnInt64 1, .columnInt64 2, .columnCount] ∧
    (Query.columnStrictAll [.int .qint32 7] (Query.onRow [.text "a"])).2
      = ([.int .qint32 0], 2) ∧
    (Query.columnStrictAll [.int .qint32 7] (Query.onRow [.text "a"])).1.m_error
      = SQLiteCode.ROW ∧
    (Query.columnStrict 0 [.int .qint32 7] (Query.onRow [.text "a"])).2
      = ([.int .qint32 7], 0) ∧
    (Query.columnStrict 0 [.int .qint32 7] (Query.onRow [.text "a"])).1.m_error
      = SQLiteCode.CONSTRAINT := by
  refine ⟨fun _ _ => rfl, rfl, rfl, by decide, rfl, by decide, rfl, by decide⟩

/-- The statement is not changed by `columnType`. -/
theorem columnType_m_stmt (q : Query) (j : Int) : (q.columnType j).1.m_stmt = q.m_stmt := by
  unfold Query.columnType
  cases h : q.m_stmt with
  | none => simp [Query.setInternalError, h]
  | some s =>
    simp only
    split_ifs <;> simp [Query.setInternalError, Query.call, h]

/-- The conversion to `T` yields a value of `T`. -/
theorem IntType.wrap_inRange (T : IntType) (x : Int) : T.inRange (T.wrap x) := by
  cases T <;>
    simp only [IntType.inRange, IntType.wrap, IntType.min, IntType.max, IntType.isSigned,
      IntType.bits, if_true, if_false, Bool.false_eq_true] <;>
    norm_num <;> omega

/-- A strict fetch of an INTEGER column into an integer variable holding a value of its type
never fails: it returns 2 and stores the conversion of the column value. -/
theorem readColumnInt_strict_integer (j : Int) (T : IntType) (value : Int) (q : Query)
    (ht : (q.columnType j).2 = ColType.Integer) (hv : T.inRange value) :
    (Query.readColumnInt true j T value q).2
      = (T.wrap (sqlite3_column_int64 q.m_stmt j), 2) := by
  have hr : ¬ (value > T.max ∨ (value < 0 ∧ T.min ≥ 0) ∨ value < T.min) := by
    have h1 : T.min ≤ value := hv.1
    have h2 : value ≤ T.max := hv.2
    omega
  simp [Query.readColumnInt, ht, Query.readColumnIntSQLite, hr, columnType_m_stmt]

/-- C8. A strict fetch of an INTEGER column does not reject a value outside the range of the
destination type: the range test of `readColumnInt` reads the destination, not the fetched
value.  For every integer type `T` and every stored value `v`, the strict fetch into a
variable of type `T` returns 2 and stores `v` converted to `T`.  Fetching 300 into a `quint8`
holding 7 returns 2, leaves the error code of the step and stores 44; fetching 129 into a
`qint8` holding 7 returns 2 and stores -127. -/
theorem readColumnInt_strict_accepts_out_of_range :
    (∀ (T : IntType) (v x : Int),
      (Query.columnStrict 0 [.int T (T.wrap x)] (Query.onRow [.integer v])).2
        = ([.int T (T.wrap v)], 2)) ∧
    (Query.columnStrict 0 [.int .quint8 7] (Query.onRow [.integer 300])).2
      = ([.int .quint8 44], 2) ∧
    (Query.columnStrict 0 [.int .quint8 7] (Query.onRow [.integer 300])).1.m_error
      = SQLiteCode.ROW ∧
    ¬ IntType.quint8.inRange 300 ∧
    (Query.columnStrict 0 [.int .qint8 7] (Query.onRow [.integer 129])).2
      = ([.int .qint8 (-127)], 2) ∧
    (Query.columnStrict 0 [.int .qint8 7] (Query.onRow [.integer 129])).1.m_error
      = SQLiteCode.ROW ∧
    ¬ IntType.qint8.inRange 129 := by
  refine ⟨?_, rfl, by decide, by decide, rfl, by decide, by decide⟩
  intro T v x
  have ht : ((Query.onRow [.integer v]).columnType 0).2 = ColType.Integer := rfl
  have h := readColumnInt_strict_integer 0 T (T.wrap x) (Query.onRow [.integer v]) ht
    (IntType.wrap_inRange T x)
  have hv : sqlite3_column_int64 (Query.onRow [.integer v]).m_stmt 0 = v := rfl
  rw [hv] at h
  have hstmt : (Query.onRow [.integer v]).m_stmt.isSome = true := rfl
  have two : (2 : Int) > 0 := by decide
  simp only [Query.columnStrict, Query.columnHelper, hstmt, Bool.not_true, Bool.false_eq_true,
    if_false, Query.readColumnHelper, Query.readColumnFold, add_zero, Query.readColumn, h,
    if_pos two]
  rfl

/-- A `float` that is not infinite is within the `float` range. -/
theorem Flt.range_test_false (f : Flt) :
    (!f.isNaN && !f.isInf && (f.ltNegMax || f.gtMax)) = false := by
  obtain ⟨src⟩ := f
  cases src with
  | nan => simp [Flt.isNaN, Flt.isInf, Flt.ltNegMax, Flt.gtMax]
  | inf negative => simp [Flt.isNaN, Flt.isInf, Flt.ltNegMax, Flt.gtMax]
  | fin x =>
    simp only [Flt.isNaN, Flt.isInf, Flt.ltNegMax, Flt.gtMax, Bool.not_false, Bool.true_and]
    by_cases h : FLT_OVERFLOW ≤ |x|
    · simp [h]
    · have h1 : ¬ (FLT_OVERFLOW ≤ x) := fun hx => h (le_trans hx (le_abs_self x))
      have h2 : ¬ (x ≤ -FLT_OVERFLOW) := fun hx =>
        h (le_trans (by linarith) (neg_abs_le x |> neg_le.mp))
      simp [h, h1, h2]

/-- C9. A strict fetch into an integer, `double`, `float`, `QString` or `QByteArray`
destination from a column whose dynamic type is not INTEGER, FLOAT, FLOAT, TEXT or BLOB
respectively returns 0, sets the error code CONSTRAINT and leaves the destination unchanged;
when the type matches it returns 2 and leaves the destination with the value the permissive
fetch gives it. -/
theorem strict_fetch_type_check (j : Int) (a : FetchArg) (q : Query) (t : ColType)
    (ha : a.expectedType = some t) :
    ((q.columnType j).2 ≠ t →
      (Query.readColumn true j a q).2 = (a, 0) ∧
      (Query.readColumn true j a q).1.m_error = SQLiteCode.CONSTRAINT) ∧
    ((q.columnType j).2 = t → a.wellTyped →
      (Query.readColumn true j a q).2 = ((Query.readColumn false j a q).2.1, 2)) := by
  have hst := columnType_m_stmt q j
  cases a with
  | unused I => simp [FetchArg.expectedType] at ha
  | tuple elems => simp [FetchArg.expectedType] at ha
  | opt value fresh => simp [FetchArg.expectedType] at ha
  | call data function => simp [FetchArg.expectedType] at ha
  | custom ops => simp [FetchArg.expectedType] at ha
  | blob value => simp [FetchArg.expectedType] at ha
  | int T value =>
    simp only [FetchArg.expectedType, Option.some.injEq] at ha
    subst ha
    constructor
    · intro hne
      simp [Query.readColumn, Query.readColumnInt, hne, Query.setInternalError]
    · intro heq hwt
      have hr : ¬ (value > T.max ∨ (value < 0 ∧ T.min ≥ 0) ∨ value < T.min) := by
        have h1 : T.min ≤ value := hwt.1
        have h2 : value ≤ T.max := hwt.2
        omega
      simp [Query.readColumn, Query.readColumnInt, heq, Query.readColumnIntSQLite, hr, hst]
  | dbl value =>
    simp only [FetchArg.expectedType, Option.some.injEq] at ha
    subst ha
    constructor
    · intro hne
      simp [Query.readColumn, Query.readColumnDouble, hne, Query.setInternalError]
    · intro heq _
      simp [Query.readColumn, Query.readColumnDouble, heq, Query.readColumnDoubleSQLite, hst]
  | flt value =>
    simp only [FetchArg.expectedType, Option.some.injEq] at ha
    subst ha
    constructor
    · intro hne
      simp [Query.readColumn, Query.readColumnFloat, hne, Query.setInternalError]
    · intro heq _
      have hrange := Flt.range_test_false
        (Flt.ofDouble (sqlite3_column_double q.m_stmt j))
      have hcond : ¬ ((({ src := sqlite3_column_double q.m_stmt j } : Flt).isNaN = false ∧
          ({ src := sqlite3_column_double q.m_stmt j } : Flt).isInf = false) ∧
          (({ src := sqlite3_column_double q.m_stmt j } : Flt).ltNegMax = true ∨
            ({ src := sqlite3_column_double q.m_stmt j } : Flt).gtMax = true)) := by
        intro hc
        simp [hc.1.1, hc.1.2] at hrange
        rcases hc.2 with h | h
        · simp [h] at hrange
        · simp [h] at hrange
      simp [Query.readColumn, Query.readColumnFloat, heq, Query.readColumnDoubleSQLite, hst,
        hcond]
  | qstring value =>
    simp only [FetchArg.expectedType, Option.some.injEq] at ha
    subst ha
    constructor
    · intro hne
      simp [Query.readColumn, Query.readColumnQString, hne, Query.setInternalError]
    · intro heq _
      simp [Query.readColumn, Query.readColumnQString, heq, hst]
  | bytes value =>
    simp only [FetchArg.expectedType, Option.some.injEq] at ha
    subst ha
    constructor
    · intro hne
      simp [Query.readColumn, Query.readColumnQByteArray, hne, Query.setInternalError]
    · intro heq _
      have hp := readColumn_permissive_scalar j (.bytes value) (q.columnType j).1 rfl
      have hp2 := readColumn_permissive_scalar j (.bytes value) q rfl
      simp only [Query.readColumn, Query.readColumnQByteArray, Bool.false_eq_true,
        if_false] at hp hp2
      simp only [Query.readColumn, Query.readColumnQByteArray, heq, ne_eq, not_true_eq_false,
        if_true, if_false, Bool.false_eq_true]
      refine Prod.ext ?_ hp.1
      show FetchArg.bytes (Query.readColumnBytes j value (q.columnType j).1).2.1
        = FetchArg.bytes (Query.readColumnBytes j value q).2.1
      rw [hp.2.1, hp2.2.1, hst]

theorem strict_fetch_type_check_witness :
    (Query.readColumn true 0 (.int .qint32 7) (Query.onRow [.text "5"])).2
      = (.int .qint32 7, 0) ∧
    (Query.readColumn true 0 (.int .qint32 7) (Query.onRow [.text "5"])).1.m_error
      = SQLiteCode.CONSTRAINT ∧
    (Query.readColumn true 0 (.qstring "") (Query.onRow [.text "5"])).2
      = (.qstring "5", 2) := by
  have h1 := (strict_fetch_type_check 0 (.int .qint32 7) (Query.onRow [.text "5"])
    ColType.Integer rfl).1 (by decide)
  have h2 := (strict_fetch_type_check 0 (.qstring "") (Query.onRow [.text "5"])
    ColType.Text rfl).2 (by decide) trivial
  refine ⟨h1.1, h1.2, ?_⟩
  rw [h2]
  rfl

/-! ## The first failure in a walk -/

/-- One step of the fetch fold when the fetch of the first argument succeeds. -/
theorem readColumnFold_cons_pos (strict : Bool) (i : Int) (a : FetchArg) (rest : List FetchArg)
    (c n : Int) (q : Query) (h : (Query.readColumn strict (i + n) a q).2.2 > 0) :
    Query.readColumnFold strict i (a :: rest) c n q
      = ((Query.readColumnFold strict i rest (Query.readColumn strict (i + n) a q).2.2
            (n + ((Query.readColumn strict (i + n) a q).2.2 - 1))
            (Query.readColumn strict (i + n) a q).1).1,
          (Query.readColumn strict (i + n) a q).2.1 ::
            (Query.readColumnFold strict i rest (Query.readColumn strict (i + n) a q).2.2
              (n + ((Query.readColumn strict (i + n) a q).2.2 - 1))
              (Query.readColumn strict (i + n) a q).1).2.1,
          (Query.readColumnFold strict i rest (Query.readColumn strict (i + n) a q).2.2
            (n + ((Query.readColumn strict (i + n) a q).2.2 - 1))
            (Query.readColumn strict (i + n) a q).1).2.2) := by
  rw [Query.readColumnFold]
  simp only [if_pos h]

/-- One step of the fetch fold when the fetch of the first argument fails. -/
theorem readColumnFold_cons_neg (strict : Bool) (i : Int) (a : FetchArg) (rest : List FetchArg)
    (c n : Int) (q : Query) (h : ¬ (Query.readColumn strict (i + n) a q).2.2 > 0) :
    Query.readColumnFold strict i (a :: rest) c n q
      = ((Query.readColumn strict (i + n) a q).1,
          (Query.readColumn strict (i + n) a q).2.1 :: rest,
          (Query.readColumn strict (i + n) a q).2.2,
          n + ((Query.readColumn strict (i + n) a q).2.2 - 1)) := by
  rw [Query.readColumnFold]
  simp only [if_neg h]

/-- One step of the bind fold when the bind of the first argument succeeds. -/
theorem bindSingleFold_cons_pos (t : Bool) (i : Int) (a : BindArg) (rest : List BindArg)
    (c n : Int) (q : Query) (h : (Query.bindSingle t (i + n) a q).2 > 0) :
    Query.bindSingleFold t i (a :: rest) c n q
      = Query.bindSingleFold t i rest (Query.bindSingle t (i + n) a q).2
          (n + ((Query.bindSingle t (i + n) a q).2 - 1)) (Query.bindSingle t (i + n) a q).1 := by
  rw [Query.bindSingleFold]
  simp only [if_pos h]

/-- One step of the bind fold when the bind of the first argument fails. -/
theorem bindSingleFold_cons_neg (t : Bool) (i : Int) (a : BindArg) (rest : List BindArg)
    (c n : Int) (q : Query) (h : ¬ (Query.bindSingle t (i + n) a q).2 > 0) :
    Query.bindSingleFold t i (a :: rest) c n q
      = ((Query.bindSingle t (i + n) a q).1, (Query.bindSingle t (i + n) a q).2,
          n + ((Query.bindSingle t (i + n) a q).2 - 1)) := by
  rw [Query.bindSingleFold]
  simp only [if_neg h]

/-- The fetch fold over `pre ++ a :: post` when every fetch of `pre` succeeds: the fold over
`pre`, then the fold over `a :: post` from where it ended. -/
theorem readColumnFold_append (strict : Bool) (i : Int) (a : FetchArg) (post : List FetchArg) :
    ∀ (pre : List FetchArg) (c0 c n : Int) (q : Query),
      0 < c0 → 0 < (Query.readColumnFold strict i pre c0 n q).2.2.1 →
      Query.readColumnFold strict i (pre ++ a :: post) c n q
        = ((Query.readColumnFold strict i (a :: post) 1
              (Query.readColumnFold strict i pre c0 n q).2.2.2
              (Query.readColumnFold strict i pre c0 n q).1).1,
            (Query.readColumnFold strict i pre c0 n q).2.1 ++
              (Query.readColumnFold strict i (a :: post) 1
                (Query.readColumnFold strict i pre c0 n q).2.2.2
                (Query.readColumnFold strict i pre c0 n q).1).2.1,
            (Query.readColumnFold strict i (a :: post) 1
              (Query.readColumnFold strict i pre c0 n q).2.2.2
              (Query.readColumnFold strict i pre c0 n q).1).2.2) := by
  intro pre
  induction pre with
  | nil =>
    intro c0 c n q _ _
    simp [Query.readColumnFold]
  | cons p pre ih =>
    intro c0 c n q _ h
    by_cases hp : (Query.readColumn strict (i + n) p q).2.2 > 0
    · rw [readColumnFold_cons_pos strict i p pre c0 n q hp] at h
      rw [List.cons_append, readColumnFold_cons_pos strict i p _ c n q hp,
        ih (Query.readColumn strict (i + n) p q).2.2 _ _ _ hp h,
        readColumnFold_cons_pos strict i p pre c0 n q hp]
      rfl
    · exfalso
      rw [readColumnFold_cons_neg strict i p pre c0 n q hp] at h
      exact hp h

/-- The bind fold over `pre ++ a :: post` when every bind of `pre` succeeds. -/
theorem bindSingleFold_append (t : Bool) (i : Int) (a : BindArg) (post : List BindArg) :
    ∀ (pre : List BindArg) (c0 c n : Int) (q : Query),
      0 < c0 → 0 < (Query.bindSingleFold t i pre c0 n q).2.1 →
      Query.bindSingleFold t i (pre ++ a :: post) c n q
        = Query.bindSingleFold t i (a :: post) 1
            (Query.bindSingleFold t i pre c0 n q).2.2
            (Query.bindSingleFold t i pre c0 n q).1 := by
  intro pre
  induction pre with
  | nil =>
    intro c0 c n q _ _
    simp [Query.bindSingleFold]
  | cons p pre ih =>
    intro c0 c n q _ h
    by_cases hp : (Query.bindSingle t (i + n) p q).2 > 0
    · rw [bindSingleFold_cons_pos t i p pre c0 n q hp] at h
      rw [List.cons_append, bindSingleFold_cons_pos t i p _ c n q hp,
        ih (Query.bindSingle t (i + n) p q).2 _ _ _ hp h,
        bindSingleFold_cons_pos t i p pre c0 n q hp]
    · exfalso
      rw [bindSingleFold_cons_neg t i p pre c0 n q hp] at h
      exact hp h

/-- C11. In a fetch walk (`readColumnHelper`, and `column`/`columnStrict` on a prepared
statement) and in a bind walk (`bindSingleHelper`, and `bind`/`bindTemporary` on a prepared
statement) over `pre ++ a :: post`: when every argument of `pre` succeeds and `a`, handed the
index reached after `pre`, returns 0 (or less), the whole call returns 0, the state is the one
the processing of `a` left (so no engine call is made after it, and the error code is the one
set while processing `a`), and the destinations of `post` are as they were. -/
theorem first_failure_aborts_walk (strict t : Bool) (i : Int) :
    (∀ (pre post : List FetchArg) (a : FetchArg) (q : Query),
      0 < (Query.readColumnFold strict i pre 1 0 q).2.2.1 →
      (Query.readColumn strict (i + (Query.readColumnFold strict i pre 1 0 q).2.2.2) a
        (Query.readColumnFold strict i pre 1 0 q).1).2.2 ≤ 0 →
      Query.readColumnHelper strict i (pre ++ a :: post) q
        = ((Query.readColumn strict (i + (Query.readColumnFold strict i pre 1 0 q).2.2.2) a
              (Query.readColumnFold strict i pre 1 0 q).1).1,
            (Query.readColumnFold strict i pre 1 0 q).2.1 ++
              (Query.readColumn strict (i + (Query.readColumnFold strict i pre 1 0 q).2.2.2) a
                (Query.readColumnFold strict i pre 1 0 q).1).2.1 :: post,
            0) ∧
      (q.isPrepared = true →
        Query.columnHelper strict i (pre ++ a :: post) q
          = Query.readColumnHelper strict i (pre ++ a :: post) q ∧
        Query.column i (pre ++ a :: post) q
          = Query.readColumnHelper false i (pre ++ a :: post) q ∧
        Query.columnStrict i (pre ++ a :: post) q
          = Query.readColumnHelper true i (pre ++ a :: post) q)) ∧
    (∀ (pre post : List BindArg) (a : BindArg) (q : Query),
      0 < (Query.bindSingleFold t i pre 1 0 q).2.1 →
      (Query.bindSingle t (i + (Query.bindSingleFold t i pre 1 0 q).2.2) a
        (Query.bindSingleFold t i pre 1 0 q).1).2 ≤ 0 →
      Query.bindSingleHelper t i (pre ++ a :: post) q
        = ((Query.bindSingle t (i + (Query.bindSingleFold t i pre 1 0 q).2.2) a
              (Query.bindSingleFold t i pre 1 0 q).1).1, 0) ∧
      (q.isPrepared = true →
        Query.bindSingleWithChecks t i (pre ++ a :: post) q
          = ((Query.bindSingle t (i + (Query.bindSingleFold t i pre 1 0 q).2.2) a
                (Query.bindSingleFold t i pre 1 0 q).1).1, 0))) := by
  constructor
  · intro pre post a q hpre ha
    have hna : ¬ (Query.readColumn strict (i + (Query.readColumnFold strict i pre 1 0 q).2.2.2) a
        (Query.readColumnFold strict i pre 1 0 q).1).2.2 > 0 := by omega
    constructor
    · rw [Query.readColumnHelper,
        readColumnFold_append strict i a post pre 1 0 0 q (by decide) hpre]
      rw [readColumnFold_cons_neg strict i a post 1 _ _ hna]
      simp only [if_neg hna]
    · intro hq
      have hs : q.m_stmt.isSome = true := hq
      simp [Query.column, Query.columnStrict, Query.columnHelper, hs]
  · intro pre post a q hpre ha
    have hna : ¬ (Query.bindSingle t (i + (Query.bindSingleFold t i pre 1 0 q).2.2) a
        (Query.bindSingleFold t i pre 1 0 q).1).2 > 0 := by omega
    have hh : Query.bindSingleHelper t i (pre ++ a :: post) q
        = ((Query.bindSingle t (i + (Query.bindSingleFold t i pre 1 0 q).2.2) a
              (Query.bindSingleFold t i pre 1 0 q).1).1, 0) := by
      rw [Query.bindSingleHelper,
        bindSingleFold_append t i a post pre 1 1 0 q (by decide) hpre]
      rw [bindSingleFold_cons_neg t i a post 1 _ _ hna]
      simp only [if_neg hna]
    refine ⟨hh, ?_⟩
    intro hq
    simp only [Query.bindSingleWithChecks, hq, Bool.not_true, Bool.false_eq_true, if_false,
      bindSingle_tuple, hh]
    simp

theorem first_failure_aborts_walk_witness :
    (Query.columnStrict 0 [.int .qint32 0, .qstring "old", .int .qint32 7, .dbl (Dbl.fin 9)]
        (Query.onRow [.integer 1, .integer 2, .integer 3, .integer 4])).2
      = ([.int .qint32 1, .qstring "old", .int .qint32 7, .dbl (Dbl.fin 9)], 0) ∧
    (Query.columnStrict 0 [.int .qint32 0, .qstring "old", .int .qint32 7, .dbl (Dbl.fin 9)]
        (Query.onRow [.integer 1, .integer 2, .integer 3, .integer 4])).1.log
      = [.step, .columnType 0, .columnInt64 0, .columnType 1] ∧
    (Query.columnStrict 0 [.int .qint32 0, .qstring "old", .int .qint32 7, .dbl (Dbl.fin 9)]
        (Query.onRow [.integer 1, .integer 2, .integer 3, .integer 4])).1.m_error
      = SQLiteCode.CONSTRAINT ∧
    (Query.bind 3 [.int64 5, .cstr "x", .null] threeParameters).2 = 0 ∧
    (Query.bind 3 [.int64 5, .cstr "x", .null] threeParameters).1.log
      = [.bindInt64 3 5, .bindText 4 "x" false] ∧
    (Query.bind 3 [.int64 5, .cstr "x", .null] threeParameters).1.m_error
      = SQLiteCode.RANGE := by
  have hf := (first_failure_aborts_walk true false 0).1 [.int .qint32 0]
    [.int .qint32 7, .dbl (Dbl.fin 9)] (.qstring "old")
    (Query.onRow [.integer 1, .integer 2, .integer 3, .integer 4]) (by decide) (by decide)
  have hb := (first_failure_aborts_walk true false 3).2 [.int64 5] [.null] (.cstr "x")
    threeParameters (by decide) (by decide)
  have hc := (hf.2 (by decide)).2.2
  have hbb := hb.2 (by decide)
  simp only [List.cons_append, List.nil_append] at hc hbb hf
  refine ⟨?_, ?_, ?_, ?_, ?_, ?_⟩
  · rw [hc, hf.1]; rfl
  · rw [hc, hf.1]; decide
  · rw [hc, hf.1]; decide
  · rw [Query.bind, hbb]
  · rw [Query.bind, hbb]; decide
  · rw [Query.bind, hbb]; decide

/-! ## Skip markers, optionals and callbacks -/

/-- The `curNumRead` handed to the fold of `readColumnHelper` only shows in the result over an
empty list. -/
theorem readColumnFold_cur (strict : Bool) (i : Int) (args : List FetchArg) (c c' n : Int)
    (q : Query) (h : args ≠ []) :
    Query.readColumnFold strict i args c n q = Query.readColumnFold strict i args c' n q := by
  cases args with
  | nil => exact absurd rfl h
  | cons a rest => simp only [Query.readColumnFold]

/-- The fetch fold from base `i` with `N` columns already consumed is the fold from base
`i + N`, with `N` added to its `numRead`. -/
theorem readColumnFold_shift (strict : Bool) (i N : Int) :
    ∀ (rest : List FetchArg) (c n : Int) (q : Query),
      Query.readColumnFold strict i rest c (n + N) q
        = ((Query.readColumnFold strict (i + N) rest c n q).1,
            (Query.readColumnFold strict (i + N) rest c n q).2.1,
            (Query.readColumnFold strict (i + N) rest c n q).2.2.1,
            (Query.readColumnFold strict (i + N) rest c n q).2.2.2 + N) := by
  intro rest
  induction rest with
  | nil =>
    intro c n q
    simp [Query.readColumnFold]
  | cons a rest ih =>
    intro c n q
    have hi : i + (n + N) = i + N + n := by omega
    by_cases hp : (Query.readColumn strict (i + N + n) a q).2.2 > 0
    · have hp' : (Query.readColumn strict (i + (n + N)) a q).2.2 > 0 := by rw [hi]; exact hp
      have hn : n + N + ((Query.readColumn strict (i + N + n) a q).2.2 - 1)
          = n + ((Query.readColumn strict (i + N + n) a q).2.2 - 1) + N := by omega
      rw [readColumnFold_cons_pos strict i a rest c (n + N) q hp',
        readColumnFold_cons_pos strict (i + N) a rest c n q hp, hi, hn, ih]
    · have hp' : ¬ (Query.readColumn strict (i + (n + N)) a q).2.2 > 0 := by rw [hi]; exact hp
      rw [readColumnFold_cons_neg strict i a rest c (n + N) q hp',
        readColumnFold_cons_neg strict (i + N) a rest c n q hp, hi]
      simp only [Prod.mk.injEq, true_and]
      omega

/-- C14. Fetching a skip marker `UnusedN<N>` at any index returns `N + 1` and changes
nothing: neither the state (no engine call is logged, the error code is kept) nor the marker;
in a fetch list, the arguments after a leading marker are fetched as they would be from
column `i + N`, and the count grows by `N`. -/
theorem unused_skips_columns (strict : Bool) (i : Int) (N : Nat) (q : Query) :
    Query.readColumn strict i (.unused N) q = (q, .unused N, (N : Int) + 1) ∧
    (∀ rest : List FetchArg, rest ≠ [] →
      Query.readColumnHelper strict i (.unused N :: rest) q
        = ((Query.readColumnHelper strict (i + N) rest q).1,
            .unused N :: (Query.readColumnHelper strict (i + N) rest q).2.1,
            if (Query.readColumnHelper strict (i + N) rest q).2.2 > 0 then
              (Query.readColumnHelper strict (i + N) rest q).2.2 + N
            else 0)) := by
  have h1 : Query.readColumn strict i (.unused N) q = (q, .unused N, (N : Int) + 1) := by
    simp [Query.readColumn]
  refine ⟨h1, ?_⟩
  intro rest hrest
  have hp : (Query.readColumn strict (i + 0) (.unused N) q).2.2 > 0 := by
    rw [add_zero, h1]
    show (N : Int) + 1 > 0
    omega
  rw [Query.readColumnHelper, readColumnFold_cons_pos strict i (.unused N) rest 0 0 q hp,
    add_zero, h1]
  have hz : (0 : Int) + ((N : Int) + 1 - 1) = 0 + (N : Int) := by omega
  simp only [hz]
  rw [readColumnFold_shift strict i N rest ((N : Int) + 1) 0 q,
    readColumnFold_cur strict (i + N) rest ((N : Int) + 1) 0 0 q hrest]
  simp only [Query.readColumnHelper]
  by_cases hc : (Query.readColumnFold strict (i + N) rest 0 0 q).2.2.1 > 0
  · have hle := readColumnFold_numRead_le strict (i + N) rest 0 0 q hc
    have hpos : (Query.readColumnFold strict (i + N) rest 0 0 q).2.2.2 + 1 > 0 := by omega
    simp only [if_pos hc, if_pos hpos]
    refine Prod.ext rfl (Prod.ext rfl ?_)
    show _ + (N : Int) + 1 = _ + 1 + (N : Int)
    omega
  · simp only [if_neg hc]
    simp

theorem unused_skips_columns_witness :
    (Query.column 1 [.unused 3, .int .qint32 0, .unused 0, .int .qint32 0] sixColumns).2
      = ([.unused 3, .int .qint32 5, .unused 0, .int .qint32 6], 6) ∧
    (Query.column 1 [.unused 3, .int .qint32 0, .unused 0, .int .qint32 0] sixColumns).1.log
      = [.step, .columnInt64 4, .columnInt64 5] := by
  have h := (unused_skips_columns false 1 3 sixColumns).2
    [.int .qint32 0, .unused 0, .int .qint32 0] (by simp)
  have hc : Query.column 1 [.unused 3, .int .qint32 0, .unused 0, .int .qint32 0] sixColumns
      = Query.readColumnHelper false 1 [.unused 3, .int .qint32 0, .unused 0, .int .qint32 0]
          sixColumns := by
    rfl
  rw [hc, h]
  constructor
  · rfl
  · decide

/-- On a prepared statement, `columnType` only logs its engine call. -/
theorem columnType_prepared (q : Query) (s : Stmt) (i : Int) (hs : q.m_stmt = some s) :
    (q.columnType i).1 = q.call (.columnType i) := by
  have hne : SQLiteCode.typeFromSqlite (sqlite3_column_type (some s) i) ≠ ColType.Invalid := by
    simp only [sqlite3_column_type]
    cases columnValue (some s) i <;>
      simp [SqlValue.typeCode, SQLiteCode.typeFromSqlite, SQLITE_NULL, SQLITE_INTEGER,
        SQLITE_FLOAT, SQLITE_TEXT, SQLITE_BLOB]
  simp only [Query.columnType, hs]
  simp only [if_neg hne]

/-- The type `columnType` reports depends on the statement only. -/
theorem columnType_congr (q q' : Query) (i : Int) (h : q.m_stmt = q'.m_stmt) :
    (q.columnType i).2 = (q'.columnType i).2 ∧
    (q.columnType i).1.m_stmt = (q'.columnType i).1.m_stmt := by
  rw [columnType_m_stmt, columnType_m_stmt]
  refine ⟨?_, h⟩
  simp only [Query.columnType, ← h]
  cases hs : q.m_stmt with
  | none => rfl
  | some s =>
    simp only
    split_ifs <;> rfl

/-- The destination and the count of a scalar fetch depend on the statement only, not on the
error code or on the calls logged so far. -/
theorem readColumn_scalar_congr (strict : Bool) (i : Int) (a : FetchArg) (q q' : Query)
    (ha : a.isScalar = true) (h : q.m_stmt = q'.m_stmt) :
    (Query.readColumn strict i a q).2 = (Query.readColumn strict i a q').2 := by
  obtain ⟨ht, hst⟩ := columnType_congr q q' i h
  have hst0 := columnType_m_stmt q i
  have hst1 := columnType_m_stmt q' i
  cases a with
  | int T value =>
    cases strict <;>
      simp only [Query.readColumn, Query.readColumnInt, Query.readColumnIntSQLite, ht, hst0,
        hst1, h, Query.call] <;>
      split_ifs <;> rfl
  | dbl value =>
    cases strict <;>
      simp only [Query.readColumn, Query.readColumnDouble, Query.readColumnDoubleSQLite, ht,
        hst0, hst1, h, Query.call] <;>
      split_ifs <;> rfl
  | flt value =>
    cases strict <;>
      simp only [Query.readColumn, Query.readColumnFloat, Query.readColumnDoubleSQLite, ht,
        hst0, hst1, h, Query.call] <;>
      split_ifs <;> rfl
  | qstring value =>
    cases strict <;>
      simp only [Query.readColumn, Query.readColumnQString, ht, hst0, hst1, h, Query.call] <;>
      split_ifs <;> rfl
  | bytes value =>
    cases strict <;>
      simp only [Query.readColumn, Query.readColumnQByteArray, Query.readColumnBytes, ht,
        hst0, hst1, h, Query.call] <;>
      split_ifs <;> rfl
  | unused I => simp [FetchArg.isScalar] at ha
  | tuple elems => simp [FetchArg.isScalar] at ha
  | opt value fresh => simp [FetchArg.isScalar] at ha
  | call data function => simp [FetchArg.isScalar] at ha
  | custom ops => simp [FetchArg.isScalar] at ha
  | blob value => simp [FetchArg.isScalar] at ha

/-- C12. Fetching into a `std::optional<T>` at index `i`: when `columnType(i)` is NULL the
optional is left empty and the fetch returns 2, the state being the one the type inspection
left (on a prepared statement: only `sqlite3_column_type` was called); otherwise the optional
holds the value that the fetch of a fresh `T` at index `i` produces, with the return value
and the state of that fetch.  That fetch runs after the type inspection; for a scalar `T` its
destination and return value are those of the fetch of `T` without the inspection. -/
theorem optional_fetch (strict : Bool) (i : Int) (value : Option FetchArg) (fresh : FetchArg)
    (q : Query) :
    ((q.columnType i).2 = ColType.Null →
      Query.readColumn strict i (.opt value fresh) q = ((q.columnType i).1, .opt none fresh, 2)) ∧
    ((q.columnType i).2 ≠ ColType.Null →
      Query.readColumn strict i (.opt value fresh) q
        = ((Query.readColumn strict i fresh (q.columnType i).1).1,
            .opt (some (Query.readColumn strict i fresh (q.columnType i).1).2.1) fresh,
            (Query.readColumn strict i fresh (q.columnType i).1).2.2)) ∧
    (∀ s, q.m_stmt = some s → (q.columnType i).1 = q.call (.columnType i)) ∧
    ((q.columnType i).2 ≠ ColType.Null → fresh.isScalar = true →
      (Query.readColumn strict i (.opt value fresh) q).2
        = (.opt (some (Query.readColumn strict i fresh q).2.1) fresh,
            (Query.readColumn strict i fresh q).2.2)) := by
  refine ⟨?_, ?_, ?_, ?_⟩
  · intro h
    simp only [Query.readColumn, if_pos h]
  · intro h
    simp only [Query.readColumn, if_neg h]
  · intro s hs
    exact columnType_prepared q s i hs
  · intro h hf
    have e := readColumn_scalar_congr strict i fresh (q.columnType i).1 q hf
      (columnType_m_stmt q i)
    simp only [Query.readColumn, if_neg h]
    rw [e]

theorem optional_fetch_witness :
    (Query.column 0 [.opt (some (.int .qint32 9)) (.int .qint32 0),
        .opt none (.tuple [.int .qint32 0, .qstring ""]), .opt none (.int .qint32 0)]
        (Query.onRow [.null, .integer 4, .text "a", .integer 6])).2
      = ([.opt none (.int .qint32 0),
          .opt (some (.tuple [.int .qint32 4, .qstring "a"])) (.tuple [.int .qint32 0, .qstring ""]),
          .opt (some (.int .qint32 6)) (.int .qint32 0)], 5) ∧
    (Query.readColumn true 0 (.opt (some (.int .qint32 9)) (.int .qint32 0))
        (Query.onRow [.null])).1.log = [.step, .columnType 0] ∧
    (Query.readColumn true 0 (.opt none (.int .qint32 0)) (Query.onRow [.integer 5])).2
      = (.opt (some (.int .qint32 5)) (.int .qint32 0), 2) := by
  have h0 := (optional_fetch true 0 (some (.int .qint32 9)) (.int .qint32 0)
    (Query.onRow [.null])).1 (by decide)
  have h1 := (optional_fetch true 0 none (.int .qint32 0)
    (Query.onRow [.integer 5])).2.1 (by decide)
  refine ⟨by rfl, ?_, ?_⟩
  · rw [h0]; decide
  · rw [h1]; rfl

/-- C15. Fetching a `Call<T...>` wrapper with a callback at index `i`, when the inner fetch
of `T...` succeeds with count `c + 1`: the callback is applied once, to the fetched values
without the skip markers, on the state the inner fetch left with the error code reset.  When
it returns true the fetch returns `c + 1` in the state the callback left; when it returns
false the fetch returns 0 and the error code is DONE, unless the callback left an error code
other than OK, which is then kept.  The wrapper itself is not changed. -/
theorem call_fetch (strict : Bool) (i : Int) (data : List FetchArg)
    (f : List Val → Query → Query × Bool) (q : Query)
    (hok : 0 < (Query.readColumnHelper strict i data q).2.2) :
    ((f (removeUnused (Query.readColumnHelper strict i data q).2.1)
        (Query.readColumnHelper strict i data q).1.resetInternalError).2 = true →
      Query.readColumn strict i (.call data (some f)) q
        = ((f (removeUnused (Query.readColumnHelper strict i data q).2.1)
              (Query.readColumnHelper strict i data q).1.resetInternalError).1,
            .call data (some f), (Query.readColumnHelper strict i data q).2.2)) ∧
    ((f (removeUnused (Query.readColumnHelper strict i data q).2.1)
        (Query.readColumnHelper strict i data q).1.resetInternalError).2 = false →
      (Query.readColumn strict i (.call data (some f)) q).2
        = (.call data (some f), 0) ∧
      ((f (removeUnused (Query.readColumnHelper strict i data q).2.1)
          (Query.readColumnHelper strict i data q).1.resetInternalError).1.m_error
            = SQLiteCode.OK →
        (Query.readColumn strict i (.call data (some f)) q).1
          = (f (removeUnused (Query.readColumnHelper strict i data q).2.1)
              (Query.readColumnHelper strict i data q).1.resetInternalError).1.setInternalError
              SQLiteCode.DONE ∧
        (Query.readColumn strict i (.call data (some f)) q).1.m_error = SQLiteCode.DONE) ∧
      ((f (removeUnused (Query.readColumnHelper strict i data q).2.1)
          (Query.readColumnHelper strict i data q).1.resetInternalError).1.m_error
            ≠ SQLiteCode.OK →
        (Query.readColumn strict i (.call data (some f)) q).1
          = (f (removeUnused (Query.readColumnHelper strict i data q).2.1)
              (Query.readColumnHelper strict i data q).1.resetInternalError).1)) := by
  simp only [Query.readColumnHelper] at hok ⊢
  simp only [Query.readColumn]
  simp only [gt_iff_lt, if_pos hok]
  constructor
  · intro ht
    simp only [ht, if_true]
  · intro hf
    simp only [hf, Bool.false_eq_true, if_false]
    refine ⟨?_, ?_, ?_⟩
    · split_ifs <;> rfl
    · intro he
      simp only [if_pos he]
      exact ⟨trivial, rfl⟩
    · intro he
      simp only [if_neg he]

theorem call_fetch_witness :
    (Query.readColumn false 0 (.call [.int .qint32 0, .unused 2, .int .qint32 0]
        (some acceptOneFour)) sixColumns).2.2 = 5 ∧
    (Query.readColumn false 1 (.call [.int .qint32 0, .unused 2, .int .qint32 0]
        (some acceptOneFour)) sixColumns).2.2 = 0 ∧
    (Query.readColumn false 1 (.call [.int .qint32 0, .unused 2, .int .qint32 0]
        (some acceptOneFour)) sixColumns).1.m_error = SQLiteCode.DONE ∧
    (Query.readColumn false 0 (.call [.int .qint32 0] (some rejectWithMisuse))
        sixColumns).1.m_error = SQLiteCode.MISUSE := by
  have h0 := (call_fetch false 0 [.int .qint32 0, .unused 2, .int .qint32 0] acceptOneFour
    sixColumns (by decide)).1 (by decide)
  have h1 := (call_fetch false 1 [.int .qint32 0, .unused 2, .int .qint32 0] acceptOneFour
    sixColumns (by decide)).2 (by decide)
  have h2 := (call_fetch false 0 [.int .qint32 0] rejectWithMisuse
    sixColumns (by decide)).2 (by decide)
  refine ⟨?_, ?_, ?_, ?_⟩
  · rw [h0]; decide
  · rw [h1.1]
  · exact (h1.2.1 (by decide)).2
  · rw [h2.2.2 (by decide)]; decide

/-! ## Fetching into a `Blob` -/

/-- C20. On a prepared statement, fetching into a `Blob` from a column whose type is neither
BLOB nor INTEGER leaves the `Blob` as it was (identity, open handle, and no blob call issued);
the only engine call is `sqlite3_column_type`.  In permissive mode the fetch returns 2 with
the error code OK, in strict mode it returns 0 with the error code MISMATCH. -/
theorem blob_fetch_other_type (i : Int) (b : BlobData) (q : Query) (s : Stmt)
    (hs : q.m_stmt = some s)
    (hb : sqlite3_column_type q.m_stmt i ≠ SQLITE_BLOB)
    (hi : sqlite3_column_type q.m_stmt i ≠ SQLITE_INTEGER) :
    Query.readColumn false i (.blob b) q
      = ((q.call (.columnType i)).setInternalError SQLiteCode.OK, .blob b, 2) ∧
    (Query.readColumn false i (.blob b) q).1.m_error = SQLiteCode.OK ∧
    Query.readColumn true i (.blob b) q
      = ((q.call (.columnType i)).setInternalError SQLiteCode.MISMATCH, .blob b, 0) ∧
    (Query.readColumn true i (.blob b) q).1.m_error = SQLiteCode.MISMATCH := by
  have hc : sqlite3_column_type q.m_stmt i ≠ SQLITE_BLOB ∧
      sqlite3_column_type q.m_stmt i ≠ SQLITE_INTEGER := ⟨hb, hi⟩
  have hp : Query.readColumn false i (.blob b) q
      = ((q.call (.columnType i)).setInternalError SQLiteCode.OK, .blob b, 2) := by
    simp only [Query.readColumn, Query.readColumnInternal, hs]
    rw [hs] at hc
    simp only [if_pos hc, Bool.false_eq_true, if_false]
    simp [Query.setInternalError]
  have hst : Query.readColumn true i (.blob b) q
      = ((q.call (.columnType i)).setInternalError SQLiteCode.MISMATCH, .blob b, 0) := by
    simp only [Query.readColumn, Query.readColumnInternal, hs]
    rw [hs] at hc
    simp only [if_pos hc, if_true]
    simp [Query.setInternalError, SQLiteCode.MISMATCH, SQLiteCode.OK]
  refine ⟨hp, ?_, hst, ?_⟩
  · rw [hp]; rfl
  · rw [hst]; rfl

theorem blob_fetch_other_type_witness :
    (Query.readColumn false 1 (.blob Blob.documented)
        (Query.onRow [.integer 1, .text "a"])).2 = (.blob Blob.documented, 2) ∧
    (Query.readColumn false 1 (.blob Blob.documented)
        (Query.onRow [.integer 1, .text "a"])).1.m_error = SQLiteCode.OK ∧
    (Query.readColumn true 1 (.blob Blob.documented)
        (Query.onRow [.integer 1, .text "a"])).2 = (.blob Blob.documented, 0) ∧
    (Query.readColumn true 1 (.blob Blob.documented)
        (Query.onRow [.integer 1, .text "a"])).1.m_error = SQLiteCode.MISMATCH ∧
    (Query.readColumn true 1 (.blob Blob.documented)
        (Query.onRow [.integer 1, .text "a"])).1.log = [.step, .columnType 1] := by
  have h := blob_fetch_other_type 1 Blob.documented (Query.onRow [.integer 1, .text "a"])
    _ rfl (by decide) (by decide)
  refine ⟨?_, h.2.1, ?_, h.2.2.2, ?_⟩
  · rw [h.1]
  · rw [h.2.2.1]
  · rw [h.2.2.1]; decide

/-- C19. After a step that produced a row the error code is `SQLITE_ROW`, and
`readColumnInternal` returns `(m_error==SQLITE_OK)?2:0` without touching the error code in
its INTEGER and BLOB branches: a fetch into a `Blob` from an INTEGER column hands the value to
`setRowId`, a fetch from a BLOB column hands the origin of the column to `Blob::set`, and
both report 0, whatever the setter answered.  On the statement of the class documentation
the row id 4 is set and the blob opened, and `executeSingle` still reports failure. -/
theorem blob_fetch_on_row_fails :
    (∀ (b : BlobData) (v : Int) (strict : Bool),
      (Query.readColumn strict 0 (.blob b) (Query.onRow [.integer v])).2
        = (.blob (b.setRowId v).1, 0)) ∧
    (∀ (b : BlobData) (bytes : List Nat) (strict : Bool),
      (Query.readColumn strict 0 (.blob b) (Query.onRow [.blob bytes])).2
        = (.blob (Blob.set (some 0) none none none b).1, 0)) ∧
    (Query.onRow [.integer 4]).m_error = SQLiteCode.ROW ∧
    (Blob.documented.setRowId 4).2 = true ∧
    (Blob.documented.setRowId 4).1.m_blob
      = some ⟨0, "main", "TestTable", "blobColumn", 4, false⟩ ∧
    (Query.readColumn false 0 (.blob Blob.documented) (Query.onRow [.integer 4])).2
      = (.blob (Blob.documented.setRowId 4).1, 0) ∧
    (Query.executeSingle [] [.blob Blob.documented]
        (Query.on (Stmt.sample 0 1 [(SQLiteCode.ROW, [.integer 4])]))).2
      = ([.blob (Blob.documented.setRowId 4).1], 0) ∧
    (Blob.set (some 0) none none none Blob.manual).2 = true ∧
    (Query.readColumn false 0 (.blob Blob.manual) (Query.onRow [.blob [1, 2]])).2.2 = 0 := by
  refine ⟨?_, ?_, by decide, by decide, by decide, by rfl, by rfl, by decide, by decide⟩
  · intro b v strict
    simp [Query.readColumn, Query.readColumnInternal, Query.onRow, Query.on, Stmt.sample,
      Query.stepNoFetch, sqlite3_step, Query.call, sqlite3_column_type, columnValue,
      SqlValue.typeCode, SQLITE_BLOB, SQLITE_INTEGER, SQLiteCode.ROW, SQLiteCode.OK,
      sqlite3_column_int64, Stmt.int64Of]
  · intro b bytes strict
    simp [Query.readColumn, Query.readColumnInternal, Query.onRow, Query.on, Stmt.sample,
      Query.stepNoFetch, sqlite3_step, Query.call, sqlite3_column_type, columnValue,
      SqlValue.typeCode, SQLITE_BLOB, SQLITE_INTEGER, SQLiteCode.ROW, SQLiteCode.OK]

/-! ## Custom types: the accessor's counter -/

/-- The calls of a `customBind` overload inside the generic `bindSingle<T>` are the calls on
the accessor, one after the other. -/
theorem bindOps_eq_run (base : Int) :
    ∀ (ops : List BindOp) (m : Int) (q : Query),
      Query.bindOps base ops m q
        = ((CustomBind.run ⟨base, m⟩ ops q).2.1, (CustomBind.run ⟨base, m⟩ ops q).1.m_bound) := by
  intro ops
  induction ops with
  | nil =>
    intro m q
    simp [Query.bindOps, CustomBind.run]
  | cons op rest ih =>
    intro m q
    cases op with
    | bind values =>
      rw [Query.bindOps]
      simp only [CustomBind.run, CustomBind.call, CustomBind.bind, CustomBind.bindIndex,
        CustomBind.numBound, Query.bindSingleHelper]
      split_ifs <;> simp only [ih]
    | bindIndex i values =>
      rw [Query.bindOps]
      simp only [CustomBind.run, CustomBind.call, CustomBind.bindIndex,
        CustomBind.numBound, Query.bindSingleHelper]
      split_ifs <;> simp only [ih]

/-- The calls of a `customFetch` overload inside the generic `readColumn<T>` are the calls on
the accessor, one after the other. -/
theorem fetchOps_eq_run (strict : Bool) (base : Int) :
    ∀ (ops : List FetchOp) (m : Int) (q : Query),
      Query.fetchOps strict base ops m q
        = ((CustomFetch.run ⟨strict, base, m⟩ ops q).2.1,
            (CustomFetch.run ⟨strict, base, m⟩ ops q).2.2.1,
            (CustomFetch.run ⟨strict, base, m⟩ ops q).1.m_fetched) := by
  intro ops
  induction ops with
  | nil =>
    intro m q
    simp [Query.fetchOps, CustomFetch.run]
  | cons op rest ih =>
    intro m q
    cases op with
    | fetch values =>
      rw [Query.fetchOps]
      simp only [CustomFetch.run, CustomFetch.call, CustomFetch.fetch, CustomFetch.fetchIndex,
        Query.readColumnHelper]
      split_ifs <;> simp only [ih]
    | fetchIndex s i values =>
      rw [Query.fetchOps]
      simp only [CustomFetch.run, CustomFetch.call, CustomFetch.fetchIndex,
        Query.readColumnHelper]
      split_ifs <;> simp only [ih]

/-- `bindIndex` on a poisoned accessor does nothing and returns 0. -/
theorem CustomBind.bindIndex_dead (c : CustomBind) (i : Int) (values : List BindArg)
    (q : Query) (h : c.m_bound < 0) : c.bindIndex i values q = (c, q, 0) := by
  have h' : ¬ c.m_bound ≥ 0 := by omega
  simp only [CustomBind.bindIndex, if_neg h']

/-- `bindIndex` with an index below 1 sets MISUSE, poisons the accessor and returns 0. -/
theorem CustomBind.bindIndex_badIndex (c : CustomBind) (i : Int) (values : List BindArg)
    (q : Query) (h : 0 ≤ c.m_bound) (hi : i ≤ 0) :
    c.bindIndex i values q
      = ({ c with m_bound := -1 }, q.setInternalError SQLiteCode.MISUSE, 0) := by
  have h' : c.m_bound ≥ 0 := h
  simp only [CustomBind.bindIndex, if_pos h', if_pos hi]

/-- `bindIndex` whose inner bind succeeds moves the counter up to `i + ret - 2`. -/
theorem CustomBind.bindIndex_ok (c : CustomBind) (i : Int) (values : List BindArg)
    (q : Query) (h : 0 ≤ c.m_bound) (hi : 0 < i)
    (hr : (Query.bindSingleHelper false (c.m_base + i - 1) values q).2 ≠ 0) :
    c.bindIndex i values q
      = ({ c with m_bound := (max c.m_bound
            (i + (Query.bindSingleHelper false (c.m_base + i - 1) values q).2 - 2)) },
          (Query.bindSingleHelper false (c.m_base + i - 1) values q).1,
          (Query.bindSingleHelper false (c.m_base + i - 1) values q).2) := by
  have h' : c.m_bound ≥ 0 := h
  have hi' : ¬ i ≤ 0 := by omega
  simp only [CustomBind.bindIndex, if_pos h', if_neg hi', if_pos hr]

/-- `bindIndex` whose inner bind fails poisons the accessor and returns 0. -/
theorem CustomBind.bindIndex_failed (c : CustomBind) (i : Int) (values : List BindArg)
    (q : Query) (h : 0 ≤ c.m_bound) (hi : 0 < i)
    (hr : (Query.bindSingleHelper false (c.m_base + i - 1) values q).2 = 0) :
    c.bindIndex i values q
      = ({ c with m_bound := -1 },
          (Query.bindSingleHelper false (c.m_base + i - 1) values q).1, 0) := by
  have h' : c.m_bound ≥ 0 := h
  have hi' : ¬ i ≤ 0 := by omega
  have hr' : ¬ (Query.bindSingleHelper false (c.m_base + i - 1) values q).2 ≠ 0 := by
    simp [hr]
  simp only [CustomBind.bindIndex, if_pos h', if_neg hi', if_neg hr']
  rw [hr]

/-- An accessor call is a `bindIndex` call at the index `indexOf` gives. -/
theorem CustomBind.bindCall_eq (c : CustomBind) (op : BindOp) (q : Query) :
    ∃ values, c.call op q = c.bindIndex (c.indexOf op) values q := by
  cases op with
  | bind values => exact ⟨values, rfl⟩
  | bindIndex i values => exact ⟨values, rfl⟩

/-- An accessor call that returns non zero was made on a live accessor with a positive index,
and moves the counter to the maximum of its value and `i + ret - 2`. -/
theorem CustomBind.bindCall_success (c : CustomBind) (op : BindOp) (q : Query)
    (h : (c.call op q).2.2 ≠ 0) :
    0 ≤ c.m_bound ∧ 1 ≤ c.indexOf op ∧ 0 ≤ (c.call op q).2.2 - 1 ∧
    (c.call op q).1
      = { c with m_bound := (max c.m_bound (c.indexOf op + (c.call op q).2.2 - 2)) } := by
  obtain ⟨values, hv⟩ := c.bindCall_eq op q
  rw [hv] at h ⊢
  by_cases hm : c.m_bound < 0
  · rw [c.bindIndex_dead _ values q hm] at h
    exact absurd rfl h
  · by_cases hi : c.indexOf op ≤ 0
    · rw [c.bindIndex_badIndex _ values q (by omega) hi] at h
      exact absurd rfl h
    · by_cases hr : (Query.bindSingleHelper false (c.m_base + c.indexOf op - 1) values q).2 = 0
      · rw [c.bindIndex_failed _ values q (by omega) (by omega) hr] at h
        exact absurd rfl h
      · have hnn := bindSingleHelper_nonneg false (c.m_base + c.indexOf op - 1) values q
        rw [c.bindIndex_ok _ values q (by omega) (by omega) hr]
        refine ⟨by omega, by omega, ?_, rfl⟩
        show 0 ≤ (Query.bindSingleHelper false (c.m_base + c.indexOf op - 1) values q).2 - 1
        omega

/-- An accessor call that returns 0 leaves the accessor poisoned. -/
theorem CustomBind.bindCall_zero (c : CustomBind) (op : BindOp) (q : Query)
    (h : (c.call op q).2.2 = 0) : (c.call op q).1.m_bound < 0 := by
  obtain ⟨values, hv⟩ := c.bindCall_eq op q
  rw [hv] at h ⊢
  by_cases hm : c.m_bound < 0
  · rw [c.bindIndex_dead _ values q hm]
    exact hm
  · by_cases hi : c.indexOf op ≤ 0
    · rw [c.bindIndex_badIndex _ values q (by omega) hi]
      show (-1 : Int) < 0
      decide
    · by_cases hr : (Query.bindSingleHelper false (c.m_base + c.indexOf op - 1) values q).2 = 0
      · rw [c.bindIndex_failed _ values q (by omega) (by omega) hr]
        show (-1 : Int) < 0
        decide
      · rw [c.bindIndex_ok _ values q (by omega) (by omega) hr] at h
        exact absurd h hr

/-- A call on a poisoned accessor does nothing and returns 0. -/
theorem CustomBind.bindCall_dead (c : CustomBind) (op : BindOp) (q : Query) (h : c.m_bound < 0) :
    c.call op q = (c, q, 0) := by
  obtain ⟨values, hv⟩ := c.bindCall_eq op q
  rw [hv, c.bindIndex_dead _ values q h]

/-- The calls on a poisoned accessor leave the accessor and the state as they are. -/
theorem CustomBind.bindRun_dead :
    ∀ (ops : List BindOp) (c : CustomBind) (q : Query), c.m_bound < 0 →
      (c.run ops q).1 = c ∧ (c.run ops q).2.1 = q := by
  intro ops
  induction ops with
  | nil => intro c q _; exact ⟨rfl, rfl⟩
  | cons op rest ih =>
    intro c q h
    simp only [CustomBind.run, c.bindCall_dead op q h]
    exact ih c q h

/-- The calls `pre ++ rest` are the calls `pre` followed by the calls `rest`. -/
theorem CustomBind.bindRun_append :
    ∀ (pre rest : List BindOp) (c : CustomBind) (q : Query),
      c.run (pre ++ rest) q
        = (((c.run pre q).1.run rest (c.run pre q).2.1).1,
            ((c.run pre q).1.run rest (c.run pre q).2.1).2.1,
            (c.run pre q).2.2 ++ ((c.run pre q).1.run rest (c.run pre q).2.1).2.2) := by
  intro pre
  induction pre with
  | nil => intro rest c q; simp [CustomBind.run]
  | cons op pre ih =>
    intro rest c q
    rw [List.cons_append]
    simp only [CustomBind.run]
    rw [ih]
    rfl

/-- When every call succeeds, the counter ends at the maximum of its start value and the
high-water mark of the calls. -/
theorem CustomBind.bindRun_high_water :
    ∀ (ops : List BindOp) (c : CustomBind) (q : Query), 0 ≤ c.m_bound →
      (∀ x ∈ (c.run ops q).2.2, x.2 ≠ 0) →
      (c.run ops q).1.m_bound = max c.m_bound (bindHighWater (c.run ops q).2.2) ∧
      (∀ x ∈ (c.run ops q).2.2, 1 ≤ x.1 ∧ 0 ≤ x.2 - 1) := by
  intro ops
  induction ops with
  | nil =>
    intro c q hc _
    simp [CustomBind.run, bindHighWater, hc]
  | cons op rest ih =>
    intro c q hc h
    have hop : (c.call op q).2.2 ≠ 0 := h (c.indexOf op, (c.call op q).2.2) (by simp [CustomBind.run])
    obtain ⟨h0, h1, h2, h3⟩ := c.bindCall_success op q hop
    have hc' : 0 ≤ (c.call op q).1.m_bound := by
      rw [h3]
      exact le_max_of_le_left hc
    have hrest := ih (c.call op q).1 (c.call op q).2.1 hc'
      (fun x hx => h x (by simp [CustomBind.run, hx]))
    simp only [CustomBind.run]
    refine ⟨?_, ?_⟩
    · rw [hrest.1, h3]
      simp only [bindHighWater, List.map_cons, List.foldr_cons]
      have e : c.indexOf op + (c.call op q).2.2 - 2 = c.indexOf op + ((c.call op q).2.2 - 1) - 1 := by
        omega
      rw [e, max_assoc]
    · intro x hx
      simp only [List.mem_cons] at hx
      rcases hx with hx | hx
      · subst hx
        exact ⟨h1, h2⟩
      · exact hrest.2 x hx

/-- `fetchIndex` on a poisoned accessor does nothing and returns 0. -/
theorem CustomFetch.fetchIndex_dead (c : CustomFetch) (strict : Bool) (i : Int)
    (values : List FetchArg) (q : Query) (h : c.m_fetched < 0) :
    c.fetchIndex strict i values q = (c, q, values, 0) := by
  have h' : ¬ c.m_fetched ≥ 0 := by omega
  simp only [CustomFetch.fetchIndex, if_neg h']

/-- `fetchIndex` with a negative index sets MISUSE, poisons the accessor and returns 0. -/
theorem CustomFetch.fetchIndex_badIndex (c : CustomFetch) (strict : Bool) (i : Int)
    (values : List FetchArg) (q : Query) (h : 0 ≤ c.m_fetched) (hi : i < 0) :
    c.fetchIndex strict i values q
      = ({ c with m_fetched := -1 }, q.setInternalError SQLiteCode.MISUSE, values, 0) := by
  have h' : c.m_fetched ≥ 0 := h
  simp only [CustomFetch.fetchIndex, if_pos h', if_pos hi]

/-- `fetchIndex` whose inner fetch succeeds moves the counter up to `i + ret - 1`. -/
theorem CustomFetch.fetchIndex_ok (c : CustomFetch) (strict : Bool) (i : Int)
    (values : List FetchArg) (q : Query) (h : 0 ≤ c.m_fetched) (hi : 0 ≤ i)
    (hr : (Query.readColumnHelper strict (c.m_base + i) values q).2.2 ≠ 0) :
    c.fetchIndex strict i values q
      = ({ c with m_fetched := (max c.m_fetched
            (i + (Query.readColumnHelper strict (c.m_base + i) values q).2.2 - 1)) },
          (Query.readColumnHelper strict (c.m_base + i) values q).1,
          (Query.readColumnHelper strict (c.m_base + i) values q).2.1,
          (Query.readColumnHelper strict (c.m_base + i) values q).2.2) := by
  have h' : c.m_fetched ≥ 0 := h
  have hi' : ¬ i < 0 := by omega
  simp only [CustomFetch.fetchIndex, if_pos h', if_neg hi', if_pos hr]

/-- `fetchIndex` whose inner fetch fails poisons the accessor and returns 0. -/
theorem CustomFetch.fetchIndex_failed (c : CustomFetch) (strict : Bool) (i : Int)
    (values : List FetchArg) (q : Query) (h : 0 ≤ c.m_fetched) (hi : 0 ≤ i)
    (hr : (Query.readColumnHelper strict (c.m_base + i) values q).2.2 = 0) :
    c.fetchIndex strict i values q
      = ({ c with m_fetched := -1 },
          (Query.readColumnHelper strict (c.m_base + i) values q).1,
          (Query.readColumnHelper strict (c.m_base + i) values q).2.1, 0) := by
  have h' : c.m_fetched ≥ 0 := h
  have hi' : ¬ i < 0 := by omega
  have hr' : ¬ (Query.readColumnHelper strict (c.m_base + i) values q).2.2 ≠ 0 := by
    simp [hr]
  simp only [CustomFetch.fetchIndex, if_pos h', if_neg hi', if_neg hr']
  rw [hr]

/-- A `fetchIndex` call that returns non zero was made on a live accessor with a non negative
index, and moves the counter to the maximum of its value and `i + ret - 1`. -/
theorem CustomFetch.fetchIndex_success (c : CustomFetch) (strict : Bool) (i : Int)
    (values : List FetchArg) (q : Query) (h : (c.fetchIndex strict i values q).2.2.2 ≠ 0) :
    0 ≤ c.m_fetched ∧ 0 ≤ i ∧ 0 ≤ (c.fetchIndex strict i values q).2.2.2 - 1 ∧
    (c.fetchIndex strict i values q).1
      = { c with m_fetched :=
            (max c.m_fetched (i + (c.fetchIndex strict i values q).2.2.2 - 1)) } := by
  by_cases hm : c.m_fetched < 0
  · rw [c.fetchIndex_dead strict i values q hm] at h
    exact absurd rfl h
  · by_cases hi : i < 0
    · rw [c.fetchIndex_badIndex strict i values q (by omega) hi] at h
      exact absurd rfl h
    · by_cases hr : (Query.readColumnHelper strict (c.m_base + i) values q).2.2 = 0
      · rw [c.fetchIndex_failed strict i values q (by omega) (by omega) hr] at h
        exact absurd rfl h
      · have hnn := readColumnHelper_nonneg strict (c.m_base + i) values q
        rw [c.fetchIndex_ok strict i values q (by omega) (by omega) hr]
        refine ⟨by omega, by omega, ?_, rfl⟩
        show 0 ≤ (Query.readColumnHelper strict (c.m_base + i) values q).2.2 - 1
        omega

/-- A `fetchIndex` call that returns 0 leaves the accessor poisoned. -/
theorem CustomFetch.fetchIndex_zero (c : CustomFetch) (strict : Bool) (i : Int)
    (values : List FetchArg) (q : Query) (h : (c.fetchIndex strict i values q).2.2.2 = 0) :
    (c.fetchIndex strict i values q).1.m_fetched < 0 := by
  by_cases hm : c.m_fetched < 0
  · rw [c.fetchIndex_dead strict i values q hm]
    exact hm
  · by_cases hi : i < 0
    · rw [c.fetchIndex_badIndex strict i values q (by omega) hi]
      show (-1 : Int) < 0
      decide
    · by_cases hr : (Query.readColumnHelper strict (c.m_base + i) values q).2.2 = 0
      · rw [c.fetchIndex_failed strict i values q (by omega) (by omega) hr]
        show (-1 : Int) < 0
        decide
      · rw [c.fetchIndex_ok strict i values q (by omega) (by omega) hr] at h
        exact absurd h hr

/-- An accessor call that returns non zero was made on a live accessor with a non negative
index, and moves the counter to the maximum of its value and `i + ret - 1`. -/
theorem CustomFetch.fetchCall_success (c : CustomFetch) (op : FetchOp) (q : Query)
    (h : (c.call op q).2.2.2 ≠ 0) :
    0 ≤ c.m_fetched ∧ 0 ≤ CustomFetch.indexOf op ∧ 0 ≤ (c.call op q).2.2.2 - 1 ∧
    (c.call op q).1
      = { c with m_fetched :=
            (max c.m_fetched (CustomFetch.indexOf op + (c.call op q).2.2.2 - 1)) } := by
  cases op with
  | fetch values => exact c.fetchIndex_success c.m_strict 0 values q h
  | fetchIndex s i values => exact c.fetchIndex_success s i values q h

/-- An accessor call that returns 0 leaves the accessor poisoned. -/
theorem CustomFetch.fetchCall_zero (c : CustomFetch) (op : FetchOp) (q : Query)
    (h : (c.call op q).2.2.2 = 0) : (c.call op q).1.m_fetched < 0 := by
  cases op with
  | fetch values => exact c.fetchIndex_zero c.m_strict 0 values q h
  | fetchIndex s i values => exact c.fetchIndex_zero s i values q h

/-- A call on a poisoned accessor does nothing and returns 0. -/
theorem CustomFetch.fetchCall_dead (c : CustomFetch) (op : FetchOp) (q : Query)
    (h : c.m_fetched < 0) : c.call op q = (c, q, op, 0) := by
  cases op with
  | fetch values =>
    simp only [CustomFetch.call, CustomFetch.fetch, c.fetchIndex_dead _ 0 values q h]
  | fetchIndex s i values =>
    simp only [CustomFetch.call, c.fetchIndex_dead s i values q h]

/-- The calls on a poisoned accessor leave the accessor, the state and the destinations as
they are. -/
theorem CustomFetch.fetchRun_dead :
    ∀ (ops : List FetchOp) (c : CustomFetch) (q : Query), c.m_fetched < 0 →
      (c.run ops q).1 = c ∧ (c.run ops q).2.1 = q ∧ (c.run ops q).2.2.1 = ops := by
  intro ops
  induction ops with
  | nil => intro c q _; exact ⟨rfl, rfl, rfl⟩
  | cons op rest ih =>
    intro c q h
    simp only [CustomFetch.run, c.fetchCall_dead op q h]
    obtain ⟨h1, h2, h3⟩ := ih c q h
    exact ⟨h1, h2, by rw [h3]⟩

/-- The calls `pre ++ rest` are the calls `pre` followed by the calls `rest`. -/
theorem CustomFetch.fetchRun_append :
    ∀ (pre rest : List FetchOp) (c : CustomFetch) (q : Query),
      c.run (pre ++ rest) q
        = (((c.run pre q).1.run rest (c.run pre q).2.1).1,
            ((c.run pre q).1.run rest (c.run pre q).2.1).2.1,
            (c.run pre q).2.2.1 ++ ((c.run pre q).1.run rest (c.run pre q).2.1).2.2.1,
            (c.run pre q).2.2.2 ++ ((c.run pre q).1.run rest (c.run pre q).2.1).2.2.2) := by
  intro pre
  induction pre with
  | nil => intro rest c q; simp [CustomFetch.run]
  | cons op pre ih =>
    intro rest c q
    rw [List.cons_append]
    simp only [CustomFetch.run]
    rw [ih]
    rfl

/-- When every call succeeds, the counter ends at the maximum of its start value and the
high-water mark of the calls. -/
theorem CustomFetch.fetchRun_high_water :
    ∀ (ops : List FetchOp) (c : CustomFetch) (q : Query), 0 ≤ c.m_fetched →
      (∀ x ∈ (c.run ops q).2.2.2, x.2 ≠ 0) →
      (c.run ops q).1.m_fetched = max c.m_fetched (fetchHighWater (c.run ops q).2.2.2) ∧
      (∀ x ∈ (c.run ops q).2.2.2, 0 ≤ x.1 ∧ 0 ≤ x.2 - 1) := by
  intro ops
  induction ops with
  | nil =>
    intro c q hc _
    simp [CustomFetch.run, fetchHighWater, hc]
  | cons op rest ih =>
    intro c q hc h
    have hop : (c.call op q).2.2.2 ≠ 0 :=
      h (CustomFetch.indexOf op, (c.call op q).2.2.2) (by simp [CustomFetch.run])
    obtain ⟨_, h1, h2, h3⟩ := c.fetchCall_success op q hop
    have hc' : 0 ≤ (c.call op q).1.m_fetched := by
      rw [h3]
      exact le_max_of_le_left hc
    have hrest := ih (c.call op q).1 (c.call op q).2.1 hc'
      (fun x hx => h x (by simp [CustomFetch.run, hx]))
    simp only [CustomFetch.run]
    refine ⟨?_, ?_⟩
    · rw [hrest.1, h3]
      simp only [fetchHighWater, List.map_cons, List.foldr_cons]
      have e : CustomFetch.indexOf op + (c.call op q).2.2.2 - 1
          = CustomFetch.indexOf op + ((c.call op q).2.2.2 - 1) := by
        omega
      rw [e, max_assoc]
    · intro x hx
      simp only [List.mem_cons] at hx
      rcases hx with hx | hx
      · subst hx
        exact ⟨h1, h2⟩
      · exact hrest.2 x hx

/-- A maximum folded from 0 is not negative. -/
theorem foldr_max_nonneg : ∀ l : List Int, 0 ≤ l.foldr max 0 := by
  intro l
  induction l with
  | nil => exact le_refl 0
  | cons a rest ih => exact le_max_of_le_right ih

/-- C17. The count a custom-typed argument reports is one plus the accessor's high-water
mark.  For a bind: when every call the overload makes on its accessor succeeds, call `k`
amounting to `bindIndex(i_k, ...)` with return value `n_k + 1`, the generic `bindSingle<T>`
returns `1 + max_k (i_k + n_k - 1)` (every `i_k ≥ 1` and `n_k ≥ 0`, so the maximum is not
negative); for a fetch, with `fetchIndex(strict, i_k, ...)`, `readColumn<T>` returns
`1 + max_k (i_k + n_k)`; with no calls both return 1; and on a live accessor
`CustomBind::bind(values...)` is the bind of the tuple of the values at index
`base + numBound()`. -/
theorem custom_consumption_high_water (t strict : Bool) (base : Int) (q : Query) :
    (∀ ops : List BindOp,
      (∀ x ∈ ((CustomBind.new base).run ops q).2.2, x.2 ≠ 0) →
      (Query.bindSingle t base (.custom ops) q).2
        = 1 + bindHighWater ((CustomBind.new base).run ops q).2.2 ∧
      (∀ x ∈ ((CustomBind.new base).run ops q).2.2, 1 ≤ x.1 ∧ 0 ≤ x.2 - 1)) ∧
    (∀ ops : List FetchOp,
      (∀ x ∈ ((CustomFetch.new strict base).run ops q).2.2.2, x.2 ≠ 0) →
      (Query.readColumn strict base (.custom ops) q).2.2
        = 1 + fetchHighWater ((CustomFetch.new strict base).run ops q).2.2.2 ∧
      (∀ x ∈ ((CustomFetch.new strict base).run ops q).2.2.2, 0 ≤ x.1 ∧ 0 ≤ x.2 - 1)) ∧
    (Query.bindSingle t base (.custom []) q).2 = 1 ∧
    (Query.readColumn strict base (.custom []) q).2.2 = 1 ∧
    (∀ (c : CustomBind) (values : List BindArg), 0 ≤ c.numBound →
      (c.bind values q).2
        = Query.bindSingle false (c.m_base + c.numBound) (.tuple values) q) := by
  refine ⟨?_, ?_, ?_, ?_, ?_⟩
  · intro ops h
    have hw := CustomBind.bindRun_high_water ops (CustomBind.new base) q (le_refl 0) h
    refine ⟨?_, hw.2⟩
    have hnn : 0 ≤ bindHighWater ((CustomBind.new base).run ops q).2.2 :=
      foldr_max_nonneg _
    have hm : ((CustomBind.new base).run ops q).1.m_bound
        = bindHighWater ((CustomBind.new base).run ops q).2.2 := by
      rw [hw.1]
      exact max_eq_right hnn
    simp only [Query.bindSingle, bindOps_eq_run]
    show ((CustomBind.new base).run ops q).1.m_bound + 1 = _
    rw [hm]
    omega
  · intro ops h
    have hw := CustomFetch.fetchRun_high_water ops (CustomFetch.new strict base) q (le_refl 0) h
    refine ⟨?_, hw.2⟩
    have hnn : 0 ≤ fetchHighWater ((CustomFetch.new strict base).run ops q).2.2.2 :=
      foldr_max_nonneg _
    have hm : ((CustomFetch.new strict base).run ops q).1.m_fetched
        = fetchHighWater ((CustomFetch.new strict base).run ops q).2.2.2 := by
      rw [hw.1]
      exact max_eq_right hnn
    simp only [Query.readColumn, fetchOps_eq_run]
    show ((CustomFetch.new strict base).run ops q).1.m_fetched + 1 = _
    rw [hm]
    omega
  · simp [Query.bindSingle, Query.bindOps]
  · simp [Query.readColumn, Query.fetchOps]
  · intro c values hc
    have hc' : 0 ≤ c.m_bound := hc
    have hidx : c.m_base + (1 + c.numBound) - 1 = c.m_base + c.numBound := by omega
    rw [bindSingle_tuple]
    by_cases hr : (Query.bindSingleHelper false (c.m_base + (1 + c.numBound) - 1) values q).2 = 0
    · rw [CustomBind.bind, c.bindIndex_failed _ values q hc' (by omega) hr, ← hidx]
      exact Prod.ext rfl hr.symm
    · rw [CustomBind.bind, c.bindIndex_ok _ values q hc' (by omega) hr, ← hidx]

theorem custom_consumption_high_water_witness :
    (Query.bindSingle false 3
        (.custom [.bindIndex 2 [.cstr "Hello"], .bindIndex 1 [.int64 12]])
        (Query.on (Stmt.sample 4 0 []))).2 = 3 ∧
    (Query.bindSingle false 3
        (.custom [.bindIndex 2 [.cstr "Hello"], .bindIndex 1 [.int64 12]])
        (Query.on (Stmt.sample 4 0 []))).1.log = [.bindText 4 "Hello" false, .bindInt64 3 12] ∧
    (Query.readColumn false 2
        (.custom [.fetchIndex false 1 [.int .qint32 0, .int .qint32 0],
          .fetchIndex false 0 [.int .qint32 0]]) sixColumns).2
      = (.custom [.fetchIndex false 1 [.int .qint32 4, .int .qint32 5],
          .fetchIndex false 0 [.int .qint32 3]], 4) ∧
    ((CustomBind.mk 1 2).bind [.int64 7] threeParameters).2.1.log = [.bindInt64 3 7] := by
  have h := custom_consumption_high_water false false 3 (Query.on (Stmt.sample 4 0 []))
  have hf := custom_consumption_high_water false false 2 sixColumns
  have hb := (custom_consumption_high_water false false 0 threeParameters).2.2.2.2
    (CustomBind.mk 1 2) [.int64 7] (by decide)
  refine ⟨?_, by decide, ?_, ?_⟩
  · rw [(h.1 [.bindIndex 2 [.cstr "Hello"], .bindIndex 1 [.int64 12]] (by decide)).1]
    decide
  · refine Prod.ext (by rfl) ?_
    rw [(hf.2.1 [.fetchIndex false 1 [.int .qint32 0, .int .qint32 0],
      .fetchIndex false 0 [.int .qint32 0]] (by decide)).1]
    decide
  · rw [hb]
    decide

/-- An accessor call keeps the counter at -1 or above. -/
theorem CustomBind.bindCall_ge (c : CustomBind) (op : BindOp) (q : Query) (h : -1 ≤ c.m_bound) :
    -1 ≤ (c.call op q).1.m_bound := by
  obtain ⟨values, hv⟩ := c.bindCall_eq op q
  rw [hv]
  by_cases hm : c.m_bound < 0
  · rw [c.bindIndex_dead _ values q hm]
    exact h
  · by_cases hi : c.indexOf op ≤ 0
    · rw [c.bindIndex_badIndex _ values q (by omega) hi]
    · by_cases hr : (Query.bindSingleHelper false (c.m_base + c.indexOf op - 1) values q).2 = 0
      · rw [c.bindIndex_failed _ values q (by omega) (by omega) hr]
      · rw [c.bindIndex_ok _ values q (by omega) (by omega) hr]
        exact le_max_of_le_left h

/-- The calls on an accessor keep the counter at -1 or above. -/
theorem CustomBind.bindRun_ge :
    ∀ (ops : List BindOp) (c : CustomBind) (q : Query), -1 ≤ c.m_bound →
      -1 ≤ (c.run ops q).1.m_bound := by
  intro ops
  induction ops with
  | nil => intro c q h; exact h
  | cons op rest ih =>
    intro c q h
    simp only [CustomBind.run]
    exact ih _ _ (c.bindCall_ge op q h)

/-- A `fetchIndex` call keeps the counter at -1 or above. -/
theorem CustomFetch.fetchIndex_ge (c : CustomFetch) (strict : Bool) (i : Int)
    (values : List FetchArg) (q : Query) (h : -1 ≤ c.m_fetched) :
    -1 ≤ (c.fetchIndex strict i values q).1.m_fetched := by
  by_cases hm : c.m_fetched < 0
  · rw [c.fetchIndex_dead strict i values q hm]
    exact h
  · by_cases hi : i < 0
    · rw [c.fetchIndex_badIndex strict i values q (by omega) hi]
    · by_cases hr : (Query.readColumnHelper strict (c.m_base + i) values q).2.2 = 0
      · rw [c.fetchIndex_failed strict i values q (by omega) (by omega) hr]
      · rw [c.fetchIndex_ok strict i values q (by omega) (by omega) hr]
        exact le_max_of_le_left h

/-- An accessor call keeps the counter at -1 or above. -/
theorem CustomFetch.fetchCall_ge (c : CustomFetch) (op : FetchOp) (q : Query)
    (h : -1 ≤ c.m_fetched) : -1 ≤ (c.call op q).1.m_fetched := by
  cases op with
  | fetch values => exact c.fetchIndex_ge c.m_strict 0 values q h
  | fetchIndex s i values => exact c.fetchIndex_ge s i values q h

/-- The calls on an accessor keep the counter at -1 or above. -/
theorem CustomFetch.fetchRun_ge :
    ∀ (ops : List FetchOp) (c : CustomFetch) (q : Query), -1 ≤ c.m_fetched →
      -1 ≤ (c.run ops q).1.m_fetched := by
  intro ops
  induction ops with
  | nil => intro c q h; exact h
  | cons op rest ih =>
    intro c q h
    simp only [CustomFetch.run]
    exact ih _ _ (c.fetchCall_ge op q h)

/-- C18. A custom accessor is poisoned by its first failure.  On a live accessor,
`bindIndex` with `i ≤ 0` (`fetchIndex` with `i < 0`) sets MISUSE, returns 0 and leaves the
counter at -1 without any engine call; a call whose inner bind (fetch) returns 0 returns 0
and leaves the counter at -1.  Every call on an accessor whose counter is negative returns 0
and changes nothing (no engine call, destinations untouched).  And when, after any calls
`pre`, a call returns 0, the generic `bindSingle<T>` (`readColumn<T>`) returns 0 in the state
that call left, whatever calls `post` follow. -/
theorem custom_accessor_poisoned (t strict : Bool) (base : Int) (q : Query) :
    (∀ (c : CustomBind) (i : Int) (values : List BindArg), 0 ≤ c.m_bound → i ≤ 0 →
      c.bindIndex i values q
        = ({ c with m_bound := -1 }, q.setInternalError SQLiteCode.MISUSE, 0)) ∧
    (∀ (c : CustomBind) (i : Int) (values : List BindArg), 0 ≤ c.m_bound → 0 < i →
      (Query.bindSingle false (c.m_base + i - 1) (.tuple values) q).2 = 0 →
      c.bindIndex i values q
        = ({ c with m_bound := -1 },
            (Query.bindSingle false (c.m_base + i - 1) (.tuple values) q).1, 0)) ∧
    (∀ (c : CustomBind) (op : BindOp), c.m_bound < 0 → c.call op q = (c, q, 0)) ∧
    (∀ (pre post : List BindOp) (op : BindOp),
      (((CustomBind.new base).run pre q).1.call op
        ((CustomBind.new base).run pre q).2.1).2.2 = 0 →
      Query.bindSingle t base (.custom (pre ++ op :: post)) q
        = ((((CustomBind.new base).run pre q).1.call op
            ((CustomBind.new base).run pre q).2.1).2.1, 0)) ∧
    (∀ (c : CustomFetch) (s : Bool) (i : Int) (values : List FetchArg),
      0 ≤ c.m_fetched → i < 0 →
      c.fetchIndex s i values q
        = ({ c with m_fetched := -1 }, q.setInternalError SQLiteCode.MISUSE, values, 0)) ∧
    (∀ (c : CustomFetch) (s : Bool) (i : Int) (values : List FetchArg),
      0 ≤ c.m_fetched → 0 ≤ i →
      (Query.readColumn s (c.m_base + i) (.tuple values) q).2.2 = 0 →
      (c.fetchIndex s i values q).1 = { c with m_fetched := -1 } ∧
      (c.fetchIndex s i values q).2.1 = (Query.readColumn s (c.m_base + i) (.tuple values) q).1 ∧
      (c.fetchIndex s i values q).2.2.2 = 0) ∧
    (∀ (c : CustomFetch) (op : FetchOp), c.m_fetched < 0 → c.call op q = (c, q, op, 0)) ∧
    (∀ (pre post : List FetchOp) (op : FetchOp),
      (((CustomFetch.new strict base).run pre q).1.call op
        ((CustomFetch.new strict base).run pre q).2.1).2.2.2 = 0 →
      Query.readColumn strict base (.custom (pre ++ op :: post)) q
        = ((((CustomFetch.new strict base).run pre q).1.call op
              ((CustomFetch.new strict base).run pre q).2.1).2.1,
            .custom (((CustomFetch.new strict base).run pre q).2.2.1 ++
              (((CustomFetch.new strict base).run pre q).1.call op
                ((CustomFetch.new strict base).run pre q).2.1).2.2.1 :: post),
            0)) := by
  refine ⟨?_, ?_, ?_, ?_, ?_, ?_, ?_, ?_⟩
  · intro c i values hc hi
    exact c.bindIndex_badIndex i values q hc hi
  · intro c i values hc hi hr
    rw [bindSingle_tuple] at hr ⊢
    exact c.bindIndex_failed i values q hc hi hr
  · intro c op hc
    exact c.bindCall_dead op q hc
  · intro pre post op h
    have hdead := CustomBind.bindCall_zero _ op _ h
    have hge := CustomBind.bindCall_ge _ op ((CustomBind.new base).run pre q).2.1
      (CustomBind.bindRun_ge pre (CustomBind.new base) q (show (-1 : Int) ≤ 0 by decide))
    have hrun := CustomBind.bindRun_dead post _
      (((CustomBind.new base).run pre q).1.call op ((CustomBind.new base).run pre q).2.1).2.1
      hdead
    have hnew : (⟨base, 0⟩ : CustomBind) = CustomBind.new base := rfl
    simp only [Query.bindSingle, bindOps_eq_run, hnew, CustomBind.bindRun_append, CustomBind.run,
      hrun.1, hrun.2]
    refine Prod.ext rfl ?_
    show _ + 1 = (0 : Int)
    omega
  · intro c s i values hc hi
    exact c.fetchIndex_badIndex s i values q hc hi
  · intro c s i values hc hi hr
    rw [readColumn_tuple] at hr ⊢
    rw [c.fetchIndex_failed s i values q hc hi hr]
    exact ⟨rfl, rfl, rfl⟩
  · intro c op hc
    exact c.fetchCall_dead op q hc
  · intro pre post op h
    have hdead := CustomFetch.fetchCall_zero _ op _ h
    have hge := CustomFetch.fetchCall_ge _ op ((CustomFetch.new strict base).run pre q).2.1
      (CustomFetch.fetchRun_ge pre (CustomFetch.new strict base) q (show (-1 : Int) ≤ 0 by decide))
    have hrun := CustomFetch.fetchRun_dead post _
      (((CustomFetch.new strict base).run pre q).1.call op
        ((CustomFetch.new strict base).run pre q).2.1).2.1
      hdead
    have hnew : (⟨strict, base, 0⟩ : CustomFetch) = CustomFetch.new strict base := rfl
    simp only [Query.readColumn, fetchOps_eq_run, hnew, CustomFetch.fetchRun_append,
      CustomFetch.run, hrun.1, hrun.2.1, hrun.2.2]
    refine Prod.ext rfl (Prod.ext rfl ?_)
    show _ + 1 = (0 : Int)
    omega

theorem custom_accessor_poisoned_witness :
    (Query.bindSingle false 1
        (.custom [.bindIndex 1 [.int64 5], .bindIndex 0 [.int64 6], .bind [.int64 7]])
        threeParameters).2 = 0 ∧
    (Query.bindSingle false 1
        (.custom [.bindIndex 1 [.int64 5], .bindIndex 0 [.int64 6], .bind [.int64 7]])
        threeParameters).1.log = [.bindInt64 1 5] ∧
    (Query.bindSingle false 1
        (.custom [.bindIndex 1 [.int64 5], .bindIndex 0 [.int64 6], .bind [.int64 7]])
        threeParameters).1.m_error = SQLiteCode.MISUSE ∧
    (Query.readColumn true 0
        (.custom [.fetch [.qstring "old"], .fetchIndex true 1 [.int .qint32 0]])
        (Query.onRow [.integer 1, .integer 2])).2
      = (.custom [.fetch [.qstring "old"], .fetchIndex true 1 [.int .qint32 0]], 0) ∧
    (Query.readColumn true 0
        (.custom [.fetch [.qstring "old"], .fetchIndex true 1 [.int .qint32 0]])
        (Query.onRow [.integer 1, .integer 2])).1.log = [.step, .columnType 0] ∧
    ((CustomBind.mk 1 0).bindIndex 5 [.int64 1] threeParameters).1.m_bound = -1 := by
  have h := custom_accessor_poisoned false true 1 threeParameters
  have hf := custom_accessor_poisoned false true 0 (Query.onRow [.integer 1, .integer 2])
  have hb := h.2.2.2.1 [.bindIndex 1 [.int64 5]] [.bind [.int64 7]] (.bindIndex 0 [.int64 6])
    (by decide)
  have hff := hf.2.2.2.2.2.2.2 [] [.fetchIndex true 1 [.int .qint32 0]]
    (.fetch [.qstring "old"]) (by decide)
  have hi := h.2.1 (CustomBind.mk 1 0) 5 [.int64 1] (by decide) (by decide) (by decide)
  simp only [List.cons_append, List.nil_append] at hb hff
  refine ⟨?_, ?_, ?_, ?_, ?_, ?_⟩
  · rw [hb]
  · rw [hb]; decide
  · rw [hb]; decide
  · rw [hff]; rfl
  · rw [hff]; decide
  · rw [hi]

/-- C16. `CustomFetch::fetch(values...)` is `fetchIndex(m_strict, 0, values...)` whatever
`numFetched()` is: every `fetch` call reads from the base column.  On the row (10, 20), an
overload that calls `fetch(x)` and then `fetch(y)` on the accessor of base 0 reads column 0
twice: `x` and `y` both end as 10, column 1 is never read, and the custom fetch reports 2
(one column), although `numFetched()` is 1 after the first call.  The bind sibling, with the
calls `bind(1)`, `bind(2)`, does continue: it binds the parameters 1 and 2 and reports 3. -/
theorem customFetch_fetch_restarts_at_base :
    (∀ (c : CustomFetch) (values : List FetchArg) (q : Query),
      c.fetch values q = c.fetchIndex c.m_strict 0 values q) ∧
    (Query.readColumn false 0 (.custom [.fetch [.int .qint32 0], .fetch [.int .qint32 0]])
        (Query.onRow [.integer 10, .integer 20])).2
      = (.custom [.fetch [.int .qint32 10], .fetch [.int .qint32 10]], 2) ∧
    (Query.readColumn false 0 (.custom [.fetch [.int .qint32 0], .fetch [.int .qint32 0]])
        (Query.onRow [.integer 10, .integer 20])).1.log
      = [.step, .columnInt64 0, .columnInt64 0] ∧
    ((CustomFetch.new false 0).fetch [.int .qint32 0]
        (Query.onRow [.integer 10, .integer 20])).1.numFetched = 1 ∧
    (((CustomFetch.new false 0).fetch [.int .qint32 0]
        (Query.onRow [.integer 10, .integer 20])).1.fetch [.int .qint32 0]
      ((CustomFetch.new false 0).fetch [.int .qint32 0]
        (Query.onRow [.integer 10, .integer 20])).2.1).2.2
      = ([.int .qint32 10], 2) ∧
    (Query.bindSingle false 1 (.custom [.bind [.int64 1], .bind [.int64 2]])
        threeParameters).2 = 3 ∧
    (Query.bindSingle false 1 (.custom [.bind [.int64 1], .bind [.int64 2]])
        threeParameters).1.log = [.bindInt64 1 1, .bindInt64 2 2] := by
  refine ⟨fun _ _ _ => rfl, by rfl, by decide, by decide, by rfl, by decide, by decide⟩

/-! ## The open flags -/

/-- The four values `Db::Db` can hand to the engine, by the two tests it makes. -/
theorem sqliteFlags_cases (flags : Nat) :
    (flags &&& QIODevice.ReadWrite ≠ 0 → flags &&& QIODevice.Append = 0 →
      Db.sqliteFlags flags
        = SQLITE_OPEN_EXRESCODE ||| SQLITE_OPEN_READWRITE ||| SQLITE_OPEN_CREATE) ∧
    (flags &&& QIODevice.ReadWrite ≠ 0 → flags &&& QIODevice.Append ≠ 0 →
      Db.sqliteFlags flags = SQLITE_OPEN_EXRESCODE ||| SQLITE_OPEN_READWRITE) ∧
    (flags &&& QIODevice.ReadWrite = 0 → flags &&& QIODevice.Append = 0 →
      Db.sqliteFlags flags
        = SQLITE_OPEN_EXRESCODE ||| SQLITE_OPEN_READONLY ||| SQLITE_OPEN_CREATE) ∧
    (flags &&& QIODevice.ReadWrite = 0 → flags &&& QIODevice.Append ≠ 0 →
      Db.sqliteFlags flags = SQLITE_OPEN_EXRESCODE ||| SQLITE_OPEN_READONLY) := by
  refine ⟨?_, ?_, ?_, ?_⟩ <;> intro h1 h2
  · simp only [Db.sqliteFlags, if_pos h1, if_pos h2]
  · simp only [Db.sqliteFlags, if_pos h1, if_neg h2]
  · have h1' : ¬ (flags &&& QIODevice.ReadWrite ≠ 0) := by simp [h1]
    simp only [Db.sqliteFlags, if_neg h1', if_pos h2]
  · have h1' : ¬ (flags &&& QIODevice.ReadWrite ≠ 0) := by simp [h1]
    simp only [Db.sqliteFlags, if_neg h1', if_neg h2]

/-- C25. `Db::Db` tests `flags&QIODevice::ReadWrite`, and `ReadWrite` is
`ReadOnly|WriteOnly`: the mode `QIODevice::ReadOnly` has a bit in common with it, so it
yields `SQLITE_OPEN_READWRITE` (with `SQLITE_OPEN_CREATE`), not `SQLITE_OPEN_READONLY`.  For
every mode exactly one of the two flags is set, READWRITE exactly when the mode has the
`ReadOnly` or the `WriteOnly` bit, and CREATE exactly when the `Append` bit is absent. -/
theorem db_open_flags_readonly_mode :
    Db.sqliteFlags QIODevice.ReadOnly
      = SQLITE_OPEN_EXRESCODE ||| SQLITE_OPEN_READWRITE ||| SQLITE_OPEN_CREATE ∧
    flagSet SQLITE_OPEN_READWRITE (Db.sqliteFlags QIODevice.ReadOnly) = true ∧
    flagSet SQLITE_OPEN_READONLY (Db.sqliteFlags QIODevice.ReadOnly) = false ∧
    flagSet SQLITE_OPEN_READWRITE (Db.sqliteFlags QIODevice.ReadWrite) = true ∧
    flagSet SQLITE_OPEN_READONLY (Db.sqliteFlags 0) = true ∧
    (∀ flags : Nat, flagSet SQLITE_OPEN_READWRITE (Db.sqliteFlags flags)
      = (flags &&& QIODevice.ReadWrite != 0)) ∧
    (∀ flags : Nat, flagSet SQLITE_OPEN_READONLY (Db.sqliteFlags flags)
      = !(flagSet SQLITE_OPEN_READWRITE (Db.sqliteFlags flags))) ∧
    (∀ flags : Nat, flagSet SQLITE_OPEN_CREATE (Db.sqliteFlags flags)
      = (flags &&& QIODevice.Append == 0)) := by
  refine ⟨by decide, by decide, by decide, by decide, by decide, ?_, ?_, ?_⟩
  · intro flags
    obtain ⟨c1, c2, c3, c4⟩ := sqliteFlags_cases flags
    by_cases h1 : flags &&& QIODevice.ReadWrite = 0 <;>
      by_cases h2 : flags &&& QIODevice.Append = 0
    · rw [c3 h1 h2, h1]; decide
    · rw [c4 h1 h2, h1]; decide
    · rw [c1 h1 h2, bne_iff_ne.mpr h1]; decide
    · rw [c2 h1 h2, bne_iff_ne.mpr h1]; decide
  · intro flags
    obtain ⟨c1, c2, c3, c4⟩ := sqliteFlags_cases flags
    by_cases h1 : flags &&& QIODevice.ReadWrite = 0 <;>
      by_cases h2 : flags &&& QIODevice.Append = 0
    · rw [c3 h1 h2]; decide
    · rw [c4 h1 h2]; decide
    · rw [c1 h1 h2]; decide
    · rw [c2 h1 h2]; decide
  · intro flags
    obtain ⟨c1, c2, c3, c4⟩ := sqliteFlags_cases flags
    by_cases h1 : flags &&& QIODevice.ReadWrite = 0 <;>
      by_cases h2 : flags &&& QIODevice.Append = 0
    · rw [c3 h1 h2, h2]; decide
    · rw [c4 h1 h2, beq_eq_false_iff_ne.mpr h2]; decide
    · rw [c1 h1 h2, h2]; decide
    · rw [c2 h1 h2, beq_eq_false_iff_ne.mpr h2]; decide

/-! ## The compound helpers: bindings, error codes -/

/-- C27. `bindAll` tests `ret<=0` and `bindTemporaryAll` tests `ret<0` on the result of
`bindSingleWithChecks`, which is never negative.  On a statement with one parameter, binding
the two values 1 and 2: both issue the binds at the indices 1 and 2 and both return 0, but
`bindAll` leaves the engine's `SQLITE_RANGE`, while `bindTemporaryAll` goes on to
`assertBindColumnCount(-1)`, which calls `sqlite3_bind_parameter_count` and replaces the
error code with `SQLITE_CONSTRAINT`.  When all binds are accepted the two agree. -/
theorem bindTemporaryAll_overwrites_error :
    (Query.bindAll [.int64 1, .int64 2] (Query.on (Stmt.sample 1 0 []))).2 = 0 ∧
    (Query.bindTemporaryAll [.int64 1, .int64 2] (Query.on (Stmt.sample 1 0 []))).2 = 0 ∧
    (Query.bindAll [.int64 1, .int64 2] (Query.on (Stmt.sample 1 0 []))).1.m_error
      = SQLiteCode.RANGE ∧
    (Query.bindTemporaryAll [.int64 1, .int64 2] (Query.on (Stmt.sample 1 0 []))).1.m_error
      = SQLiteCode.CONSTRAINT ∧
    (Query.bindAll [.int64 1, .int64 2] (Query.on (Stmt.sample 1 0 []))).1.log
      = [.bindInt64 1 1, .bindInt64 2 2] ∧
    (Query.bindTemporaryAll [.int64 1, .int64 2] (Query.on (Stmt.sample 1 0 []))).1.log
      = [.bindInt64 1 1, .bindInt64 2 2, .bindParameterCount] ∧
    (Query.bindAll [.int64 1] (Query.on (Stmt.sample 1 0 [])))
      = (Query.bindTemporaryAll [.int64 1] (Query.on (Stmt.sample 1 0 []))) := by
  refine ⟨by decide, by decide, by decide, by decide, by decide, by decide, by rfl⟩

/-- C29. The second call of `test04Call`: on the one-row query (1, 2, 3, "Foo"),
`executeSingle` through `Call<int, UnusedN<2>, QString>` with a callback that returns false.
The fetch of the wrapper returns 0 and sets DONE; back in `executeSingleAllGeneric` the
branch `else if(isDone())` replaces it with `SQLITE_CONSTRAINT` ("Step single query returned
no rows"): the call returns 0 with the status CONSTRAINT, the same status as for a query
that returned no row. -/
theorem executeSingle_rejecting_callback_is_constraint :
    (Query.stepAllGeneric false [.tuple [.call [.int .qint32 0, .unused 2, .qstring ""]
        (some rejectRow)]]
      (Query.on (Stmt.sample 4 4
        [(SQLiteCode.ROW, [.integer 1, .integer 2, .integer 3, .text "Foo"])]))).2.2 = 0 ∧
    (Query.stepAllGeneric false [.tuple [.call [.int .qint32 0, .unused 2, .qstring ""]
        (some rejectRow)]]
      (Query.on (Stmt.sample 4 4
        [(SQLiteCode.ROW, [.integer 1, .integer 2, .integer 3, .text "Foo"])]))).1.m_error
      = SQLiteCode.DONE ∧
    (Query.executeSingle [.int64 1, .int64 2, .int64 3, .cstr "Foo"]
        [.call [.int .qint32 0, .unused 2, .qstring ""] (some rejectRow)]
      (Query.on (Stmt.sample 4 4
        [(SQLiteCode.ROW, [.integer 1, .integer 2, .integer 3, .text "Foo"])]))).2.2 = 0 ∧
    (Query.executeSingle [.int64 1, .int64 2, .int64 3, .cstr "Foo"]
        [.call [.int .qint32 0, .unused 2, .qstring ""] (some rejectRow)]
      (Query.on (Stmt.sample 4 4
        [(SQLiteCode.ROW, [.integer 1, .integer 2, .integer 3, .text "Foo"])]))).1.m_error
      = SQLiteCode.CONSTRAINT ∧
    (Query.executeSingle [.int64 1, .int64 2, .int64 3, .cstr "Foo"]
        [.call [.int .qint32 0, .unused 2, .qstring ""] (some rejectRow)]
      (Query.on (Stmt.sample 4 4
        [(SQLiteCode.ROW, [.integer 1, .integer 2, .integer 3, .text "Foo"])]))).1.log
      = [.reset, .bindInt64 1 1, .bindInt64 2 2, .bindInt64 3 3, .bindText 4 "Foo" false,
          .bindParameterCount, .step, .columnInt64 0, .columnText 3] ∧
    (Query.executeSingle [.int64 1, .int64 2, .int64 3, .cstr "Foo"]
        [.call [.int .qint32 0, .unused 2, .qstring ""] (some rejectRow)]
      (Query.on (Stmt.sample 4 4 []))).1.m_error = SQLiteCode.CONSTRAINT := by
  refine ⟨by decide, by decide, by decide, by decide, by decide, by decide⟩

/-! ## `prepare` -/

/-- C28, as stated, fails: on a valid connection, with a prepared statement whose last step
ended in `SQLITE_CONSTRAINT`, `prepare` of a text the engine compiles returns false: the
finalize of the old statement reports the pending error, the text is not handed to the
engine, and the query is left unprepared with that error.  And for a text that holds no SQL
the engine reports OK without a statement: `prepare` returns true and the query is not
prepared. -/
theorem prepare_after_failed_step :
    Query.failedStep.isDbValid = true ∧ Query.failedStep.isPrepared = true ∧
    (sqlite3_prepare_v3 (.ok (some (Stmt.sample 0 1 [])))).1 = SQLiteCode.OK ∧
    (Query.failedStep.prepare (.ok (some (Stmt.sample 0 1 [])))).2 = false ∧
    (Query.failedStep.prepare (.ok (some (Stmt.sample 0 1 [])))).1.isPrepared = false ∧
    (Query.failedStep.prepare (.ok (some (Stmt.sample 0 1 [])))).1.m_error
      = SQLiteCode.CONSTRAINT ∧
    (Query.failedStep.prepare (.ok (some (Stmt.sample 0 1 [])))).1.log = [.step, .finalize] ∧
    ((Query.new true SQLiteCode.OK).prepare (.ok none)).2 = true ∧
    ((Query.new true SQLiteCode.OK).prepare (.ok none)).1.isPrepared = false := by
  refine ⟨by decide, by decide, by decide, by decide, by decide, by decide, by decide,
    by decide, by decide⟩

/-- C28, amended. On a valid connection `prepare` first finalizes the statement the query
holds.  It returns true exactly when that finalize reports OK (there is no statement, or its
last step did not end in an engine error) and the engine compiles the text with OK; the
error code is then OK and the statement is the one the engine produced.  When it returns
false the query is left unprepared with an error code other than OK.  When the statement held
has a pending step error, `prepare` returns false with that error code, unprepared, and the
finalize is the only call made to the engine: the text is not handed to it.  When the
finalize is clean the text is handed to the engine once, after the finalize if a statement
was held, and the error code and the statement are those the engine answers, `prepare`
returning whether that code is OK.  The connection is unchanged. -/
theorem prepare_outcome (q : Query) (compiled : Except Int (Option Stmt))
    (hv : q.isDbValid = true) :
    ((q.prepare compiled).2 = true ↔
      (q.finalizesClean ∧ (sqlite3_prepare_v3 compiled).1 = SQLiteCode.OK)) ∧
    ((q.prepare compiled).2 = true →
      (q.prepare compiled).1.m_error = SQLiteCode.OK ∧
      (q.prepare compiled).1.m_stmt = (sqlite3_prepare_v3 compiled).2) ∧
    ((q.prepare compiled).2 = false →
      (q.prepare compiled).1.m_stmt = none ∧
      (q.prepare compiled).1.m_error ≠ SQLiteCode.OK) ∧
    (∀ s, q.m_stmt = some s → s.pendingError ≠ SQLiteCode.OK →
      (q.prepare compiled).2 = false ∧
      (q.prepare compiled).1.m_error = s.pendingError ∧
      (q.prepare compiled).1.m_stmt = none ∧
      (q.prepare compiled).1.log = q.log ++ [.finalize]) ∧
    (q.finalizesClean →
      (q.prepare compiled).2 = ((sqlite3_prepare_v3 compiled).1 == SQLiteCode.OK) ∧
      (q.prepare compiled).1.m_error = (sqlite3_prepare_v3 compiled).1 ∧
      (q.prepare compiled).1.m_stmt = (sqlite3_prepare_v3 compiled).2 ∧
      (q.prepare compiled).1.log
        = q.log ++ (if q.m_stmt.isSome then [.finalize] else []) ++ [.prepare]) ∧
    (q.prepare compiled).1.dbValid = q.dbValid := by
  have hcomp : (sqlite3_prepare_v3 compiled).1 ≠ SQLiteCode.OK →
      (sqlite3_prepare_v3 compiled).2 = none := by
    cases compiled with
    | error rc => intro _; rfl
    | ok stmt => intro h; exact absurd rfl h
  cases hs : q.m_stmt with
  | none =>
    have hclean : q.finalizesClean := by
      intro s h; rw [hs] at h; cases h
    by_cases hc : (sqlite3_prepare_v3 compiled).1 = SQLiteCode.OK
    · simp [Query.prepare, hv, hs, hc, hclean, Query.call]
    · simp [Query.prepare, hv, hs, hc, hclean, Query.call, hcomp hc]
  | some s =>
    by_cases hf : s.pendingError = SQLiteCode.OK
    · have hclean : q.finalizesClean := by
        intro s' h; rw [hs] at h; cases h; exact hf
      by_cases hc : (sqlite3_prepare_v3 compiled).1 = SQLiteCode.OK
      · simp [Query.prepare, hv, hs, hc, hclean, Query.call, sqlite3_finalize, hf]
      · simp [Query.prepare, hv, hs, hc, hclean, Query.call, sqlite3_finalize, hf, hcomp hc]
    · have hclean : ¬ q.finalizesClean := by
        intro h; exact hf (h s hs)
      simp [Query.prepare, hv, hs, hclean, Query.call, sqlite3_finalize, hf]

theorem prepare_outcome_witness :
    ((Query.new true SQLiteCode.MISUSE).prepare (.ok (some (Stmt.sample 0 1 [])))).2 = true ∧
    ((Query.new true SQLiteCode.MISUSE).prepare (.ok (some (Stmt.sample 0 1 [])))).1.m_error
      = SQLiteCode.OK ∧
    ((Query.new true SQLiteCode.MISUSE).prepare (.error 1)).1.m_stmt = none ∧
    ((Query.new true SQLiteCode.MISUSE).prepare (.error 1)).1.m_error = 1 ∧
    ((Query.new true SQLiteCode.MISUSE).prepare (.error 1)).1.log = [.prepare] ∧
    (Query.failedStep.prepare (.ok (some (Stmt.sample 0 1 [])))).1.m_error
      = SQLiteCode.CONSTRAINT ∧
    (Query.failedStep.prepare (.ok (some (Stmt.sample 0 1 [])))).1.log
      = [.step, .finalize] := by
  have h := prepare_outcome (Query.new true SQLiteCode.MISUSE)
    (.ok (some (Stmt.sample 0 1 []))) (by decide)
  have h2 := prepare_outcome (Query.new true SQLiteCode.MISUSE) (.error 1) (by decide)
  have h3 := (prepare_outcome Query.failedStep (.ok (some (Stmt.sample 0 1 [])))
    (by decide)).2.2.2.1 { Stmt.sample 0 1 [] with lastStep := SQLiteCode.CONSTRAINT } rfl
    (by decide)
  have ht : ((Query.new true SQLiteCode.MISUSE).prepare
      (.ok (some (Stmt.sample 0 1 [])))).2 = true :=
    h.1.mpr ⟨(fun s hs => by cases hs), (by decide)⟩
  have h4 := h2.2.2.2.2.1 (fun s hs => by cases hs)
  exact ⟨ht, (h.2.1 ht).1, (h2.2.2.1 (by decide)).1, h4.2.1, h4.2.2.2, h3.2.1, h3.2.2.2⟩

/-! ## The `Blob` setters -/

/-- An engine call changes the script and the ghost call list only. -/
theorem BlobData.engine_fields (b : BlobData) (c : BlobCall) :
    (b.engine c).1.m_db = b.m_db ∧ (b.engine c).1.m_blob = b.m_blob ∧
    (b.engine c).1.m_database = b.m_database ∧ (b.engine c).1.m_table = b.m_table ∧
    (b.engine c).1.m_column = b.m_column ∧ (b.engine c).1.m_rowId = b.m_rowId ∧
    (b.engine c).1.m_hasRowId = b.m_hasRowId ∧ (b.engine c).1.m_readWrite = b.m_readWrite ∧
    (b.engine c).1.m_autoOpen = b.m_autoOpen ∧ (b.engine c).1.m_sizeCache = b.m_sizeCache ∧
    (b.engine c).1.calls = b.calls ++ [c] ∧ (b.engine c).2 = b.nextAnswer := by
  unfold BlobData.engine BlobData.nextAnswer
  cases b.answers <;> simp

/-- C21. `BlobData::setDatabase` takes its shortcut also when no database name is stored and
a name is given: on a `Blob` that does not open automatically (or is open) with no name
stored, `setDatabase(s)` returns true and stores nothing, so `database()` still answers
"main".  Through `Blob::set`, which switches auto-open off around its setters, a new
`Blob` set to the database "aux" is opened on the database "main".  The siblings
`setTable` and `setColumn` store the name. -/
theorem setDatabase_keeps_main :
    (Blob.manual.setDatabase (some "aux")).2 = true ∧
    Blob.database (Blob.manual.setDatabase (some "aux")).1 = "main" ∧
    (∀ (s : String) (connection : Option Nat) (readWrite : Bool) (answers : List Int),
      ((BlobData.new connection readWrite false answers).setDatabase (some s)).2 = true ∧
      ((BlobData.new connection readWrite false answers).setDatabase (some s)).1
        = BlobData.new connection readWrite false answers) ∧
    (Blob.setWithRowId (some 0) (some "aux") (some "TestTable") (some "blobColumn") 4
        (BlobData.new none false true [])).2 = true ∧
    (Blob.setWithRowId (some 0) (some "aux") (some "TestTable") (some "blobColumn") 4
        (BlobData.new none false true [])).1.m_blob
      = some ⟨0, "main", "TestTable", "blobColumn", 4, false⟩ ∧
    Blob.database (Blob.setWithRowId (some 0) (some "aux") (some "TestTable")
        (some "blobColumn") 4 (BlobData.new none false true [])).1 = "main" ∧
    (Blob.manual.setTable (some "T")).1.m_table = some "T" ∧
    (Blob.manual.setColumn (some "c")).1.m_column = some "c" := by
  refine ⟨by decide, by decide, ?_, by decide, by decide, by decide, by decide, by decide⟩
  intro s connection readWrite answers
  exact ⟨rfl, rfl⟩

/-- C23. `reopenFast(newId)` on a closed blob returns false without an engine call and leaves
it closed with its row id; on an open blob it returns true and the handle is on `newId` when
the engine accepts the reopen, and returns false with the blob closed when the engine
rejects it; in every case the size cache is reset to -1. -/
theorem reopenFast_outcomes (b : BlobData) (newId : Int) :
    (b.isOpen = false →
      (b.reopenFast newId).2 = false ∧ (b.reopenFast newId).1.isOpen = false ∧
      (b.reopenFast newId).1.m_rowId = b.m_rowId ∧ (b.reopenFast newId).1.calls = b.calls) ∧
    (b.isOpen = true → b.nextAnswer = SQLiteCode.OK →
      (b.reopenFast newId).2 = true ∧ (b.reopenFast newId).1.isOpenOn newId = true ∧
      (b.reopenFast newId).1.m_rowId = newId ∧
      (b.reopenFast newId).1.calls = b.calls ++ [.blobReopen newId]) ∧
    (b.isOpen = true → b.nextAnswer ≠ SQLiteCode.OK →
      (b.reopenFast newId).2 = false ∧ (b.reopenFast newId).1.isOpen = false) ∧
    (b.reopenFast newId).1.m_sizeCache = -1 := by
  cases hb : b.m_blob with
  | none =>
    simp [BlobData.reopenFast, BlobData.isOpen, hb]
  | some h =>
    cases hans : b.answers with
    | nil =>
      simp [BlobData.reopenFast, BlobData.isOpen, BlobData.isOpenOn, BlobData.engine,
        BlobData.nextAnswer, hb, hans]
    | cons rc rest =>
      by_cases hrc : rc = SQLiteCode.OK
      · simp [BlobData.reopenFast, BlobData.isOpen, BlobData.isOpenOn, BlobData.engine,
          BlobData.nextAnswer, hb, hans, hrc]
      · simp [BlobData.reopenFast, BlobData.isOpen, BlobData.isOpenOn, BlobData.engine,
          BlobData.nextAnswer, hb, hans, hrc]

theorem reopenFast_outcomes_witness :
    (Blob.manual.reopenFast 5).2 = false ∧
    ((Blob.documented.setRowId 4).1.reopenFast 5).2 = true ∧
    ((Blob.documented.setRowId 4).1.reopenFast 5).1.m_blob
      = some ⟨0, "main", "TestTable", "blobColumn", 5, false⟩ ∧
    ((Blob.documented.setRowId 4).1.reopenFast 5).1.m_sizeCache = -1 := by
  have h0 := (reopenFast_outcomes Blob.manual 5).1 (by decide)
  have h1 := (reopenFast_outcomes (Blob.documented.setRowId 4).1 5).2.1 (by decide)
    (by decide)
  exact ⟨h0.1, h1.1, by decide, (reopenFast_outcomes (Blob.documented.setRowId 4).1 5).2.2.2⟩

/-- C24. `open()` on a blob that misses its connection, table, column or row id, or that is
already open, returns false, leaves the blob as it is (no engine call) and stores the text of
`SQLITE_MISUSE` in the error message when one is asked for.  Otherwise it calls
`sqlite3_blob_open` once, on the database "main" when no database name is set, and returns
true exactly when the engine answers OK, the blob then being open. -/
theorem open_outcomes (b : BlobData) :
    (b.isValid = false ∨ b.isOpen = true →
      b.open_ = (b, false) ∧
      (∀ m, b.openErrorMsg (some m) = some (SQLiteCode.errorString SQLiteCode.MISUSE))) ∧
    (b.isValid = true → b.isOpen = false →
      (b.open_).1.calls
        = b.calls ++ [.blobOpen (b.m_db.getD 0) (Blob.database b) (b.m_table.getD "")
            (b.m_column.getD "") b.m_rowId (if b.m_readWrite then 1 else 0)] ∧
      ((b.open_).2 = true ↔ b.nextAnswer = SQLiteCode.OK) ∧
      ((b.open_).2 = true → (b.open_).1.isOpen = true) ∧
      ((b.open_).2 = false → (b.open_).1.isOpen = false)) ∧
    (b.m_database = none → Blob.database b = "main") ∧
    SQLiteCode.errorString SQLiteCode.MISUSE = "bad parameter or other API misuse" := by
  refine ⟨?_, ?_, ?_, by decide⟩
  · intro h
    have hg : (b.m_db.isSome && b.m_table.isSome && b.m_column.isSome && b.m_hasRowId
        && !b.m_blob.isSome) = false := by
      rcases h with h | h
      · simp only [BlobData.isValid] at h
        rw [h]; rfl
      · simp only [BlobData.isOpen] at h
        rw [h]; simp
    constructor
    · simp only [BlobData.open_, hg]
      simp
    · intro m
      simp only [BlobData.openErrorMsg, hg]
      simp
  · intro hv ho
    have hg : (b.m_db.isSome && b.m_table.isSome && b.m_column.isSome && b.m_hasRowId
        && !b.m_blob.isSome) = true := by
      simp only [BlobData.isValid] at hv
      simp only [BlobData.isOpen] at ho
      rw [hv, ho]; rfl
    rw [BlobData.open_, if_pos hg]
    cases hans : b.answers with
    | nil =>
      simp [BlobData.engine, BlobData.nextAnswer, hans, BlobData.isOpen, Blob.database]
    | cons rc rest =>
      by_cases hrc : rc = SQLiteCode.OK
      · simp [BlobData.engine, BlobData.nextAnswer, hans, BlobData.isOpen, Blob.database, hrc]
      · simp only [BlobData.isOpen] at ho
        simp [BlobData.engine, BlobData.nextAnswer, hans, BlobData.isOpen, Blob.database, hrc,
          ho]
  · intro h
    simp [Blob.database, h]

theorem open_outcomes_witness :
    Blob.manual.open_ = (Blob.manual, false) ∧
    Blob.manual.openErrorMsg (some "") = some "bad parameter or other API misuse" ∧
    (({ Blob.documented with m_rowId := 4, m_hasRowId := true } : BlobData).open_).2 = true ∧
    (({ Blob.documented with m_rowId := 4, m_hasRowId := true } : BlobData).open_).1.calls
      = [.blobOpen 0 "main" "TestTable" "blobColumn" 4 0] := by
  have h0 := (open_outcomes Blob.manual).1 (Or.inl (by decide))
  have h1 := (open_outcomes
    ({ Blob.documented with m_rowId := 4, m_hasRowId := true } : BlobData)).2.1
    (by decide) (by decide)
  refine ⟨h0.1, ?_, h1.2.1.mpr (by decide), ?_⟩
  · rw [h0.2 ""]
    decide
  · rw [h1.1]
    decide

/-! ## The invariant of `Blob` -/

/-- A closed blob satisfies the invariant. -/
theorem BlobData.openIsValid_of_closed (b : BlobData) (h : b.m_blob = none) :
    b.openIsValid := by
  intro ho
  simp [BlobData.isOpen, h] at ho

/-- `close` that returns true leaves the blob closed. -/
theorem BlobData.close_true_closed (b : BlobData) (h : (b.close).2 = true) :
    (b.close).1.m_blob = none := by
  cases hb : b.m_blob with
  | none => simp [BlobData.close, hb]
  | some hd =>
    cases hans : b.answers with
    | nil => simp [BlobData.close, hb, BlobData.engine, hans]
    | cons rc rest =>
      by_cases hrc : rc = SQLiteCode.OK
      · simp [BlobData.close, hb, BlobData.engine, hans, hrc]
      · simp [BlobData.close, hb, BlobData.engine, hans, hrc] at h

/-- `close` keeps the invariant. -/
theorem BlobData.close_inv (b : BlobData) (h : b.openIsValid) : (b.close).1.openIsValid := by
  cases hb : b.m_blob with
  | none =>
    simp only [BlobData.close, hb]
    exact h
  | some hd =>
    cases hans : b.answers with
    | nil =>
      apply BlobData.openIsValid_of_closed
      simp [BlobData.close, hb, BlobData.engine, hans]
    | cons rc rest =>
      by_cases hrc : rc = SQLiteCode.OK
      · apply BlobData.openIsValid_of_closed
        simp [BlobData.close, hb, BlobData.engine, hans, hrc]
      · intro _
        have hv := h (by simp [BlobData.isOpen, hb])
        simp only [BlobData.isValid] at hv ⊢
        simp [BlobData.close, hb, BlobData.engine, hans, hrc, hv]

/-- `open` keeps the invariant. -/
theorem BlobData.open_inv (b : BlobData) (h : b.openIsValid) : (b.open_).1.openIsValid := by
  by_cases hg : (b.m_db.isSome && b.m_table.isSome && b.m_column.isSome && b.m_hasRowId
      && !b.m_blob.isSome) = true
  · rw [BlobData.open_, if_pos hg]
    have hv : b.isValid = true := by
      simp only [BlobData.isValid]
      simp only [Bool.and_eq_true] at hg ⊢
      exact hg.1
    intro _
    simp only [BlobData.isValid] at hv ⊢
    cases hans : b.answers with
    | nil => simp [BlobData.engine, hans, hv]
    | cons rc rest =>
      by_cases hrc : rc = SQLiteCode.OK
      · simp [BlobData.engine, hans, hrc, hv]
      · simp [BlobData.engine, hans, hrc, hv]
  · rw [BlobData.open_, if_neg hg]
    exact h

/-- `reopenFast` keeps the invariant. -/
theorem BlobData.reopenFast_inv (newId : Int) (b : BlobData) (h : b.openIsValid) :
    (b.reopenFast newId).1.openIsValid := by
  cases hb : b.m_blob with
  | none =>
    apply BlobData.openIsValid_of_closed
    simp [BlobData.reopenFast, hb]
  | some hd =>
    have hv := h (by simp [BlobData.isOpen, hb])
    simp only [BlobData.isValid] at hv
    cases hans : b.answers with
    | nil =>
      intro _
      simp [BlobData.reopenFast, hb, BlobData.engine, hans, BlobData.isValid, hv]
    | cons rc rest =>
      by_cases hrc : rc = SQLiteCode.OK
      · intro _
        simp [BlobData.reopenFast, hb, BlobData.engine, hans, hrc, BlobData.isValid, hv]
      · apply BlobData.openIsValid_of_closed
        cases rest <;> simp [BlobData.reopenFast, hb, BlobData.engine, hans, hrc]

/-- `checkAutoOpen` keeps the invariant. -/
theorem BlobData.checkAutoOpen_inv (b : BlobData) (h : b.openIsValid) :
    (b.checkAutoOpen).1.openIsValid := by
  unfold BlobData.checkAutoOpen
  split_ifs
  · exact b.open_inv h
  · exact h

/-- `setAutoOpen` keeps the invariant. -/
theorem BlobData.setAutoOpen_inv (a : Bool) (b : BlobData) (h : b.openIsValid) :
    (b.setAutoOpen a).1.openIsValid := h

/-- `setReadWrite` keeps the invariant. -/
theorem BlobData.setReadWrite_inv (rw : Bool) (b : BlobData) (h : b.openIsValid) :
    (b.setReadWrite rw).1.openIsValid := by
  unfold BlobData.setReadWrite
  split_ifs
  · exact h
  · exact h

/-- `setDbPointer` keeps the invariant. -/
theorem BlobData.setDbPointer_inv (db : Option Nat) (b : BlobData) (h : b.openIsValid) :
    (b.setDbPointer db).1.openIsValid := by
  simp only [BlobData.setDbPointer]
  split_ifs with h1 h2
  · exact h
  · exact BlobData.checkAutoOpen_inv _
      (BlobData.openIsValid_of_closed _ (b.close_true_closed h2))
  · exact b.close_inv h

/-- `setDatabase` keeps the invariant. -/
theorem BlobData.setDatabase_inv (d : Option String) (b : BlobData) (h : b.openIsValid) :
    (b.setDatabase d).1.openIsValid := by
  simp only [BlobData.setDatabase]
  split_ifs with h1 h2
  · exact h
  · exact BlobData.checkAutoOpen_inv _
      (BlobData.openIsValid_of_closed _ (b.close_true_closed h2))
  · exact b.close_inv h

/-- `setTable` keeps the invariant. -/
theorem BlobData.setTable_inv (t : Option String) (b : BlobData) (h : b.openIsValid) :
    (b.setTable t).1.openIsValid := by
  simp only [BlobData.setTable]
  split_ifs with h1 h2
  · exact h
  · exact BlobData.checkAutoOpen_inv _
      (BlobData.openIsValid_of_closed _ (b.close_true_closed h2))
  · exact b.close_inv h

/-- `setColumn` keeps the invariant. -/
theorem BlobData.setColumn_inv (c : Option String) (b : BlobData) (h : b.openIsValid) :
    (b.setColumn c).1.openIsValid := by
  simp only [BlobData.setColumn]
  split_ifs with h1 h2
  · exact h
  · exact BlobData.checkAutoOpen_inv _
      (BlobData.openIsValid_of_closed _ (b.close_true_closed h2))
  · exact b.close_inv h

/-- `setRowId` keeps the invariant. -/
theorem BlobData.setRowId_inv (v : Int) (b : BlobData) (h : b.openIsValid) :
    (b.setRowId v).1.openIsValid := by
  simp only [BlobData.setRowId]
  split_ifs with h1 h2 h3 h4
  · exact h
  · exact b.reopenFast_inv v h
  · exact BlobData.openIsValid_of_closed _ (b.close_true_closed h3)
  · exact BlobData.open_inv _ (BlobData.openIsValid_of_closed _ (b.close_true_closed h3))
  · exact b.close_inv h

/-- `open(id)` keeps the invariant. -/
theorem BlobData.openId_inv (id : Int) (b : BlobData) (h : b.openIsValid) :
    (b.openId id).1.openIsValid := by
  unfold BlobData.openId
  split_ifs with h1
  · exact b.reopenFast_inv id h
  · apply BlobData.open_inv
    apply BlobData.openIsValid_of_closed
    simp only [BlobData.isOpen] at h1
    simpa using h1

/-- `Blob::set` with four arguments keeps the invariant. -/
theorem Blob.set_inv (db : Option Nat) (d t c : Option String) (b : BlobData)
    (h : b.openIsValid) : (Blob.set db d t c b).1.openIsValid := by
  have ha := b.setAutoOpen_inv false h
  have hd := (b.setAutoOpen false).1.setDbPointer_inv db ha
  have he := ((b.setAutoOpen false).1.setDbPointer db).1.setDatabase_inv d hd
  have ht := (((b.setAutoOpen false).1.setDbPointer db).1.setDatabase d).1.setTable_inv t he
  have hc := ((((b.setAutoOpen false).1.setDbPointer db).1.setDatabase d).1.setTable
    t).1.setColumn_inv c ht
  simp only [Blob.set]
  apply BlobData.checkAutoOpen_inv
  apply BlobData.setAutoOpen_inv
  split_ifs
  · exact hc
  · exact ht
  · exact he
  · exact hd
  · exact ha

/-- `Blob::set` with a row id keeps the invariant. -/
theorem Blob.setWithRowId_inv (db : Option Nat) (d t c : Option String) (rowid : Int)
    (b : BlobData) (h : b.openIsValid) :
    (Blob.setWithRowId db d t c rowid b).1.openIsValid := by
  have ha := b.setAutoOpen_inv false h
  have hd := (b.setAutoOpen false).1.setDbPointer_inv db ha
  have he := ((b.setAutoOpen false).1.setDbPointer db).1.setDatabase_inv d hd
  have ht := (((b.setAutoOpen false).1.setDbPointer db).1.setDatabase d).1.setTable_inv t he
  have hc := ((((b.setAutoOpen false).1.setDbPointer db).1.setDatabase d).1.setTable
    t).1.setColumn_inv c ht
  have hr := (((((b.setAutoOpen false).1.setDbPointer db).1.setDatabase d).1.setTable
    t).1.setColumn c).1.setRowId_inv rowid hc
  simp only [Blob.setWithRowId]
  apply BlobData.checkAutoOpen_inv
  apply BlobData.setAutoOpen_inv
  split_ifs
  · exact hr
  · exact hc
  · exact ht
  · exact he
  · exact hd
  · exact ha

/-- `Blob::set` without a column keeps the invariant. -/
theorem Blob.setTableRow_inv (db : Option Nat) (d t : Option String) (rowid : Int)
    (b : BlobData) (h : b.openIsValid) :
    (Blob.setTableRow db d t rowid b).1.openIsValid := by
  have ha := b.setAutoOpen_inv false h
  have hd := (b.setAutoOpen false).1.setDbPointer_inv db ha
  have he := ((b.setAutoOpen false).1.setDbPointer db).1.setDatabase_inv d hd
  have ht := (((b.setAutoOpen false).1.setDbPointer db).1.setDatabase d).1.setTable_inv t he
  have hr := ((((b.setAutoOpen false).1.setDbPointer db).1.setDatabase d).1.setTable
    t).1.setRowId_inv rowid ht
  simp only [Blob.setTableRow]
  apply BlobData.checkAutoOpen_inv
  apply BlobData.setAutoOpen_inv
  split_ifs
  · exact hr
  · exact ht
  · exact he
  · exact hd
  · exact ha

/-- Every call on a `Blob` keeps the invariant. -/
theorem BlobData.apply_inv (op : BlobOp) (b : BlobData) (h : b.openIsValid) :
    (b.apply op).1.openIsValid := by
  cases op with
  | open_ => exact b.open_inv h
  | openId id => exact b.openId_inv id h
  | close => exact b.close_inv h
  | reopenFast newId => exact b.reopenFast_inv newId h
  | setDbPointer db => exact b.setDbPointer_inv db h
  | setDatabase d => exact b.setDatabase_inv d h
  | setTable t => exact b.setTable_inv t h
  | setColumn c => exact b.setColumn_inv c h
  | setRowId v => exact b.setRowId_inv v h
  | setAutoOpen a => exact b.setAutoOpen_inv a h
  | setReadWrite rw => exact b.setReadWrite_inv rw h
  | set db d t c => exact Blob.set_inv db d t c b h
  | setWithRowId db d t c rowid => exact Blob.setWithRowId_inv db d t c rowid b h
  | setTableRow db d t rowid => exact Blob.setTableRow_inv db d t rowid b h

/-- Every sequence of calls on a `Blob` keeps the invariant. -/
theorem BlobData.applyAll_inv :
    ∀ (ops : List BlobOp) (b : BlobData), b.openIsValid → (b.applyAll ops).openIsValid := by
  intro ops
  induction ops with
  | nil => intro b h; exact h
  | cons op rest ih =>
    intro b h
    simp only [BlobData.applyAll]
    exact ih _ (b.apply_inv op h)

/-- C30. In every state reached from a newly constructed `Blob` (any connection, mode and
auto-open flag) by any sequence of `open`, `open(rowId)`, `close`, `reopenFast`, the setters
and the three `Blob::set`, whatever the engine answers: an open blob has its connection,
table and column set and a row id present, and on a closed blob `size()` returns -1
without an engine call. -/
theorem blob_open_implies_valid (connection : Option Nat) (readWrite autoOpen : Bool)
    (answers : List Int) (ops : List BlobOp) :
    (((BlobData.new connection readWrite autoOpen answers).applyAll ops).isOpen = true →
      ((BlobData.new connection readWrite autoOpen answers).applyAll ops).m_db.isSome = true ∧
      ((BlobData.new connection readWrite autoOpen answers).applyAll ops).m_table.isSome
        = true ∧
      ((BlobData.new connection readWrite autoOpen answers).applyAll ops).m_column.isSome
        = true ∧
      ((BlobData.new connection readWrite autoOpen answers).applyAll ops).m_hasRowId = true) ∧
    (((BlobData.new connection readWrite autoOpen answers).applyAll ops).isOpen = false →
      ((BlobData.new connection readWrite autoOpen answers).applyAll ops).size
        = ((BlobData.new connection readWrite autoOpen answers).applyAll ops, -1)) := by
  constructor
  · intro ho
    have hinv := BlobData.applyAll_inv ops (BlobData.new connection readWrite autoOpen answers)
      (BlobData.openIsValid_of_closed _ rfl) ho
    simp only [BlobData.isValid, Bool.and_eq_true] at hinv
    exact ⟨hinv.1.1.1, hinv.1.1.2, hinv.1.2, hinv.2⟩
  · intro hc
    simp only [BlobData.isOpen] at hc
    have hn : ((BlobData.new connection readWrite autoOpen answers).applyAll ops).m_blob
        = none := by
      simpa using hc
    simp only [BlobData.size, hn]

theorem blob_open_implies_valid_witness :
    ((BlobData.new none false true [1, 0]).applyAll
      [.setTable (some "T"), .setColumn (some "c"), .setRowId 3, .setDbPointer (some 0),
        .setRowId 4, .setTable none]).isOpen = false ∧
    ((BlobData.new none false true [1, 0]).applyAll
      [.setTable (some "T"), .setColumn (some "c"), .setRowId 3, .setDbPointer (some 0),
        .setRowId 4]).m_blob = some ⟨0, "main", "T", "c", 4, false⟩ ∧
    ((BlobData.new none false true [1, 0]).applyAll
      [.setTable (some "T"), .setColumn (some "c"), .setRowId 3, .setDbPointer (some 0),
        .setRowId 4]).m_hasRowId = true ∧
    ((BlobData.new none false true [1, 0]).applyAll
      [.setTable (some "T"), .setColumn (some "c"), .setRowId 3, .setDbPointer (some 0),
        .setRowId 4, .setTable none]).size.2 = -1 := by
  have h := blob_open_implies_valid none false true [1, 0]
    [.setTable (some "T"), .setColumn (some "c"), .setRowId 3, .setDbPointer (some 0),
      .setRowId 4]
  have h2 := blob_open_implies_valid none false true [1, 0]
    [.setTable (some "T"), .setColumn (some "c"), .setRowId 3, .setDbPointer (some 0),
      .setRowId 4, .setTable none]
  refine ⟨by decide, by decide, (h.1 (by decide)).2.2.2, ?_⟩
  rw [h2.2 (by decide)]

/-- On a closed blob `close` does nothing and returns true. -/
theorem BlobData.close_closed (b : BlobData) (h : b.m_blob = none) : b.close = (b, true) := by
  simp [BlobData.close, h]

/-- C22. On an auto-open blob whose connection, table and column are set, `setRowId(v)`
returns true exactly when the blob is afterwards open with the row id `v` (and, when the
handle of an open blob is on its row id, exactly when the engine handle is afterwards on the
row `v`); a false return leaves the blob closed.  On a closed blob it is the `open()` of the
blob with the row id set; on an open blob with another row id it is `reopenFast(v)`. -/
theorem setRowId_auto_open (b : BlobData) (v : Int)
    (ha : b.m_autoOpen = true) (hd : b.m_db.isSome = true) (ht : b.m_table.isSome = true)
    (hc : b.m_column.isSome = true) :
    ((b.setRowId v).2 = true ↔
      ((b.setRowId v).1.isOpen = true ∧ Blob.rowId (b.setRowId v).1 = v)) ∧
    ((b.setRowId v).2 = false → (b.setRowId v).1.isOpen = false) ∧
    (b.isOpen = false →
      b.setRowId v = ({ b with m_rowId := v, m_hasRowId := true } : BlobData).open_) ∧
    (b.isOpen = true → ¬ (b.m_hasRowId = true ∧ b.m_rowId = v) →
      b.setRowId v = b.reopenFast v) ∧
    (b.handleOnRow →
      ((b.setRowId v).2 = true ↔ (b.setRowId v).1.isOpenOn v = true) ∧
      (b.setRowId v).1.handleOnRow) := by
  have hcase : b.m_blob = none ∨ ∃ hnd, b.m_blob = some hnd := by
    cases b.m_blob with
    | none => exact Or.inl rfl
    | some hnd => exact Or.inr ⟨hnd, rfl⟩
  rcases hcase with hb | ⟨hnd, hb⟩
  · have hclose : b.close = (b, true) := b.close_closed hb
    have hdef : b.setRowId v
        = ({ b with m_rowId := v, m_hasRowId := true } : BlobData).open_ := by
      simp [BlobData.setRowId, hb, ha, hclose, BlobData.isValid, hd, ht, hc]
    have hg : (b.m_db.isSome && b.m_table.isSome && b.m_column.isSome && true
        && !b.m_blob.isSome) = true := by
      rw [hd, ht, hc, hb]; rfl
    have hopen : b.isOpen = false := by simp [BlobData.isOpen, hb]
    have h3 : b.isOpen = false →
        b.setRowId v = ({ b with m_rowId := v, m_hasRowId := true } : BlobData).open_ :=
      fun _ => hdef
    have h4 : b.isOpen = true → ¬ (b.m_hasRowId = true ∧ b.m_rowId = v) →
        b.setRowId v = b.reopenFast v := by
      intro h; rw [hopen] at h; cases h
    refine ⟨?_, ?_, h3, h4, ?_⟩ <;> rw [hdef, BlobData.open_, if_pos hg] <;>
      cases hans : b.answers with
      | nil =>
        simp [BlobData.engine, hans, BlobData.isOpen, BlobData.isOpenOn, Blob.rowId,
          BlobData.handleOnRow, hb]
      | cons rc rest =>
        by_cases hrc : rc = SQLiteCode.OK
        · simp [BlobData.engine, hans, hrc, BlobData.isOpen, BlobData.isOpenOn, Blob.rowId,
            BlobData.handleOnRow, hb]
        · simp [BlobData.engine, hans, hrc, BlobData.isOpen, BlobData.isOpenOn, Blob.rowId,
            BlobData.handleOnRow, hb]
  · have hopen : b.isOpen = true := by simp [BlobData.isOpen, hb]
    have h3 : b.isOpen = false →
        b.setRowId v = ({ b with m_rowId := v, m_hasRowId := true } : BlobData).open_ := by
      intro h; rw [hopen] at h; cases h
    by_cases hs : b.m_hasRowId = true ∧ b.m_rowId = v
    · have hdef : b.setRowId v = (b, true) := by
        simp [BlobData.setRowId, hb, hs.1, hs.2]
      have h4 : b.isOpen = true → ¬ (b.m_hasRowId = true ∧ b.m_rowId = v) →
          b.setRowId v = b.reopenFast v := fun _ hn => absurd hs hn
      refine ⟨?_, ?_, h3, h4, ?_⟩ <;> rw [hdef]
      · simp [BlobData.isOpen, Blob.rowId, hb, hs.2]
      · simp
      · intro hr
        refine ⟨?_, hr⟩
        simp [BlobData.isOpenOn, hb, hr hnd hb, hs.2]
    · have hdef : b.setRowId v = b.reopenFast v := by
        have hs' : ¬ (b.m_hasRowId = true ∧ b.m_rowId = v) := hs
        simp only [not_and] at hs'
        by_cases hh : b.m_hasRowId = true
        · have hne := hs' hh
          simp [BlobData.setRowId, hb, ha, hh, hne]
        · simp [BlobData.setRowId, hb, ha, hh]
      have h4 : b.isOpen = true → ¬ (b.m_hasRowId = true ∧ b.m_rowId = v) →
          b.setRowId v = b.reopenFast v := fun _ _ => hdef
      refine ⟨?_, ?_, h3, h4, ?_⟩ <;> rw [hdef] <;>
        cases hans : b.answers with
        | nil =>
          simp [BlobData.reopenFast, hb, BlobData.engine, hans, BlobData.isOpen,
            BlobData.isOpenOn, Blob.rowId, BlobData.handleOnRow]
        | cons rc rest =>
          by_cases hrc : rc = SQLiteCode.OK
          · simp [BlobData.reopenFast, hb, BlobData.engine, hans, hrc, BlobData.isOpen,
              BlobData.isOpenOn, Blob.rowId, BlobData.handleOnRow]
          · cases rest <;>
              simp [BlobData.reopenFast, hb, BlobData.engine, hans, hrc, BlobData.isOpen,
                BlobData.isOpenOn, Blob.rowId, BlobData.handleOnRow]

theorem setRowId_auto_open_witness :
    (Blob.documented.setRowId 4).2 = true ∧
    (Blob.documented.setRowId 4).1.m_blob
      = some ⟨0, "main", "TestTable", "blobColumn", 4, false⟩ ∧
    (({ Blob.documented with answers := [1] } : BlobData).setRowId 4).2 = false ∧
    (({ Blob.documented with answers := [1] } : BlobData).setRowId 4).1.isOpen = false ∧
    ((Blob.documented.setRowId 4).1.setRowId 9).1.isOpenOn 9 = true := by
  have h := setRowId_auto_open Blob.documented 4 (by decide) (by decide) (by decide)
    (by decide)
  have h1 := setRowId_auto_open ({ Blob.documented with answers := [1] } : BlobData) 4
    (by decide) (by decide) (by decide) (by decide)
  have h2 := setRowId_auto_open (Blob.documented.setRowId 4).1 9 (by decide) (by decide)
    (by decide) (by decide)
  refine ⟨h.1.mpr (by decide), by decide, by decide, h1.2.1 (by decide), ?_⟩
  have hrow : (Blob.documented.setRowId 4).1.handleOnRow := by
    intro hnd hh
    have hm : (Blob.documented.setRowId 4).1.m_blob
        = some ⟨0, "main", "TestTable", "blobColumn", 4, false⟩ := by decide
    rw [hm] at hh
    cases hh
    decide
  exact (h2.2.2.2.2 hrow).1.mp (by decide)

end HFSQtLi
